import Mathlib

/-!
# BalanceLife: derived-metric computations

A shallow embedding of the handlers of `src/handlers/users.go`,
`src/handlers/meals.go` and `src/handlers/workouts.go`, of the store methods of
`src/db/mongodb.go` that they reach, and of `maskConnectionString` of
`scripts/test_connections.go`.

Go's `float64` is IEEE 754 binary64.  A finite value is carried as the rational
number it denotes; every arithmetic operation computes the exact rational result
and rounds it once, to nearest with ties to even, on the binary64 grid (53 bits of
precision, least exponent -1074 for subnormals, overflow to infinity from 2^1024).
Each operation is rounded on its own, as the compiler does on amd64 at its default
level; the Go specification also allows an implementation to fuse `x*y + z` into one
rounding, which this embedding does not model.  Zero carries no sign: the code never
divides by a value that can be a negative zero, and the conversion to `int` sends
both zeros to 0.

Go's `int` is the 64-bit two's complement integer: additions wrap modulo 2^64, and
a conversion `int(f)` of a float that is not finite or whose truncation is outside
the int64 range has no defined result (the Go specification leaves it to the
implementation); it is `none` here.

A handler is a function from the decoded request to its reply and the list of the
calls it made on the store, in order.  The store is given by what it answers to each
call.  What a handler reads from outside the request is an argument: the generated id,
the readings of the clock, and the format check of the `email` binding tag.  The
binding tags `required`, `min` and `max` compare the decoded field with the parameter
of the tag, as the validation library does.

A collection of the database is the list of its documents, a document the list of its
fields under the bson names of the struct it was written from; a filter is met by a
document that has each named field with the value or in the range the filter gives.
A `time.Time` is the count of nanoseconds since the Unix epoch, and is stored in whole
milliseconds.

A Go string is carried as the sequence of its characters.  The separators that
`maskConnectionString` cuts at are ASCII, so that cutting by characters and cutting by
bytes give the same parts of a string in UTF-8.
-/

namespace BalanceLife

/-! ## binary64 -/

namespace F64

/-- Floor of the base-2 logarithm of a natural number, by halving at most `fuel` times. -/
def log2Fuel : Nat → Nat → Nat
  | 0, _ => 0
  | fuel + 1, n => if n < 2 then 0 else log2Fuel fuel (n / 2) + 1

/-- Floor of the base-2 logarithm of a positive natural number. -/
def natLog2 (n : Nat) : Nat := log2Fuel n n

/-- Binary exponent of a positive rational: the `e` with `2^e ≤ x < 2^(e+1)`. -/
def expo (x : ℚ) : Int :=
  let e0 : Int := (natLog2 x.num.natAbs : Int) - (natLog2 x.den : Int)
  if (2 : ℚ) ^ e0 ≤ x then e0 else e0 - 1

/-- Round a rational to the nearest integer, ties to the even one. -/
def rne (x : ℚ) : Int :=
  if x - ⌊x⌋ < 1 / 2 then ⌊x⌋
  else if 1 / 2 < x - ⌊x⌋ then ⌊x⌋ + 1
  else if ⌊x⌋ % 2 = 0 then ⌊x⌋ else ⌊x⌋ + 1

/-- Exponent of the unit in the last place at a positive `x`: 52 below the binary
exponent, which is held at -1022 in the subnormal range. -/
def ulpExp (x : ℚ) : Int := max (expo x) (-1022) - 52

/-- Nearest binary64 grid point to a positive rational, exponent unbounded above. -/
def rndPos (x : ℚ) : ℚ := (rne (x / (2 : ℚ) ^ ulpExp x) : ℚ) * (2 : ℚ) ^ ulpExp x

/-- Round to nearest, ties to even, on the binary64 grid (exponent unbounded above). -/
def rnd (x : ℚ) : ℚ :=
  if x = 0 then 0 else if x < 0 then -rndPos (-x) else rndPos x

end F64

/-- A binary64 value: a finite number, an infinity with its sign, or a NaN. -/
inductive F64 where
  | fin (q : ℚ)
  | inf (neg : Bool)
  | nan
  deriving DecidableEq

namespace F64

/-- The rounded result of an operation whose exact value is `x`: the nearest grid
point, or an infinity when that point is 2^1024 or beyond. -/
def round (x : ℚ) : F64 :=
  if (2 : ℚ) ^ (1024 : Int) ≤ |rnd x| then inf (decide (x < 0)) else fin (rnd x)

/-- Conversion `float64(n)` of an integer. -/
def ofInt (n : Int) : F64 := round n

/-- Negation. -/
def neg : F64 → F64
  | fin a => fin (-a)
  | inf s => inf (!s)
  | nan => nan

/-- Floating-point addition. -/
def add : F64 → F64 → F64
  | fin a, fin b => round (a + b)
  | fin _, inf s => inf s
  | inf s, fin _ => inf s
  | inf s, inf t => if s = t then inf s else nan
  | _, _ => nan

/-- Floating-point subtraction. -/
def sub (a b : F64) : F64 := add a (neg b)

/-- Floating-point multiplication. -/
def mul : F64 → F64 → F64
  | fin a, fin b => round (a * b)
  | fin a, inf s => if a = 0 then nan else inf (xor s (decide (a < 0)))
  | inf s, fin b => if b = 0 then nan else inf (xor s (decide (b < 0)))
  | inf s, inf t => inf (xor s t)
  | _, _ => nan

/-- Floating-point division; a zero divisor is the positive zero. -/
def div : F64 → F64 → F64
  | fin a, fin b =>
      if b = 0 then (if a = 0 then nan else inf (decide (a < 0))) else round (a / b)
  | fin _, inf _ => fin 0
  | inf s, fin b => inf (xor s (decide (b < 0)))
  | _, _ => nan

/-- Truncation of a rational toward zero. -/
def truncQ (q : ℚ) : Int := if 0 ≤ q then ⌊q⌋ else ⌈q⌉

/-- Conversion `int(f)`: the truncation toward zero when it fits in 64 bits. -/
def toInt : F64 → Option Int
  | fin q =>
      if -(2 : Int) ^ (63 : Nat) ≤ truncQ q ∧ truncQ q < (2 : Int) ^ (63 : Nat)
      then some (truncQ q) else none
  | _ => none

/-- Comparison `a <= b` of two floats (false when either is a NaN). -/
def le : F64 → F64 → Bool
  | fin a, fin b => decide (a ≤ b)
  | fin _, inf s => !s
  | inf s, fin _ => s
  | inf s, inf t => s || !t
  | _, _ => false

end F64

/-- Wrap-around of an integer into the int64 range. -/
def wrap64 (x : Int) : Int :=
  (x + (2 : Int) ^ (63 : Nat)) % (2 : Int) ^ (64 : Nat) - (2 : Int) ^ (63 : Nat)

/-! ## models -/

/-- Gender constants of `models/user.go`; `Gender` is a string type. -/
def GenderMale : String := "MALE"
def GenderFemale : String := "FEMALE"
def GenderOther : String := "OTHER"

/-- Activity-level constants of `models/user.go`. -/
def ActivityLow : String := "LOW"
def ActivityModerate : String := "MODERATE"
def ActivityHigh : String := "HIGH"

/-- Goal-type constants of `models/user.go`. -/
def GoalTypeLose : String := "LOSE"
def GoalTypeGain : String := "GAIN"

/-- The computed fields of `models.GoalInfo`. -/
structure GoalInfo where
  GoalType : String
  TargetCalories : Int
  TargetProtein : Option Int
  TargetCarbs : Option Int
  TargetFat : Option Int
  deriving DecidableEq

/-- The numeric fields of `models.MealPackage`. -/
structure MealPackage where
  MealType : String
  BaseCalories : Int
  BaseProtein : Int
  BaseCarbs : Int
  BaseFat : Int
  deriving DecidableEq

/-- The fields of `models.MealEntry` that `CreateMealEntry` computes or copies. -/
structure MealEntry where
  UserID : String
  PackageID : String
  PortionMultiplier : F64
  Calories : Option Int
  Protein : Option Int
  Carbs : Option Int
  Fat : Option Int
  MealType : String
  deriving DecidableEq

/-- The numeric fields of `models.WorkoutPackage`. -/
structure WorkoutPackage where
  BaseDurationMinutes : Int
  BaseCaloriesBurn : Int
  deriving DecidableEq

/-! ## calendar dates (the part of `time.Time` the code reads) -/

/-- A calendar date: what `Year()`, `Month()` and `Day()` of a `time.Time` return. -/
structure Date where
  year : Int
  month : Nat
  day : Nat
  deriving DecidableEq

/-- Gregorian leap year. -/
def isLeap (y : Int) : Bool := y % 4 = 0 && (y % 100 != 0 || y % 400 = 0)

/-- Days of a non-leap year before the first of month `m`. -/
def daysBefore : Nat → Nat
  | 1 => 0 | 2 => 31 | 3 => 59 | 4 => 90 | 5 => 120 | 6 => 151
  | 7 => 181 | 8 => 212 | 9 => 243 | 10 => 273 | 11 => 304 | 12 => 334
  | _ => 0

/-- Number of days of month `m` in year `y`. -/
def daysIn (y : Int) (m : Nat) : Nat :=
  if m = 2 then (if isLeap y then 29 else 28)
  else if m = 4 ∨ m = 6 ∨ m = 9 ∨ m = 11 then 30 else 31

/-- A date that exists in the calendar. -/
def Date.valid (d : Date) : Bool :=
  decide (1 ≤ d.month) && decide (d.month ≤ 12) && decide (1 ≤ d.day) &&
    decide (d.day ≤ daysIn d.year d.month)

/-- Day of the year as `time.Time.YearDay` gives it: 1 to 365, or 366 in a leap year. -/
def Date.YearDay (d : Date) : Nat :=
  daysBefore d.month + d.day + (if isLeap d.year && decide (2 < d.month) then 1 else 0)

/-! ## `handlers/users.go` -/

/-- A decimal constant of the source, converted to `float64` by the compiler. -/
def F64.lit (q : ℚ) : F64 := F64.round q

/-- The age computed at the head of `calculateBaseCalories`, the clock's date
`now` (the source reads `time.Now()`) made an argument. -/
def calculateBaseCalories.age (birthDate now : Date) : Int :=
  let age := now.year - birthDate.year
  if now.YearDay < birthDate.YearDay then age - 1 else age

/-- The `bmr` of `calculateBaseCalories`. -/
def calculateBaseCalories.bmr (weight height : F64) (age : Int) (gender : String) : F64 :=
  if gender = GenderMale then
    F64.sub
      (F64.add (F64.add (F64.lit (88362 / 1000)) (F64.mul (F64.lit (13397 / 1000)) weight))
        (F64.mul (F64.lit (4799 / 1000)) height))
      (F64.mul (F64.lit (5677 / 1000)) (F64.ofInt age))
  else
    F64.sub
      (F64.add (F64.add (F64.lit (447593 / 1000)) (F64.mul (F64.lit (9247 / 1000)) weight))
        (F64.mul (F64.lit (3098 / 1000)) height))
      (F64.mul (F64.lit (4330 / 1000)) (F64.ofInt age))

/-- The common shape of the two branches of `bmr`: `q0 + (q1 * weight) + (q2 * height) -
(q3 * float64(age))` evaluated in binary64, on finite operands that stay finite. -/
def calculateBaseCalories.bmrVal (q0 q1 q2 q3 w h : ℚ) (age : Int) : ℚ :=
  F64.rnd (F64.rnd (F64.rnd (F64.rnd q0 + F64.rnd (F64.rnd q1 * w)) + F64.rnd (F64.rnd q2 * h))
    - F64.rnd (F64.rnd q3 * F64.rnd (age : ℚ)))

/-- The decimal constants of the branch of `bmr` taken for a gender. -/
def calculateBaseCalories.bmrConsts (gender : String) : ℚ × ℚ × ℚ × ℚ :=
  if gender = GenderMale then (88362 / 1000, 13397 / 1000, 4799 / 1000, 5677 / 1000)
  else (447593 / 1000, 9247 / 1000, 3098 / 1000, 4330 / 1000)

/-- The decimal constant behind `activityMultiplier`. -/
def calculateBaseCalories.multiplierConst (activityLevel : String) : ℚ :=
  if activityLevel = ActivityLow then 12 / 10
  else if activityLevel = ActivityModerate then 155 / 100
  else if activityLevel = ActivityHigh then 19 / 10
  else 14 / 10

/-- The `activityMultiplier` of `calculateBaseCalories`. -/
def calculateBaseCalories.activityMultiplier (activityLevel : String) : F64 :=
  if activityLevel = ActivityLow then F64.lit (12 / 10)
  else if activityLevel = ActivityModerate then F64.lit (155 / 100)
  else if activityLevel = ActivityHigh then F64.lit (19 / 10)
  else F64.lit (14 / 10)

/-- The value `calculateBaseCalories` returns once the age is known:
`int(bmr * activityMultiplier)`. -/
def calculateBaseCalories.atAge (weight height : F64) (age : Int)
    (gender activityLevel : String) : Option Int :=
  F64.toInt (F64.mul (calculateBaseCalories.bmr weight height age gender)
    (calculateBaseCalories.activityMultiplier activityLevel))

/-- The function `calculateBaseCalories` of `handlers/users.go`. -/
def calculateBaseCalories (weight height : F64) (birthDate : Date)
    (gender activityLevel : String) (now : Date) : Option Int :=
  calculateBaseCalories.atAge weight height (calculateBaseCalories.age birthDate now)
    gender activityLevel

/-- The `targetCalories` of `CreateUser`, for a goal type that passed validation. -/
def CreateUser.targetCalories (baseCalories : Int) (goalType : String) : Int :=
  if goalType = GoalTypeLose then wrap64 (baseCalories - 500)
  else wrap64 (baseCalories + 500)

/-- The `TargetProtein` of `CreateUser`: `int(float64(targetCalories) * 0.25 / 4)`. -/
def CreateUser.targetProtein (targetCalories : Int) : Option Int :=
  F64.toInt (F64.div (F64.mul (F64.ofInt targetCalories) (F64.lit (25 / 100))) (F64.lit 4))

/-- The `TargetCarbs` of `CreateUser`: `int(float64(targetCalories) * 0.5 / 4)`. -/
def CreateUser.targetCarbs (targetCalories : Int) : Option Int :=
  F64.toInt (F64.div (F64.mul (F64.ofInt targetCalories) (F64.lit (5 / 10))) (F64.lit 4))

/-- The `TargetFat` of `CreateUser`: `int(float64(targetCalories) * 0.25 / 9)`. -/
def CreateUser.targetFat (targetCalories : Int) : Option Int :=
  F64.toInt (F64.div (F64.mul (F64.ofInt targetCalories) (F64.lit (25 / 100))) (F64.lit 9))

/-- The `Goal` that `CreateUser` puts in the new user. -/
def CreateUser.goal (baseCalories : Int) (goalType : String) : GoalInfo :=
  let targetCalories := CreateUser.targetCalories baseCalories goalType
  { GoalType := goalType
    TargetCalories := targetCalories
    TargetProtein := CreateUser.targetProtein targetCalories
    TargetCarbs := CreateUser.targetCarbs targetCalories
    TargetFat := CreateUser.targetFat targetCalories }

/-! ## `handlers/meals.go` -/

/-- One scaled field of a meal entry: `int(float64(base) * req.PortionMultiplier)`. -/
def CreateMealEntry.scaled (base : Int) (portionMultiplier : F64) : Option Int :=
  F64.toInt (F64.mul (F64.ofInt base) portionMultiplier)

/-- The `newEntry` of `CreateMealEntry`, without its id, date and timestamps. -/
def CreateMealEntry.newEntry (userID packageID : String) (portionMultiplier : F64)
    (pkg : MealPackage) : MealEntry :=
  { UserID := userID
    PackageID := packageID
    PortionMultiplier := portionMultiplier
    Calories := CreateMealEntry.scaled pkg.BaseCalories portionMultiplier
    Protein := CreateMealEntry.scaled pkg.BaseProtein portionMultiplier
    Carbs := CreateMealEntry.scaled pkg.BaseCarbs portionMultiplier
    Fat := CreateMealEntry.scaled pkg.BaseFat portionMultiplier
    MealType := pkg.MealType }

/-! ## `handlers/workouts.go` -/

/-- The `caloriesBurned` of `CreateWorkoutEntry`. -/
def CreateWorkoutEntry.caloriesBurned (pkg : WorkoutPackage) (durationMinutes : Int)
    (intensityMultiplier weight : F64) : Option Int :=
  F64.toInt
    (F64.mul
      (F64.mul
        (F64.mul (F64.ofInt pkg.BaseCaloriesBurn)
          (F64.div (F64.ofInt durationMinutes) (F64.ofInt pkg.BaseDurationMinutes)))
        intensityMultiplier)
      (F64.div weight (F64.lit 70)))

/-! ## The formulas of the specification, over exact arithmetic -/

/-- Spec 4.3: `floor(baseCaloriesBurn × (durationMinutes / baseDurationMinutes) ×
intensityMultiplier × (weight / 70.0))`. -/
def Spec.caloriesBurned (baseCaloriesBurn durationMinutes baseDurationMinutes : Int)
    (intensityMultiplier weight : ℚ) : Int :=
  ⌊(baseCaloriesBurn : ℚ) * ((durationMinutes : ℚ) / (baseDurationMinutes : ℚ))
    * intensityMultiplier * (weight / 70)⌋

/-- Spec 4.2: `floor(base × portionMultiplier)`. -/
def Spec.scaled (base : Int) (portionMultiplier : ℚ) : Int :=
  ⌊(base : ℚ) * portionMultiplier⌋

/-- Spec 4.1: the BMR, by gender. -/
def Spec.bmr (weight height : ℚ) (age : Int) (gender : String) : ℚ :=
  if gender = "MALE" then
    88362 / 1000 + 13397 / 1000 * weight + 4799 / 1000 * height - 5677 / 1000 * (age : ℚ)
  else
    447593 / 1000 + 9247 / 1000 * weight + 3098 / 1000 * height - 4330 / 1000 * (age : ℚ)

/-- Spec 4.1: the activity multiplier. -/
def Spec.activityMultiplier (activityLevel : String) : ℚ :=
  if activityLevel = "LOW" then 12 / 10
  else if activityLevel = "MODERATE" then 155 / 100
  else if activityLevel = "HIGH" then 19 / 10
  else 14 / 10

/-- Spec 4.1: the product `BMR × multiplier` before it is made an integer. -/
def Spec.scaledBmr (weight height : ℚ) (age : Int) (gender activityLevel : String) : ℚ :=
  Spec.bmr weight height age gender * Spec.activityMultiplier activityLevel

/-- Spec 4.1: whole years between two dates, one less than the difference of the
years exactly when the birthday (month and day) has not yet come in the later year. -/
def Spec.wholeYears (birthDate asOf : Date) : Int :=
  if asOf.month < birthDate.month ∨ (asOf.month = birthDate.month ∧ asOf.day < birthDate.day)
  then asOf.year - birthDate.year - 1 else asOf.year - birthDate.year

/-- Spec 4.1: `floor(targetCalories × 0.25 / 4)`. -/
def Spec.targetProtein (targetCalories : Int) : Int := ⌊(targetCalories : ℚ) * (25 / 100) / 4⌋

/-- Spec 4.1: `floor(targetCalories × 0.5 / 4)`. -/
def Spec.targetCarbs (targetCalories : Int) : Int := ⌊(targetCalories : ℚ) * (5 / 10) / 4⌋

/-- Spec 4.1: `floor(targetCalories × 0.25 / 9)`. -/
def Spec.targetFat (targetCalories : Int) : Int := ⌊(targetCalories : ℚ) * (25 / 100) / 9⌋

/-! ## Relative accuracy of rounded operations (used in the error bounds) -/

/-- One rounding keeps a positive normal number within the factor `1 - 2^-53`. -/
def F64.acc : ℚ := 1 - 1 / 2 ^ 53

/-- The computed `x` approximates the exact nonnegative `X` within `n` roundings:
`X * acc^n ≤ x` and `x * acc^n ≤ X`. -/
def F64.Near (n : Nat) (X x : ℚ) : Prop :=
  0 ≤ X ∧ 0 ≤ x ∧ X * F64.acc ^ n ≤ x ∧ x * F64.acc ^ n ≤ X

/-! ## requests, replies and the store the handlers talk to -/

/-- An instant of `time.Time`, in nanoseconds since the Unix epoch. -/
abbrev Instant := Int

/-- All of `models.GoalInfo`: the computed fields and the rest. -/
structure FullGoalInfo extends GoalInfo where
  StartDate : Instant
  StartWeight : F64
  TargetWeight : F64
  deriving DecidableEq

/-- The struct `models.User`. -/
structure User where
  ID : String
  Name : String
  Email : String
  Password : String
  Gender : String
  BirthDate : Date
  CreatedAt : Instant
  LastLoginAt : Instant
  Height : F64
  Weight : F64
  ActivityLevel : String
  Goal : FullGoalInfo
  deriving DecidableEq

/-- All of `models.MealEntry`: the computed and copied fields, the id, the date and
the two timestamps. -/
structure FullMealEntry extends MealEntry where
  ID : String
  Date : Date
  Timestamp : Instant
  CreatedAt : Instant
  deriving DecidableEq

/-- The struct `models.WorkoutEntry`. -/
structure WorkoutEntry where
  ID : String
  UserID : String
  PackageID : String
  IntensityMultiplier : F64
  DurationMinutes : Int
  CaloriesBurned : Option Int
  Date : Date
  Timestamp : Instant
  CreatedAt : Instant
  deriving DecidableEq

/-- The struct `mealEntryRequest` of `handlers/meals.go`, as decoded from the body. -/
structure mealEntryRequest where
  UserID : String
  PackageID : String
  PortionMultiplier : F64
  Date : String
  deriving DecidableEq

/-- The struct `workoutEntryRequest` of `handlers/workouts.go`, as decoded from the body. -/
structure workoutEntryRequest where
  UserID : String
  PackageID : String
  IntensityMultiplier : F64
  DurationMinutes : Int
  Date : String
  deriving DecidableEq

/-- The struct `userRegistrationRequest` of `handlers/users.go`, as decoded from the body. -/
structure userRegistrationRequest where
  Name : String
  Email : String
  Password : String
  Gender : String
  BirthDate : String
  Height : F64
  Weight : F64
  ActivityLevel : String
  Goal : String
  deriving DecidableEq

/-- What the part of the interface `db.Store` that the creating handlers call
answers: a value, or an error with its text. -/
structure Store where
  GetUser : String → Except String User
  GetMealPackage : String → Except String MealPackage
  GetWorkoutPackage : String → Except String WorkoutPackage
  CreateUser : User → Except String User
  CreateMealEntry : FullMealEntry → Except String FullMealEntry
  CreateWorkoutEntry : WorkoutEntry → Except String WorkoutEntry

/-- A call a handler makes on the store. -/
inductive StoreCall where
  | GetUser (id : String)
  | GetMealPackage (id : String)
  | GetWorkoutPackage (id : String)
  | CreateUser (user : User)
  | CreateMealEntry (entry : FullMealEntry)
  | CreateWorkoutEntry (entry : WorkoutEntry)
  deriving DecidableEq

/-- A store call that writes. -/
def StoreCall.isWrite : StoreCall → Bool
  | StoreCall.CreateUser _ => true
  | StoreCall.CreateMealEntry _ => true
  | StoreCall.CreateWorkoutEntry _ => true
  | _ => false

/-- The body of an error reply: the error of the binding (the fields that failed,
each with the tag it failed on), or a text. -/
inductive ErrorBody where
  | binding (failed : List (String × String))
  | text (message : String)
  deriving DecidableEq

/-- What a handler writes with `c.JSON`: a status with an entity, or a status with
an error. -/
inductive Reply (α : Type) where
  | json (status : Nat) (body : α)
  | error (status : Nat) (body : ErrorBody)
  deriving DecidableEq

/-- The HTTP status of a reply. -/
def Reply.status {α : Type} : Reply α → Nat
  | Reply.json s _ => s
  | Reply.error s _ => s

/-! ## binding tags (`required`, `min`, `max`) and `time.Parse` -/

/-- The zero value of a `float64`, which the tag `required` refuses. -/
def F64.isZero : F64 → Bool
  | F64.fin q => decide (q = 0)
  | _ => false

/-- The tags `required,min=lo,max=hi` on a `float64` field: the tag that fails, if any.
The bounds are the decimal parameters of the tags, parsed to `float64`. -/
def floatTags (lo hi : ℚ) (v : F64) : Option String :=
  if v.isZero then some "required"
  else if !(F64.le (F64.lit lo) v) then some "min"
  else if !(F64.le v (F64.lit hi)) then some "max"
  else none

/-- The tags `required,min=lo,max=hi` on an `int` field: the tag that fails, if any. -/
def intTags (lo hi : Int) (v : Int) : Option String :=
  if v = 0 then some "required"
  else if v < lo then some "min"
  else if hi < v then some "max"
  else none

/-- The tag `required` on a string field. -/
def requiredTag (s : String) : Option String :=
  if s = "" then some "required" else none

/-- The tag `required` on a `float64` field. -/
def requiredFloatTag (v : F64) : Option String :=
  if v.isZero then some "required" else none

/-- The entry of the binding error for a field, if a tag failed. -/
def fieldError (field : String) (failed : Option String) : List (String × String) :=
  match failed with
  | some tag => [(field, tag)]
  | none => []

/-- The tags of `PortionMultiplier`: `required,min=0.1,max=3`. -/
def mealEntryRequest.portionTags (p : F64) : Option String := floatTags (1 / 10) 3 p

/-- The fields of a `mealEntryRequest` that fail their binding tags. -/
def mealEntryRequest.fieldErrors (req : mealEntryRequest) : List (String × String) :=
  fieldError "UserID" (requiredTag req.UserID) ++
  fieldError "PackageID" (requiredTag req.PackageID) ++
  fieldError "PortionMultiplier" (mealEntryRequest.portionTags req.PortionMultiplier) ++
  fieldError "Date" (requiredTag req.Date)

/-- The tags of `IntensityMultiplier`: `required,min=0.5,max=2`. -/
def workoutEntryRequest.intensityTags (i : F64) : Option String := floatTags (1 / 2) 2 i

/-- The tags of `DurationMinutes`: `required,min=5,max=180`. -/
def workoutEntryRequest.durationTags (d : Int) : Option String := intTags 5 180 d

/-- The fields of a `workoutEntryRequest` that fail their binding tags. -/
def workoutEntryRequest.fieldErrors (req : workoutEntryRequest) : List (String × String) :=
  fieldError "UserID" (requiredTag req.UserID) ++
  fieldError "PackageID" (requiredTag req.PackageID) ++
  fieldError "IntensityMultiplier"
    (workoutEntryRequest.intensityTags req.IntensityMultiplier) ++
  fieldError "DurationMinutes" (workoutEntryRequest.durationTags req.DurationMinutes) ++
  fieldError "Date" (requiredTag req.Date)

/-- The tags of `Email`: `required,email`; the format check of the validation library
is the argument `isEmail`. -/
def userRegistrationRequest.emailTags (isEmail : String → Bool) (s : String) : Option String :=
  if s = "" then some "required" else if !(isEmail s) then some "email" else none

/-- The tags of `Password`: `required,min=6`, the length counted in characters. -/
def userRegistrationRequest.passwordTags (s : String) : Option String :=
  if s = "" then some "required" else if s.length < 6 then some "min" else none

/-- The fields of a `userRegistrationRequest` that fail their binding tags. -/
def userRegistrationRequest.fieldErrors (isEmail : String → Bool)
    (req : userRegistrationRequest) : List (String × String) :=
  fieldError "Name" (requiredTag req.Name) ++
  fieldError "Email" (userRegistrationRequest.emailTags isEmail req.Email) ++
  fieldError "Password" (userRegistrationRequest.passwordTags req.Password) ++
  fieldError "Gender" (requiredTag req.Gender) ++
  fieldError "BirthDate" (requiredTag req.BirthDate) ++
  fieldError "Height" (requiredFloatTag req.Height) ++
  fieldError "Weight" (requiredFloatTag req.Weight) ++
  fieldError "ActivityLevel" (requiredTag req.ActivityLevel) ++
  fieldError "Goal" (requiredTag req.Goal)

/-- The number written by a list of decimal digits, if they all are digits. -/
def digitsValue (cs : List Char) : Option Nat :=
  cs.foldl
    (fun acc c => match acc with
      | some n => if c.isDigit then some (10 * n + (c.toNat - 48)) else none
      | none => none)
    (some 0)

/-- The call `time.Parse("2006-01-02", s)`: four digits, a dash, two digits, a dash, two
digits and nothing else, naming a date that exists. -/
def parseDate (s : String) : Option Date :=
  match s.toList with
  | [y1, y2, y3, y4, '-', m1, m2, '-', d1, d2] =>
    match digitsValue [y1, y2, y3, y4], digitsValue [m1, m2], digitsValue [d1, d2] with
    | some y, some m, some d =>
      if Date.valid ⟨(y : Int), m, d⟩ then some ⟨(y : Int), m, d⟩ else none
    | _, _, _ => none
  | _ => none

/-! ## the creating handlers -/

/-- The handler `MealHandler.CreateMealEntry`: its reply and the calls it made on the
store, in order.  The generated id and the two readings of the clock are arguments. -/
def CreateMealEntry (store : Store) (id : String) (timestamp createdAt : Instant)
    (req : mealEntryRequest) : Reply FullMealEntry × List StoreCall :=
  if req.fieldErrors ≠ [] then
    (Reply.error 400 (ErrorBody.binding req.fieldErrors), [])
  else
    match parseDate req.Date with
    | none => (Reply.error 400 (ErrorBody.text "Invalid date format, use YYYY-MM-DD"), [])
    | some date =>
      match store.GetMealPackage req.PackageID with
      | Except.error e =>
        (Reply.error 400 (ErrorBody.text ("Invalid meal package: " ++ e)),
          [StoreCall.GetMealPackage req.PackageID])
      | Except.ok pkg =>
        let newEntry : FullMealEntry :=
          { toMealEntry :=
              CreateMealEntry.newEntry req.UserID req.PackageID req.PortionMultiplier pkg
            ID := id
            Date := date
            Timestamp := timestamp
            CreatedAt := createdAt }
        match store.CreateMealEntry newEntry with
        | Except.error e =>
          (Reply.error 500 (ErrorBody.text ("Failed to save meal entry: " ++ e)),
            [StoreCall.GetMealPackage req.PackageID, StoreCall.CreateMealEntry newEntry])
        | Except.ok createdEntry =>
          (Reply.json 201 createdEntry,
            [StoreCall.GetMealPackage req.PackageID, StoreCall.CreateMealEntry newEntry])

/-- The handler `WorkoutHandler.CreateWorkoutEntry`: its reply and the calls it made on
the store, in order.  The generated id and the two readings of the clock are
arguments. -/
def CreateWorkoutEntry (store : Store) (id : String) (timestamp createdAt : Instant)
    (req : workoutEntryRequest) : Reply WorkoutEntry × List StoreCall :=
  if req.fieldErrors ≠ [] then
    (Reply.error 400 (ErrorBody.binding req.fieldErrors), [])
  else
    match parseDate req.Date with
    | none => (Reply.error 400 (ErrorBody.text "Invalid date format, use YYYY-MM-DD"), [])
    | some date =>
      match store.GetWorkoutPackage req.PackageID with
      | Except.error e =>
        (Reply.error 400 (ErrorBody.text ("Invalid workout package: " ++ e)),
          [StoreCall.GetWorkoutPackage req.PackageID])
      | Except.ok pkg =>
        match store.GetUser req.UserID with
        | Except.error e =>
          (Reply.error 400 (ErrorBody.text ("Invalid user: " ++ e)),
            [StoreCall.GetWorkoutPackage req.PackageID, StoreCall.GetUser req.UserID])
        | Except.ok user =>
          let newEntry : WorkoutEntry :=
            { ID := id
              UserID := req.UserID
              PackageID := req.PackageID
              IntensityMultiplier := req.IntensityMultiplier
              DurationMinutes := req.DurationMinutes
              CaloriesBurned :=
                CreateWorkoutEntry.caloriesBurned pkg req.DurationMinutes
                  req.IntensityMultiplier user.Weight
              Date := date
              Timestamp := timestamp
              CreatedAt := createdAt }
          match store.CreateWorkoutEntry newEntry with
          | Except.error e =>
            (Reply.error 500 (ErrorBody.text ("Failed to save workout entry: " ++ e)),
              [StoreCall.GetWorkoutPackage req.PackageID, StoreCall.GetUser req.UserID,
                StoreCall.CreateWorkoutEntry newEntry])
          | Except.ok createdEntry =>
            (Reply.json 201 createdEntry,
              [StoreCall.GetWorkoutPackage req.PackageID, StoreCall.GetUser req.UserID,
                StoreCall.CreateWorkoutEntry newEntry])

/-- The three membership checks of `CreateUser`, in the order of the source: the text
of the first that fails. -/
def CreateUser.enumError (gender activityLevel goal : String) : Option String :=
  if gender ≠ GenderMale ∧ gender ≠ GenderFemale ∧ gender ≠ GenderOther then
    some "Invalid gender"
  else if activityLevel ≠ ActivityLow ∧ activityLevel ≠ ActivityModerate ∧
      activityLevel ≠ ActivityHigh then
    some "Invalid activity level"
  else if goal ≠ GoalTypeLose ∧ goal ≠ GoalTypeGain then
    some "Invalid goal type"
  else none

/-- The `newUser` of `CreateUser`.  `implInt` is what the conversion `int(f)` of the
implementation gives when `f` has no `int` value; it is read in that case only. -/
def CreateUser.newUser (id : String) (birthDate now : Date)
    (startDate createdAt lastLoginAt : Instant) (implInt : Int)
    (req : userRegistrationRequest) : User :=
  let baseCalories :=
    (calculateBaseCalories req.Weight req.Height birthDate req.Gender req.ActivityLevel
      now).getD implInt
  { ID := id
    Name := req.Name
    Email := req.Email
    Password := req.Password
    Gender := req.Gender
    BirthDate := birthDate
    Height := req.Height
    Weight := req.Weight
    ActivityLevel := req.ActivityLevel
    Goal :=
      { toGoalInfo := CreateUser.goal baseCalories req.Goal
        StartDate := startDate
        StartWeight := req.Weight
        TargetWeight := F64.fin 0 }
    CreatedAt := createdAt
    LastLoginAt := lastLoginAt }

/-- The handler `UserHandler.CreateUser`: its reply and the calls it made on the
store.  The format check of e-mail addresses, the generated id and the readings of
the clock are arguments. -/
def CreateUser (isEmail : String → Bool) (store : Store) (id : String) (now : Date)
    (startDate createdAt lastLoginAt : Instant) (implInt : Int)
    (req : userRegistrationRequest) : Reply User × List StoreCall :=
  if req.fieldErrors isEmail ≠ [] then
    (Reply.error 400 (ErrorBody.binding (req.fieldErrors isEmail)), [])
  else
    match parseDate req.BirthDate with
    | none =>
      (Reply.error 400 (ErrorBody.text "Invalid birth date format, use YYYY-MM-DD"), [])
    | some birthDate =>
      match CreateUser.enumError req.Gender req.ActivityLevel req.Goal with
      | some message => (Reply.error 400 (ErrorBody.text message), [])
      | none =>
        let newUser :=
          CreateUser.newUser id birthDate now startDate createdAt lastLoginAt implInt req
        match store.CreateUser newUser with
        | Except.error e =>
          (Reply.error 400 (ErrorBody.text e), [StoreCall.CreateUser newUser])
        | Except.ok createdUser =>
          (Reply.json 201 createdUser, [StoreCall.CreateUser newUser])

/-! ## example stores -/

/-- A store with the meal package `meal1`, the workout package `workout1` (30 minutes,
300 calories), no other package and no user; it accepts every write. -/
def storeWithoutUsers : Store where
  GetUser := fun _ => Except.error "user not found"
  GetMealPackage := fun id =>
    if id = "meal1" then Except.ok ⟨"LUNCH", 500, 30, 60, 15⟩
    else Except.error "meal package not found"
  GetWorkoutPackage := fun id =>
    if id = "workout1" then Except.ok ⟨30, 300⟩
    else Except.error "workout package not found"
  CreateUser := fun u => Except.ok u
  CreateMealEntry := fun e => Except.ok e
  CreateWorkoutEntry := fun e => Except.ok e

/-- A user of weight 70. -/
def exampleUser : User where
  ID := "usr1"
  Name := "John Doe"
  Email := "john@example.com"
  Password := "SecurePassword123"
  Gender := GenderMale
  BirthDate := ⟨1990, 1, 1⟩
  CreatedAt := 0
  LastLoginAt := 0
  Height := F64.fin 180
  Weight := F64.fin 70
  ActivityLevel := ActivityModerate
  Goal :=
    { toGoalInfo := CreateUser.goal 2837 GoalTypeLose
      StartDate := 0
      StartWeight := F64.fin 70
      TargetWeight := F64.fin 0 }

/-- A store with the user `usr1` and the workout package `workout0`, whose base
duration is 0 (base burn 300); it accepts every write. -/
def storeWithZeroDuration : Store where
  GetUser := fun id =>
    if id = "usr1" then Except.ok exampleUser else Except.error "user not found"
  GetMealPackage := fun _ => Except.error "meal package not found"
  GetWorkoutPackage := fun id =>
    if id = "workout0" then Except.ok ⟨0, 300⟩
    else Except.error "workout package not found"
  CreateUser := fun u => Except.ok u
  CreateMealEntry := fun e => Except.ok e
  CreateWorkoutEntry := fun e => Except.ok e

/-! ## `db/mongodb.go`: the collections as lists of documents -/

/-- The zero value of `time.Time`: 00:00:00 UTC of January 1 of the year 1. -/
def zeroTime : Instant := -62135596800000000000

/-- A `time.Time` written as a BSON date: whole milliseconds since the Unix epoch. -/
def Instant.toDateTime (t : Instant) : Int := t / 1000000

/-- A BSON date read back as a `time.Time`. -/
def Instant.ofDateTime (ms : Int) : Instant := ms * 1000000

/-- A value of a field of a stored document, for the types the models use.  A
`time.Time` of which the embedding keeps the calendar date only is carried as that
date; the embedded document of the goal is carried whole, as no filter of the source
looks into it. -/
inductive Value where
  | string (s : String)
  | objectID (hex : String)
  | int (n : Option Int)
  | double (x : F64)
  | date (d : Date)
  | dateTime (ms : Int)
  | goal (g : FullGoalInfo)
  deriving DecidableEq

/-- A stored document: its fields, under their bson names. -/
abbrev Document := List (String × Value)

/-- The document of a `models.User`, keyed by the bson tags of the struct. -/
def User.toDocument (u : User) : Document :=
  [("_id", Value.string u.ID),
   ("name", Value.string u.Name),
   ("email", Value.string u.Email),
   ("password", Value.string u.Password),
   ("gender", Value.string u.Gender),
   ("birthDate", Value.date u.BirthDate),
   ("createdAt", Value.dateTime u.CreatedAt.toDateTime),
   ("lastLoginAt", Value.dateTime u.LastLoginAt.toDateTime),
   ("height", Value.double u.Height),
   ("weight", Value.double u.Weight),
   ("activityLevel", Value.string u.ActivityLevel),
   ("goal", Value.goal
      { u.Goal with StartDate := Instant.ofDateTime u.Goal.StartDate.toDateTime })]

/-- The document of a `models.MealEntry`, keyed by the bson tags of the struct. -/
def FullMealEntry.toDocument (e : FullMealEntry) : Document :=
  [("_id", Value.string e.ID),
   ("userId", Value.string e.UserID),
   ("packageId", Value.string e.PackageID),
   ("portionMultiplier", Value.double e.PortionMultiplier),
   ("calories", Value.int e.Calories),
   ("protein", Value.int e.Protein),
   ("carbs", Value.int e.Carbs),
   ("fat", Value.int e.Fat),
   ("mealType", Value.string e.MealType),
   ("date", Value.date e.Date),
   ("timestamp", Value.dateTime e.Timestamp.toDateTime),
   ("createdAt", Value.dateTime e.CreatedAt.toDateTime)]

/-- A string field read from a document: the zero value when the field is missing,
the hex form of an object id, nothing when the field has another type. -/
def Document.getString (d : Document) (key : String) : Option String :=
  match d.lookup key with
  | none => some ""
  | some (Value.string s) => some s
  | some (Value.objectID hex) => some hex
  | some _ => none

/-- An `int` field read from a document. -/
def Document.getInt (d : Document) (key : String) : Option (Option Int) :=
  match d.lookup key with
  | none => some (some 0)
  | some (Value.int n) => some n
  | some _ => none

/-- A `float64` field read from a document. -/
def Document.getDouble (d : Document) (key : String) : Option F64 :=
  match d.lookup key with
  | none => some (F64.fin 0)
  | some (Value.double x) => some x
  | some _ => none

/-- A `time.Time` field, kept as a calendar date, read from a document. -/
def Document.getDate (d : Document) (key : String) : Option Date :=
  match d.lookup key with
  | none => some ⟨1, 1, 1⟩
  | some (Value.date x) => some x
  | some _ => none

/-- A `time.Time` field read from a document. -/
def Document.getTime (d : Document) (key : String) : Option Instant :=
  match d.lookup key with
  | none => some zeroTime
  | some (Value.dateTime ms) => some (Instant.ofDateTime ms)
  | some _ => none

/-- The embedded goal read from a document. -/
def Document.getGoal (d : Document) (key : String) : Option FullGoalInfo :=
  match d.lookup key with
  | none => some ⟨⟨"", 0, some 0, some 0, some 0⟩, zeroTime, F64.fin 0, F64.fin 0⟩
  | some (Value.goal g) => some g
  | some _ => none

/-- The call `Decode(&user)`: the `models.User` of a document, if its fields have the
types of the struct. -/
def User.ofDocument (d : Document) : Option User :=
  match d.getString "_id", d.getString "name", d.getString "email", d.getString "password",
    d.getString "gender", d.getDate "birthDate", d.getTime "createdAt",
    d.getTime "lastLoginAt", d.getDouble "height", d.getDouble "weight",
    d.getString "activityLevel", d.getGoal "goal" with
  | some id, some name, some email, some password, some gender, some birthDate,
      some createdAt, some lastLoginAt, some height, some weight, some activityLevel,
      some goal =>
    some ⟨id, name, email, password, gender, birthDate, createdAt, lastLoginAt, height,
      weight, activityLevel, goal⟩
  | _, _, _, _, _, _, _, _, _, _, _, _ => none

/-- The `models.MealEntry` of a document, if its fields have the types of the struct. -/
def FullMealEntry.ofDocument (d : Document) : Option FullMealEntry :=
  match d.getString "_id", d.getString "userId", d.getString "packageId",
    d.getDouble "portionMultiplier", d.getInt "calories", d.getInt "protein",
    d.getInt "carbs", d.getInt "fat", d.getString "mealType", d.getDate "date",
    d.getTime "timestamp", d.getTime "createdAt" with
  | some id, some userID, some packageID, some portionMultiplier, some calories,
      some protein, some carbs, some fat, some mealType, some date, some timestamp,
      some createdAt =>
    some ⟨⟨userID, packageID, portionMultiplier, calories, protein, carbs, fat, mealType⟩,
      id, date, timestamp, createdAt⟩
  | _, _, _, _, _, _, _, _, _, _, _, _ => none

/-- What a filter asks of one field: to equal a value (`bson.M{key: v}`), or to lie
between two (`bson.M{key: bson.M{"$gte": lo, "$lte": hi}}`). -/
inductive Cond where
  | eq (v : Value)
  | range (gte lte : Value)
  deriving DecidableEq

/-- The order of the values that the range filters of the source bound: dates.  Values
of different types are not ordered by a range. -/
def Value.le : Value → Value → Bool
  | Value.dateTime a, Value.dateTime b => decide (a ≤ b)
  | _, _ => false

/-- Does a field of a document, if it has it, meet a condition?  An equality or a
range on a field that the document does not have is not met. -/
def Cond.holds : Cond → Option Value → Bool
  | _, none => false
  | Cond.eq v, some w => decide (w = v)
  | Cond.range lo hi, some w => Value.le lo w && Value.le w hi

/-- Does a document meet every condition of a filter?  Field names are compared
exactly, upper and lower case distinct. -/
def Document.meets (filter : List (String × Cond)) (doc : Document) : Bool :=
  filter.all (fun kc => kc.2.holds (doc.lookup kc.1))

/-- The call `FindOne(ctx, filter)`: the first document that meets the filter, or
none (`mongo.ErrNoDocuments`). -/
def FindOne (collection : List Document) (filter : List (String × Cond)) : Option Document :=
  collection.find? (Document.meets filter)

/-- The call `Find(ctx, filter)`: the documents that meet the filter. -/
def Find (collection : List Document) (filter : List (String × Cond)) : List Document :=
  collection.filter (Document.meets filter)

/-- The call `InsertOne(ctx, doc)` on a collection whose fields `unique` carry a unique
index (`_id` always does): the collection with the document added, or a duplicate-key
error.  Failures of the connection are not part of the embedding. -/
def InsertOne (unique : List String) (collection : List Document) (doc : Document) :
    Except String (List Document) :=
  if collection.any (fun d => unique.any (fun key => decide (d.lookup key = doc.lookup key)))
  then Except.error "duplicate key error"
  else Except.ok (collection ++ [doc])

/-- The call `primitive.ObjectIDFromHex(s)` succeeds on 24 hexadecimal digits. -/
def isObjectIDHex (s : String) : Bool :=
  decide (s.length = 24) &&
    s.data.all (fun c => c.isDigit || (decide ('a' ≤ c) && decide (c ≤ 'f')) ||
      (decide ('A' ≤ c) && decide (c ≤ 'F')))

/-- The object id that `primitive.ObjectIDFromHex(s)` returns, named by its hex form in
lower case. -/
def ObjectIDFromHex (s : String) : Option Value :=
  if isObjectIDHex s then some (Value.objectID (String.mk (s.data.map Char.toLower))) else none

/-- The collections of the database that the claims read: `users` (with its unique
index on `email`) and `meal_entries`. -/
structure MongoStore where
  users : List Document
  mealEntries : List Document
  deriving DecidableEq

/-- The method `MongoStore.GetUser`. -/
def MongoStore.GetUser (s : MongoStore) (id : String) : Except String User :=
  let found :=
    match ObjectIDFromHex id with
    | none => FindOne s.users [("id", Cond.eq (Value.string id))]
    | some objID => FindOne s.users [("_id", Cond.eq objID)]
  match found with
  | none => Except.error "user not found"
  | some doc =>
    match User.ofDocument doc with
    | some user => Except.ok user
    | none => Except.error "cannot decode"

/-- The method `MongoStore.CreateUser`: the user it returns and the store after it.
`newObjectID` is the hex form of the fresh `primitive.NewObjectID()`. -/
def MongoStore.CreateUser (s : MongoStore) (newObjectID : String) (user : User) :
    Except String (User × MongoStore) :=
  let user := if user.ID = "" then { user with ID := newObjectID } else user
  match InsertOne ["_id", "email"] s.users user.toDocument with
  | Except.error e => Except.error e
  | Except.ok users => Except.ok (user, { s with users := users })

/-- The method `MongoStore.CreateMealEntry`: the entry it returns and the store after
it.  `newObjectID` is the fresh object id, `now` the reading of the clock. -/
def MongoStore.CreateMealEntry (s : MongoStore) (newObjectID : String) (now : Instant)
    (entry : FullMealEntry) : Except String (FullMealEntry × MongoStore) :=
  let entry := if entry.ID = "" then { entry with ID := newObjectID } else entry
  let entry := if entry.Timestamp = zeroTime then { entry with Timestamp := now } else entry
  match InsertOne ["_id"] s.mealEntries entry.toDocument with
  | Except.error e => Except.error e
  | Except.ok mealEntries => Except.ok (entry, { s with mealEntries := mealEntries })

/-- The call `cursor.All(ctx, &entries)`: the entries of the documents, none of them
when one does not decode (the error is logged and `entries` stays as it was). -/
def decodeAll : List Document → Option (List FullMealEntry)
  | [] => some []
  | doc :: docs =>
    match FullMealEntry.ofDocument doc, decodeAll docs with
    | some entry, some entries => some (entry :: entries)
    | _, _ => none

/-- The method `MongoStore.GetMealEntriesByUserAndDateRange`. -/
def MongoStore.GetMealEntriesByUserAndDateRange (s : MongoStore) (userID : String)
    (startDate endDate : Instant) : List FullMealEntry :=
  let filter :=
    [("userID", Cond.eq (Value.string userID)),
     ("timestamp",
        Cond.range (Value.dateTime startDate.toDateTime) (Value.dateTime endDate.toDateTime))]
  (decodeAll (Find s.mealEntries filter)).getD []

/-- An entry for the user `usr1`, stamped one second after the Unix epoch. -/
def exampleMealEntry : FullMealEntry :=
  ⟨⟨"usr1", "meal1", F64.fin 1, some 500, some 30, some 60, some 15, "LUNCH"⟩,
    "e1", ⟨1970, 1, 1⟩, 1000000000, 1000000000⟩

/-! ## the range queries of `handlers/meals.go` and `handlers/workouts.go` -/

/-- The duration `time.Second`, in nanoseconds. -/
def Second : Int := 1000000000

/-- The duration `time.Hour`. -/
def Hour : Int := 3600 * Second

/-- Days from 1970-01-01 to the first of January of the year `y`. -/
def daysBeforeYear (y : Int) : Int :=
  365 * (y - 1970) + ((y - 1) / 4 - (y - 1) / 100 + (y - 1) / 400) - 477

/-- The `time.Time` that `time.Parse("2006-01-02", s)` gives for a date: 00:00:00 UTC
of the day. -/
def Date.midnight (d : Date) : Instant :=
  (daysBeforeYear d.year + (d.YearDay : Int) - 1) * (24 * Hour)

/-- The statement `endDate = endDate.Add(24*time.Hour - time.Second)` of both range
handlers. -/
def endOfDay (endDate : Instant) : Instant := endDate + (24 * Hour - Second)

/-- The handler `MealHandler.GetMealEntries`: its reply and the range queries it made on
the store.  `today` is `time.Now().Format("2006-01-02")`; a query parameter that the
request does not carry is `none`, and `userId` is then the empty string. -/
def GetMealEntries
    (GetMealEntriesByUserAndDateRange : String → Instant → Instant → List FullMealEntry)
    (today userID : String) (startDate endDate : Option String) :
    Reply (List FullMealEntry) × List (String × Instant × Instant) :=
  if userID = "" then (Reply.error 400 (ErrorBody.text "userId is required"), [])
  else
    let startDateStr := startDate.getD today
    let endDateStr := endDate.getD today
    match parseDate startDateStr with
    | none =>
      (Reply.error 400 (ErrorBody.text "Invalid startDate format, use YYYY-MM-DD"), [])
    | some startDate =>
      match parseDate endDateStr with
      | none =>
        (Reply.error 400 (ErrorBody.text "Invalid endDate format, use YYYY-MM-DD"), [])
      | some endDate =>
        let endDate := endOfDay endDate.midnight
        (Reply.json 200 (GetMealEntriesByUserAndDateRange userID startDate.midnight endDate),
          [(userID, startDate.midnight, endDate)])

/-- The handler `WorkoutHandler.GetWorkoutEntries`, in the same way. -/
def GetWorkoutEntries
    (GetWorkoutEntriesByUserAndDateRange : String → Instant → Instant → List WorkoutEntry)
    (today userID : String) (startDate endDate : Option String) :
    Reply (List WorkoutEntry) × List (String × Instant × Instant) :=
  if userID = "" then (Reply.error 400 (ErrorBody.text "userId is required"), [])
  else
    let startDateStr := startDate.getD today
    let endDateStr := endDate.getD today
    match parseDate startDateStr with
    | none =>
      (Reply.error 400 (ErrorBody.text "Invalid startDate format, use YYYY-MM-DD"), [])
    | some startDate =>
      match parseDate endDateStr with
      | none =>
        (Reply.error 400 (ErrorBody.text "Invalid endDate format, use YYYY-MM-DD"), [])
      | some endDate =>
        let endDate := endOfDay endDate.midnight
        (Reply.json 200 (GetWorkoutEntriesByUserAndDateRange userID startDate.midnight endDate),
          [(userID, startDate.midnight, endDate)])

/-- The order of two calendar dates in time: `a` is not after `b`. -/
def Date.notAfter (a b : Date) : Bool :=
  decide (a.year < b.year) ||
    (decide (a.year = b.year) &&
      (decide (a.month < b.month) || (decide (a.month = b.month) && decide (a.day ≤ b.day))))

/-! ## `scripts/test_connections.go`: `maskConnectionString` -/

/-- The search `strings.Index(s, sep)` and the two slices around what it finds, on the
characters of the strings: the part of `s` before the first occurrence of `sep` and the
part after that occurrence, if `sep` occurs in `s`. -/
def strings.cut (sep : List Char) : List Char → Option (List Char × List Char)
  | [] => if sep.isPrefixOf [] then some ([], []) else none
  | c :: cs =>
    if sep.isPrefixOf (c :: cs) then some ([], (c :: cs).drop sep.length)
    else
      match strings.cut sep cs with
      | some (before, after) => some (c :: before, after)
      | none => none

/-- The loop of `strings.Split` for a separator that is not empty: cut at the first
occurrence, keep the part before it, go on with the part after it; the last part is
what is left when the separator no longer occurs.  `n` bounds the number of cuts. -/
def strings.splitChars (sep : List Char) : Nat → List Char → List (List Char)
  | 0, s => [s]
  | n + 1, s =>
    match strings.cut sep s with
    | some (before, after) => before :: strings.splitChars sep n after
    | none => [s]

/-- The function `strings.Contains`. -/
def strings.Contains (s substr : String) : Bool := (strings.cut substr.data s.data).isSome

/-- The function `strings.Split` for a separator that is not empty.  Every cut takes
at least one character away, so there are at most as many cuts as `s` has characters. -/
def strings.Split (s sep : String) : List String :=
  (strings.splitChars sep.data s.data.length s.data).map String.mk

/-- The function `maskConnectionString` of `scripts/test_connections.go`. -/
def maskConnectionString (uri : String) : String :=
  if strings.Contains uri "@" then
    match strings.Split uri "@" with
    | part0 :: part1 :: _ =>
      match strings.Split part0 "://" with
      | authPart0 :: _ :: _ => authPart0 ++ "://[credentials-hidden]@" ++ part1
      | _ => uri
    | _ => uri
  else uri

/-! ## Rounding: auxiliary facts -/

namespace F64

theorem log2Fuel_spec : ∀ (fuel n : Nat), 0 < n → n ≤ fuel →
    2 ^ log2Fuel fuel n ≤ n ∧ n < 2 ^ (log2Fuel fuel n + 1) := by
  intro fuel
  induction fuel with
  | zero => intro n h0 h1; omega
  | succ f ih =>
    intro n h0 h1
    unfold log2Fuel
    by_cases h2 : n < 2
    · simp only [h2, if_true]
      constructor <;> simp <;> omega
    · simp only [h2, if_false]
      have h3 := ih (n / 2) (by omega) (by omega)
      obtain ⟨h4, h5⟩ := h3
      rw [pow_succ] at h5 ⊢
      constructor
      · omega
      · rw [pow_succ]; omega

theorem natLog2_spec (n : Nat) (h : 0 < n) :
    2 ^ natLog2 n ≤ n ∧ n < 2 ^ (natLog2 n + 1) :=
  log2Fuel_spec n n h (le_refl n)

theorem two_zpow_pos (e : Int) : (0 : ℚ) < (2 : ℚ) ^ e := zpow_pos (by norm_num) e

theorem expo_spec (x : ℚ) (hx : 0 < x) :
    (2 : ℚ) ^ expo x ≤ x ∧ x < (2 : ℚ) ^ (expo x + 1) := by
  have hnum : 0 < x.num := Rat.num_pos.mpr hx
  have hden : 0 < x.den := x.den_pos
  obtain ⟨ha1, ha2⟩ := natLog2_spec x.num.natAbs (Int.natAbs_pos.mpr (ne_of_gt hnum))
  obtain ⟨hb1, hb2⟩ := natLog2_spec x.den hden
  have hxe : x = (x.num.natAbs : ℚ) / (x.den : ℚ) := by
    have h1 : ((x.num.natAbs : Int) : ℚ) = (x.num : ℚ) := by
      rw [Int.natAbs_of_nonneg (le_of_lt hnum)]
    have h2 : ((x.num.natAbs : Nat) : ℚ) = ((x.num.natAbs : Int) : ℚ) :=
      (Int.cast_natCast _).symm
    rw [h2, h1]
    exact (Rat.num_div_den x).symm
  have hdq : (0 : ℚ) < (x.den : ℚ) := by exact_mod_cast hden
  have qa1 : (2 : ℚ) ^ (natLog2 x.num.natAbs) ≤ (x.num.natAbs : ℚ) := by exact_mod_cast ha1
  have qa2 : (x.num.natAbs : ℚ) < (2 : ℚ) ^ (natLog2 x.num.natAbs + 1) := by exact_mod_cast ha2
  have qb1 : (2 : ℚ) ^ (natLog2 x.den) ≤ (x.den : ℚ) := by exact_mod_cast hb1
  have qb2 : (x.den : ℚ) < (2 : ℚ) ^ (natLog2 x.den + 1) := by exact_mod_cast hb2
  have hpa : (0 : ℚ) < (2 : ℚ) ^ (natLog2 x.num.natAbs) := pow_pos (by norm_num) _
  have hpb : (0 : ℚ) < (2 : ℚ) ^ (natLog2 x.den) := pow_pos (by norm_num) _
  unfold expo
  simp only
  split_ifs with h
  · refine ⟨h, ?_⟩
    have e1 : (2 : ℚ) ^ ((natLog2 x.num.natAbs : Int) - (natLog2 x.den : Int) + 1)
        = (2 : ℚ) ^ (natLog2 x.num.natAbs + 1) / (2 : ℚ) ^ (natLog2 x.den) := by
      rw [show ((natLog2 x.num.natAbs : Int) - (natLog2 x.den : Int) + 1)
          = ((natLog2 x.num.natAbs + 1 : Nat) : Int) - ((natLog2 x.den : Nat) : Int) by push_cast; ring]
      rw [zpow_sub₀ (by norm_num : (2 : ℚ) ≠ 0), zpow_natCast, zpow_natCast]
    rw [e1]
    conv_lhs => rw [hxe]
    rw [div_lt_div_iff₀ hdq hpb]
    calc (x.num.natAbs : ℚ) * (2 : ℚ) ^ (natLog2 x.den)
        ≤ (x.num.natAbs : ℚ) * (x.den : ℚ) := by
          apply mul_le_mul_of_nonneg_left qb1; positivity
      _ < (2 : ℚ) ^ (natLog2 x.num.natAbs + 1) * (x.den : ℚ) := by
          apply mul_lt_mul_of_pos_right qa2 hdq
  · constructor
    · have e1 : (2 : ℚ) ^ ((natLog2 x.num.natAbs : Int) - (natLog2 x.den : Int) - 1)
          = (2 : ℚ) ^ (natLog2 x.num.natAbs) / (2 : ℚ) ^ (natLog2 x.den + 1) := by
        rw [show ((natLog2 x.num.natAbs : Int) - (natLog2 x.den : Int) - 1)
            = ((natLog2 x.num.natAbs : Nat) : Int) - ((natLog2 x.den + 1 : Nat) : Int) by
              push_cast; ring]
        rw [zpow_sub₀ (by norm_num : (2 : ℚ) ≠ 0), zpow_natCast, zpow_natCast]
      rw [e1]
      conv_rhs => rw [hxe]
      rw [div_le_div_iff₀ (pow_pos (by norm_num) _) hdq]
      calc (2 : ℚ) ^ (natLog2 x.num.natAbs) * (x.den : ℚ)
          ≤ (x.num.natAbs : ℚ) * (x.den : ℚ) := by
            apply mul_le_mul_of_nonneg_right qa1 (le_of_lt hdq)
        _ ≤ (x.num.natAbs : ℚ) * (2 : ℚ) ^ (natLog2 x.den + 1) := by
            apply mul_le_mul_of_nonneg_left (le_of_lt qb2); positivity
    · have : (natLog2 x.num.natAbs : Int) - (natLog2 x.den : Int) - 1 + 1
          = (natLog2 x.num.natAbs : Int) - (natLog2 x.den : Int) := by ring
      rw [this]
      exact lt_of_not_le h

theorem expo_le_of_lt (x : ℚ) (hx : 0 < x) (k : Int) (h : x < (2 : ℚ) ^ (k + 1)) :
    expo x ≤ k := by
  have h1 := (expo_spec x hx).1
  have h2 : (2 : ℚ) ^ expo x < (2 : ℚ) ^ (k + 1) := lt_of_le_of_lt h1 h
  have h3 := (zpow_lt_zpow_iff_right₀ (by norm_num : (1 : ℚ) < 2)).mp h2
  omega

theorem le_expo_of_le (x : ℚ) (hx : 0 < x) (k : Int) (h : (2 : ℚ) ^ k ≤ x) :
    k ≤ expo x := by
  have h1 := (expo_spec x hx).2
  have h2 : (2 : ℚ) ^ k < (2 : ℚ) ^ (expo x + 1) := lt_of_le_of_lt h h1
  have h3 := (zpow_lt_zpow_iff_right₀ (by norm_num : (1 : ℚ) < 2)).mp h2
  omega

theorem expo_mono (x y : ℚ) (hx : 0 < x) (hxy : x ≤ y) : expo x ≤ expo y :=
  le_expo_of_le y (lt_of_lt_of_le hx hxy) (expo x) (le_trans (expo_spec x hx).1 hxy)

theorem rne_int (n : Int) : rne (n : ℚ) = n := by
  unfold rne
  simp

theorem floor_le_rne (x : ℚ) : ⌊x⌋ ≤ rne x := by
  unfold rne
  split_ifs <;> omega

theorem rne_le_floor_succ (x : ℚ) : rne x ≤ ⌊x⌋ + 1 := by
  unfold rne
  split_ifs <;> omega

theorem rne_mono (x y : ℚ) (h : x ≤ y) : rne x ≤ rne y := by
  have hf : ⌊x⌋ ≤ ⌊y⌋ := Int.floor_mono h
  rcases lt_or_eq_of_le hf with h1 | h1
  · have a := rne_le_floor_succ x
    have b := floor_le_rne y
    omega
  · unfold rne
    rw [h1]
    split_ifs <;> first | omega | (exfalso; linarith)

theorem rne_err (x : ℚ) : |(rne x : ℚ) - x| ≤ 1 / 2 := by
  have h1 := Int.floor_le x
  have h2 := Int.lt_floor_add_one x
  unfold rne
  rw [abs_le]
  split_ifs <;> constructor <;> push_cast <;> linarith

theorem rne_nonneg (x : ℚ) (h : 0 ≤ x) : 0 ≤ rne x := by
  have := rne_mono 0 x h
  have h0 : rne (0 : ℚ) = 0 := by exact_mod_cast rne_int 0
  omega

/-- A multiple of `2^k` is an integer multiple of `2^e` for every `e ≤ k`. -/
theorem grid_coarse (n e k : Int) (h : e ≤ k) :
    ∃ m : Int, (n : ℚ) * (2 : ℚ) ^ k / (2 : ℚ) ^ e = (m : ℚ) := by
  obtain ⟨j, hj⟩ := Int.le.dest h
  refine ⟨n * 2 ^ j, ?_⟩
  have hp := two_zpow_pos e
  rw [← hj, zpow_add₀ (by norm_num : (2 : ℚ) ≠ 0), zpow_natCast]
  push_cast
  field_simp
  ring

theorem rndPos_le_grid (x : ℚ) (n k : Int) (hk : ulpExp x ≤ k)
    (h : x ≤ (n : ℚ) * (2 : ℚ) ^ k) : rndPos x ≤ (n : ℚ) * (2 : ℚ) ^ k := by
  obtain ⟨m, hm⟩ := grid_coarse n (ulpExp x) k hk
  have hp := two_zpow_pos (ulpExp x)
  have h1 : x / (2 : ℚ) ^ ulpExp x ≤ (m : ℚ) := by
    rw [← hm]; exact div_le_div_of_nonneg_right h (le_of_lt hp)
  have h2 := rne_mono _ _ h1
  rw [rne_int] at h2
  have h3 : (rne (x / (2 : ℚ) ^ ulpExp x) : ℚ) ≤ (m : ℚ) := by exact_mod_cast h2
  unfold rndPos
  calc (rne (x / (2 : ℚ) ^ ulpExp x) : ℚ) * (2 : ℚ) ^ ulpExp x
      ≤ (m : ℚ) * (2 : ℚ) ^ ulpExp x := mul_le_mul_of_nonneg_right h3 (le_of_lt hp)
    _ = (n : ℚ) * (2 : ℚ) ^ k := by rw [← hm]; field_simp

theorem grid_le_rndPos (x : ℚ) (n k : Int) (hk : ulpExp x ≤ k)
    (h : (n : ℚ) * (2 : ℚ) ^ k ≤ x) : (n : ℚ) * (2 : ℚ) ^ k ≤ rndPos x := by
  obtain ⟨m, hm⟩ := grid_coarse n (ulpExp x) k hk
  have hp := two_zpow_pos (ulpExp x)
  have h1 : (m : ℚ) ≤ x / (2 : ℚ) ^ ulpExp x := by
    rw [← hm]; exact div_le_div_of_nonneg_right h (le_of_lt hp)
  have h2 := rne_mono _ _ h1
  rw [rne_int] at h2
  have h3 : (m : ℚ) ≤ (rne (x / (2 : ℚ) ^ ulpExp x) : ℚ) := by exact_mod_cast h2
  unfold rndPos
  calc (n : ℚ) * (2 : ℚ) ^ k = (m : ℚ) * (2 : ℚ) ^ ulpExp x := by rw [← hm]; field_simp
    _ ≤ (rne (x / (2 : ℚ) ^ ulpExp x) : ℚ) * (2 : ℚ) ^ ulpExp x :=
        mul_le_mul_of_nonneg_right h3 (le_of_lt hp)

theorem rndPos_grid (x : ℚ) (n k : Int) (hk : ulpExp x ≤ k)
    (h : x = (n : ℚ) * (2 : ℚ) ^ k) : rndPos x = x :=
  le_antisymm (by conv_rhs => rw [h]
                  exact rndPos_le_grid x n k hk (le_of_eq h))
    (by conv_lhs => rw [h]
        exact grid_le_rndPos x n k hk (le_of_eq h.symm))

theorem rndPos_nonneg (x : ℚ) (h : 0 ≤ x) : 0 ≤ rndPos x := by
  unfold rndPos
  have h1 : 0 ≤ x / (2 : ℚ) ^ ulpExp x := div_nonneg h (le_of_lt (two_zpow_pos _))
  have h2 : (0 : ℚ) ≤ (rne (x / (2 : ℚ) ^ ulpExp x) : ℚ) := by exact_mod_cast rne_nonneg _ h1
  exact mul_nonneg h2 (le_of_lt (two_zpow_pos _))

theorem rndPos_err (x : ℚ) : |rndPos x - x| ≤ (2 : ℚ) ^ ulpExp x / 2 := by
  have hp := two_zpow_pos (ulpExp x)
  have h1 := rne_err (x / (2 : ℚ) ^ ulpExp x)
  have h2 : rndPos x - x
      = ((rne (x / (2 : ℚ) ^ ulpExp x) : ℚ) - x / (2 : ℚ) ^ ulpExp x) * (2 : ℚ) ^ ulpExp x := by
    unfold rndPos; field_simp
  rw [h2, abs_mul, abs_of_pos hp]
  calc |(rne (x / (2 : ℚ) ^ ulpExp x) : ℚ) - x / (2 : ℚ) ^ ulpExp x| * (2 : ℚ) ^ ulpExp x
      ≤ 1 / 2 * (2 : ℚ) ^ ulpExp x := mul_le_mul_of_nonneg_right h1 (le_of_lt hp)
    _ = (2 : ℚ) ^ ulpExp x / 2 := by ring

theorem ulpExp_mono (x y : ℚ) (hx : 0 < x) (hxy : x ≤ y) : ulpExp x ≤ ulpExp y := by
  have := expo_mono x y hx hxy
  unfold ulpExp
  omega

theorem rndPos_mono (x y : ℚ) (hx : 0 < x) (hxy : x ≤ y) : rndPos x ≤ rndPos y := by
  have hy : 0 < y := lt_of_lt_of_le hx hxy
  have he := expo_mono x y hx hxy
  by_cases hu : ulpExp x = ulpExp y
  · unfold rndPos
    rw [hu]
    have hp := two_zpow_pos (ulpExp y)
    have h1 : x / (2 : ℚ) ^ ulpExp y ≤ y / (2 : ℚ) ^ ulpExp y :=
      div_le_div_of_nonneg_right hxy (le_of_lt hp)
    have h2 : (rne (x / (2 : ℚ) ^ ulpExp y) : ℚ) ≤ (rne (y / (2 : ℚ) ^ ulpExp y) : ℚ) := by
      exact_mod_cast rne_mono _ _ h1
    exact mul_le_mul_of_nonneg_right h2 (le_of_lt hp)
  · have hlt : ulpExp x < ulpExp y := lt_of_le_of_ne (ulpExp_mono x y hx hxy) hu
    have hey : ulpExp y = expo y - 52 := by unfold ulpExp at hlt ⊢; omega
    have hex : expo x + 1 ≤ expo y := by unfold ulpExp at hlt; omega
    have hB1 : x ≤ ((1 : Int) : ℚ) * (2 : ℚ) ^ expo y := by
      have := (expo_spec x hx).2
      have h2 : (2 : ℚ) ^ (expo x + 1) ≤ (2 : ℚ) ^ expo y :=
        zpow_le_zpow_right₀ (by norm_num) hex
      push_cast; linarith
    have hB2 : ((1 : Int) : ℚ) * (2 : ℚ) ^ expo y ≤ y := by
      have := (expo_spec y hy).1
      push_cast; linarith
    have h1 := rndPos_le_grid x 1 (expo y) (by unfold ulpExp at hlt ⊢; omega) hB1
    have h2 := grid_le_rndPos y 1 (expo y) (by omega) hB2
    linarith

theorem rnd_zero : rnd 0 = 0 := by
  unfold rnd; simp

theorem rnd_of_pos (x : ℚ) (h : 0 < x) : rnd x = rndPos x := by
  unfold rnd
  rw [if_neg (ne_of_gt h), if_neg (not_lt.mpr (le_of_lt h))]

theorem rnd_of_neg (x : ℚ) (h : x < 0) : rnd x = -rndPos (-x) := by
  unfold rnd
  rw [if_neg (ne_of_lt h), if_pos h]

theorem rnd_neg (x : ℚ) : rnd (-x) = -rnd x := by
  rcases lt_trichotomy x 0 with h | h | h
  · rw [rnd_of_neg x h, rnd_of_pos (-x) (by linarith)]; ring
  · subst h; simp [rnd_zero]
  · rw [rnd_of_pos x h, rnd_of_neg (-x) (by linarith)]; simp

theorem rnd_nonneg (x : ℚ) (h : 0 ≤ x) : 0 ≤ rnd x := by
  rcases eq_or_lt_of_le h with h1 | h1
  · rw [← h1, rnd_zero]
  · rw [rnd_of_pos x h1]; exact rndPos_nonneg x h

theorem rnd_nonpos (x : ℚ) (h : x ≤ 0) : rnd x ≤ 0 := by
  have h1 := rnd_nonneg (-x) (by linarith)
  rw [rnd_neg] at h1
  linarith

theorem rnd_mono (x y : ℚ) (h : x ≤ y) : rnd x ≤ rnd y := by
  rcases lt_trichotomy x 0 with hx | hx | hx
  · rcases lt_or_le y 0 with hy | hy
    · rw [rnd_of_neg x hx, rnd_of_neg y hy]
      have := rndPos_mono (-y) (-x) (by linarith) (by linarith)
      linarith
    · have h1 := rnd_nonpos x (le_of_lt hx)
      have h2 := rnd_nonneg y hy
      linarith
  · subst hx
    rw [rnd_zero]
    exact rnd_nonneg y h
  · rw [rnd_of_pos x hx, rnd_of_pos y (lt_of_lt_of_le hx h)]
    exact rndPos_mono x y hx h

theorem ulpExp_le_of_lt (x : ℚ) (hx : 0 < x) (k : Int) (hk : -1022 ≤ k)
    (h : x < (2 : ℚ) ^ (k + 1)) : ulpExp x ≤ k - 52 := by
  have := expo_le_of_lt x hx k h
  unfold ulpExp
  omega

theorem rnd_exact_pos (n : Nat) (k : Int) (hn : n < 2 ^ 53) (hk : -1074 ≤ k) (h0 : 0 < n) :
    rnd ((n : ℚ) * (2 : ℚ) ^ k) = (n : ℚ) * (2 : ℚ) ^ k := by
  have hp := two_zpow_pos k
  have hn0 : (0 : ℚ) < (n : ℚ) := by exact_mod_cast h0
  have hx : 0 < (n : ℚ) * (2 : ℚ) ^ k := mul_pos hn0 hp
  rw [rnd_of_pos _ hx]
  have hlt : (n : ℚ) * (2 : ℚ) ^ k < (2 : ℚ) ^ (k + 52 + 1) := by
    have e : (2 : ℚ) ^ (k + 52 + 1) = (2 : ℚ) ^ (53 : Nat) * (2 : ℚ) ^ k := by
      rw [show k + 52 + 1 = ((53 : Nat) : Int) + k by push_cast; ring,
        zpow_add₀ (by norm_num : (2 : ℚ) ≠ 0), zpow_natCast]
    rw [e]
    have : (n : ℚ) < (2 : ℚ) ^ (53 : Nat) := by exact_mod_cast hn
    exact mul_lt_mul_of_pos_right this hp
  have hu := ulpExp_le_of_lt _ hx (k + 52) (by omega) hlt
  exact rndPos_grid _ (n : Int) k (by omega) (by push_cast; ring)

/-- Every `n * 2^k` with `|n| ≤ 2^53` and `k ≥ -1074` is on the grid: rounding keeps it. -/
theorem rnd_exact (n k : Int) (hn : |n| ≤ 2 ^ 53) (hk : -1074 ≤ k) :
    rnd ((n : ℚ) * (2 : ℚ) ^ k) = (n : ℚ) * (2 : ℚ) ^ k := by
  have key : ∀ m : Nat, m ≤ 2 ^ 53 →
      rnd ((m : ℚ) * (2 : ℚ) ^ k) = (m : ℚ) * (2 : ℚ) ^ k := by
    intro m hm
    rcases Nat.eq_zero_or_pos m with h0 | h0
    · subst h0; simp [rnd_zero]
    · rcases Nat.lt_or_ge m (2 ^ 53) with h1 | h1
      · exact rnd_exact_pos m k h1 hk h0
      · have hm2 : m = 2 ^ 53 := le_antisymm hm h1
        have e : (m : ℚ) * (2 : ℚ) ^ k = ((2 ^ 52 : Nat) : ℚ) * (2 : ℚ) ^ (k + 1) := by
          rw [hm2, zpow_add₀ (by norm_num : (2 : ℚ) ≠ 0)]
          push_cast; ring
        rw [e]
        exact rnd_exact_pos (2 ^ 52) (k + 1) (by norm_num) (by omega) (by norm_num)
  rcases le_or_lt 0 n with h | h
  · obtain ⟨m, rfl⟩ := Int.eq_ofNat_of_zero_le h
    have hm : m ≤ 2 ^ 53 := by
      have : |(m : Int)| = (m : Int) := abs_of_nonneg h
      rw [this] at hn
      exact_mod_cast hn
    simpa using key m hm
  · obtain ⟨m, hm⟩ := Int.eq_ofNat_of_zero_le (show 0 ≤ -n by omega)
    have hn' : n = -(m : Int) := by omega
    have hm2 : m ≤ 2 ^ 53 := by
      have : |n| = -n := abs_of_neg h
      rw [this, hm] at hn
      exact_mod_cast hn
    subst hn'
    have := key m hm2
    push_cast
    rw [neg_mul, rnd_neg, this]

theorem rnd_int (n : Int) (hn : |n| ≤ 2 ^ 53) : rnd (n : ℚ) = (n : ℚ) := by
  have := rnd_exact n 0 hn (by norm_num)
  simpa using this

theorem rnd_sub_neg (x : ℚ) : rnd (-x) - -x = -(rnd x - x) := by
  rw [rnd_neg]; ring

/-- Rounding error below `2^(k+1)`: at most half a unit in the last place, `2^(k-53)`. -/
theorem rnd_abs_err (x : ℚ) (k : Int) (hk : -1022 ≤ k) (hx : |x| < (2 : ℚ) ^ (k + 1)) :
    |rnd x - x| ≤ (2 : ℚ) ^ (k - 53) := by
  have pos : ∀ y : ℚ, 0 < y → y < (2 : ℚ) ^ (k + 1) → |rnd y - y| ≤ (2 : ℚ) ^ (k - 53) := by
    intro y hy hlt
    rw [rnd_of_pos y hy]
    have h1 := rndPos_err y
    have h2 := ulpExp_le_of_lt y hy k hk hlt
    have h3 : (2 : ℚ) ^ ulpExp y ≤ (2 : ℚ) ^ (k - 52) := zpow_le_zpow_right₀ (by norm_num) h2
    have h4 : (2 : ℚ) ^ (k - 52) = (2 : ℚ) ^ (k - 53) * 2 := by
      rw [show k - 52 = (k - 53) + 1 by ring, zpow_add₀ (by norm_num : (2 : ℚ) ≠ 0)]
      norm_num
    linarith
  rcases lt_trichotomy x 0 with h | h | h
  · have := pos (-x) (by linarith) (by rwa [abs_of_neg h] at hx)
    rwa [rnd_sub_neg, abs_neg] at this
  · subst h
    simp [rnd_zero]
    exact le_of_lt (two_zpow_pos _)
  · exact pos x h (by rwa [abs_of_pos h] at hx)

/-- Relative rounding error in the normal range: at most `2^-53`. -/
theorem rnd_rel_err (x : ℚ) (hx : (2 : ℚ) ^ (-1022 : Int) ≤ |x|) :
    |rnd x - x| ≤ (2 : ℚ) ^ (-53 : Int) * |x| := by
  have pos : ∀ y : ℚ, (2 : ℚ) ^ (-1022 : Int) ≤ y → |rnd y - y| ≤ (2 : ℚ) ^ (-53 : Int) * y := by
    intro y hy
    have hy0 : 0 < y := lt_of_lt_of_le (two_zpow_pos _) hy
    have h1 := le_expo_of_le y hy0 (-1022) hy
    have h2 := rnd_abs_err y (expo y) h1 (by rw [abs_of_pos hy0]; exact (expo_spec y hy0).2)
    have h3 : (2 : ℚ) ^ (expo y - 53) = (2 : ℚ) ^ (-53 : Int) * (2 : ℚ) ^ expo y := by
      rw [show expo y - 53 = -53 + expo y by ring, zpow_add₀ (by norm_num : (2 : ℚ) ≠ 0)]
    have h4 := (expo_spec y hy0).1
    have h5 : (2 : ℚ) ^ (-53 : Int) * (2 : ℚ) ^ expo y ≤ (2 : ℚ) ^ (-53 : Int) * y :=
      mul_le_mul_of_nonneg_left h4 (le_of_lt (two_zpow_pos _))
    linarith
  rcases lt_or_le x 0 with h | h
  · have := pos (-x) (by rwa [abs_of_neg h] at hx)
    rw [rnd_sub_neg, abs_neg] at this
    rwa [abs_of_neg h]
  · rw [abs_of_nonneg h] at hx ⊢
    exact pos x hx

/-- A bound that is itself on the grid survives rounding. -/
theorem rnd_abs_le (x : ℚ) (n k : Int) (hn : |n| ≤ 2 ^ 53) (hk : -1074 ≤ k)
    (h : |x| ≤ (n : ℚ) * (2 : ℚ) ^ k) : |rnd x| ≤ (n : ℚ) * (2 : ℚ) ^ k := by
  have e := rnd_exact n k hn hk
  rw [abs_le] at h ⊢
  constructor
  · have := rnd_mono _ _ h.1
    rw [rnd_neg, e] at this
    exact this
  · have := rnd_mono _ _ h.2
    rwa [e] at this

theorem round_fin (x : ℚ) (h : |x| ≤ (2 : ℚ) ^ (1023 : Int)) : round x = fin (rnd x) := by
  have h1 : |rnd x| ≤ ((1 : Int) : ℚ) * (2 : ℚ) ^ (1023 : Int) :=
    rnd_abs_le x 1 1023 (by norm_num) (by norm_num) (by
      rw [Int.cast_one, one_mul]; exact h)
  have h3 : (2 : ℚ) ^ (1023 : Int) < (2 : ℚ) ^ (1024 : Int) :=
    zpow_lt_zpow_right₀ (by norm_num) (by norm_num)
  unfold round
  rw [if_neg]
  rw [Int.cast_one, one_mul] at h1
  exact not_le.mpr (lt_of_le_of_lt h1 h3)

/-! ## Operations: finite results -/

theorem round_eq_fin (x y : ℚ) (h : round x = fin y) : y = rnd x := by
  unfold round at h
  split_ifs at h
  exact (F64.fin.inj h).symm

theorem mul_eq_fin (X Y : F64) (y : ℚ) (h : mul X Y = fin y) :
    ∃ a b, X = fin a ∧ Y = fin b ∧ y = rnd (a * b) := by
  cases X <;> cases Y <;> simp only [mul] at h
  · exact ⟨_, _, rfl, rfl, round_eq_fin _ _ h⟩
  all_goals first | cases h | split_ifs at h

theorem add_eq_fin (X Y : F64) (y : ℚ) (h : add X Y = fin y) :
    ∃ a b, X = fin a ∧ Y = fin b ∧ y = rnd (a + b) := by
  cases X <;> cases Y <;> simp only [add] at h
  · exact ⟨_, _, rfl, rfl, round_eq_fin _ _ h⟩
  all_goals first | cases h | split_ifs at h

theorem sub_eq_fin (X Y : F64) (y : ℚ) (h : sub X Y = fin y) :
    ∃ a b, X = fin a ∧ Y = fin b ∧ y = rnd (a - b) := by
  unfold sub at h
  obtain ⟨a, b, h1, h2, h3⟩ := add_eq_fin _ _ _ h
  cases Y <;> simp only [neg] at h2 <;> try cases h2
  refine ⟨a, _, h1, rfl, ?_⟩
  rw [h3]; congr 1; ring

theorem toInt_eq_some (X : F64) (r : Int) (h : toInt X = some r) :
    ∃ q, X = fin q ∧ r = truncQ q := by
  cases X <;> simp only [toInt] at h
  · split_ifs at h
    exact ⟨_, rfl, (Option.some.inj h).symm⟩
  all_goals cases h

theorem toInt_fin (q : ℚ) (h1 : -(2 : Int) ^ (63 : Nat) ≤ truncQ q)
    (h2 : truncQ q < (2 : Int) ^ (63 : Nat)) : toInt (fin q) = some (truncQ q) := by
  simp only [toInt]
  rw [if_pos ⟨h1, h2⟩]

theorem truncQ_mono (x y : ℚ) (h : x ≤ y) : truncQ x ≤ truncQ y := by
  unfold truncQ
  split_ifs with h1 h2 h2
  · exact Int.floor_mono h
  · exfalso; linarith
  · have a : ⌈x⌉ ≤ 0 := Int.ceil_le.mpr (by push_cast; linarith)
    have b : 0 ≤ ⌊y⌋ := Int.floor_nonneg.mpr h2
    omega
  · exact Int.ceil_mono h

theorem truncQ_of_nonneg (x : ℚ) (h : 0 ≤ x) : truncQ x = ⌊x⌋ := by
  unfold truncQ; rw [if_pos h]

theorem truncQ_int (n : Int) : truncQ (n : ℚ) = n := by
  unfold truncQ
  split_ifs <;> simp

theorem ofInt_fin (n : Int) (h : |n| ≤ 2 ^ 53) : ofInt n = fin (n : ℚ) := by
  unfold ofInt
  have h1 : |(n : ℚ)| ≤ (2 : ℚ) ^ (53 : Nat) := by exact_mod_cast h
  have h2 : (2 : ℚ) ^ (53 : Nat) ≤ (2 : ℚ) ^ (1023 : Int) := by
    rw [← zpow_natCast]
    exact zpow_le_zpow_right₀ (by norm_num) (by norm_num)
  rw [round_fin _ (le_trans h1 h2), rnd_int n h]

theorem round_exact (n k : Int) (hn : |n| ≤ 2 ^ 53) (hk : -1074 ≤ k) (hk2 : k ≤ 970) :
    round ((n : ℚ) * (2 : ℚ) ^ k) = fin ((n : ℚ) * (2 : ℚ) ^ k) := by
  have hp := two_zpow_pos k
  have h1 : |(n : ℚ) * (2 : ℚ) ^ k| ≤ (2 : ℚ) ^ (1023 : Int) := by
    rw [abs_mul, abs_of_pos hp]
    have a : |(n : ℚ)| ≤ (2 : ℚ) ^ (53 : Int) := by
      rw [show (2 : ℚ) ^ (53 : Int) = (2 : ℚ) ^ (53 : Nat) by norm_cast]
      exact_mod_cast hn
    have b : (2 : ℚ) ^ (53 : Int) * (2 : ℚ) ^ k ≤ (2 : ℚ) ^ (1023 : Int) := by
      rw [← zpow_add₀ (by norm_num : (2 : ℚ) ≠ 0)]
      exact zpow_le_zpow_right₀ (by norm_num) (by omega)
    calc |(n : ℚ)| * (2 : ℚ) ^ k ≤ (2 : ℚ) ^ (53 : Int) * (2 : ℚ) ^ k :=
          mul_le_mul_of_nonneg_right a (le_of_lt hp)
      _ ≤ _ := b
  rw [round_fin _ h1, rnd_exact n k hn hk]

theorem round_int (n : Int) (h : |n| ≤ 2 ^ 53) : round (n : ℚ) = fin (n : ℚ) :=
  ofInt_fin n h

theorem rnd_int_ne_zero (n : Int) (h : n ≠ 0) : rnd (n : ℚ) ≠ 0 := by
  have h1 : rnd (1 : ℚ) = 1 := by
    have := rnd_int 1 (by norm_num); simpa using this
  rcases lt_or_gt_of_ne h with h2 | h2
  · have a : (n : ℚ) ≤ -1 := by exact_mod_cast (show n ≤ -1 by omega)
    have b := rnd_mono _ _ a
    rw [rnd_neg, h1] at b
    linarith
  · have a : (1 : ℚ) ≤ (n : ℚ) := by exact_mod_cast (show 1 ≤ n by omega)
    have b := rnd_mono _ _ a
    rw [h1] at b
    linarith

theorem ofInt_int64 (n : Int) (h : |n| ≤ 2 ^ 63) : ofInt n = fin (rnd (n : ℚ)) := by
  unfold ofInt
  apply round_fin
  have h1 : |(n : ℚ)| ≤ (2 : ℚ) ^ (63 : Nat) := by exact_mod_cast h
  have h2 : (2 : ℚ) ^ (63 : Nat) ≤ (2 : ℚ) ^ (1023 : Int) := by
    rw [← zpow_natCast]
    exact zpow_le_zpow_right₀ (by norm_num) (by norm_num)
  exact le_trans h1 h2

theorem lit_int (n : Int) (h : |n| ≤ 2 ^ 53) : lit (n : ℚ) = fin (n : ℚ) := round_int n h

theorem rnd_one : rnd (1 : ℚ) = 1 := by
  have := rnd_int 1 (by norm_num); simpa using this

theorem round_one : round (1 : ℚ) = fin 1 := by
  have := round_int 1 (by norm_num); simpa using this

theorem div_self_fin (x : ℚ) (h : x ≠ 0) : div (fin x) (fin x) = fin 1 := by
  simp only [div, if_neg h, div_self h, round_one]

theorem mul_one_fin (n : Int) (h : |n| ≤ 2 ^ 53) : mul (fin (n : ℚ)) (fin 1) = fin (n : ℚ) := by
  simp only [mul, mul_one, round_int n h]

end F64

/-! ## Macro targets of `CreateUser` -/

theorem lit_quarter : F64.lit (25 / 100) = F64.fin (1 / 4) := by decide!

theorem lit_half : F64.lit (5 / 10) = F64.fin (1 / 2) := by decide!

theorem lit_four : F64.lit 4 = F64.fin 4 := by decide!

theorem lit_nine : F64.lit 9 = F64.fin 9 := by decide!

theorem toInt_floor (q : ℚ) (h0 : 0 ≤ q) (h1 : q < (2 : ℚ) ^ (63 : Nat)) :
    F64.toInt (F64.fin q) = some ⌊q⌋ := by
  have ht := F64.truncQ_of_nonneg q h0
  have hf0 : 0 ≤ ⌊q⌋ := Int.floor_nonneg.mpr h0
  have hf1 : ⌊q⌋ < (2 : Int) ^ (63 : Nat) := by
    have : ((⌊q⌋ : Int) : ℚ) < (((2 : Int) ^ (63 : Nat) : Int) : ℚ) := by
      push_cast
      exact lt_of_le_of_lt (Int.floor_le q) h1
    exact_mod_cast this
  rw [F64.toInt_fin q (by rw [ht]; omega) (by rw [ht]; exact hf1), ht]

theorem targetProtein_eq (T : Int) (h0 : 0 ≤ T) (h1 : T ≤ 2 ^ 53) :
    CreateUser.targetProtein T = some (T / 16) := by
  have hT : |T| ≤ 2 ^ 53 := by rw [abs_of_nonneg h0]; exact h1
  have hq : (0 : ℚ) ≤ (T : ℚ) := by exact_mod_cast h0
  have hq1 : (T : ℚ) ≤ 9007199254740992 := by exact_mod_cast h1
  have e1 : (T : ℚ) * (1 / 4) = (T : ℚ) * (2 : ℚ) ^ (-2 : Int) := by norm_num
  have e2 : (T : ℚ) * (2 : ℚ) ^ (-2 : Int) / 4 = (T : ℚ) * (2 : ℚ) ^ (-4 : Int) := by
    norm_num; ring
  unfold CreateUser.targetProtein
  rw [F64.ofInt_fin T hT, lit_quarter, lit_four]
  simp only [F64.mul, F64.div]
  rw [e1, F64.round_exact T (-2) hT (by norm_num) (by norm_num)]
  simp only [F64.div, if_neg (show (4 : ℚ) ≠ 0 by norm_num)]
  rw [e2, F64.round_exact T (-4) hT (by norm_num) (by norm_num),
    toInt_floor _ (by positivity) (by norm_num; linarith)]
  congr 1
  have : (T : ℚ) * (2 : ℚ) ^ (-4 : Int) = (T : ℚ) / ((16 : Nat) : ℚ) := by norm_num; ring
  rw [this, Rat.floor_intCast_div_natCast]
  norm_num

theorem targetCarbs_eq (T : Int) (h0 : 0 ≤ T) (h1 : T ≤ 2 ^ 53) :
    CreateUser.targetCarbs T = some (T / 8) := by
  have hT : |T| ≤ 2 ^ 53 := by rw [abs_of_nonneg h0]; exact h1
  have hq : (0 : ℚ) ≤ (T : ℚ) := by exact_mod_cast h0
  have hq1 : (T : ℚ) ≤ 9007199254740992 := by exact_mod_cast h1
  have e1 : (T : ℚ) * (1 / 2) = (T : ℚ) * (2 : ℚ) ^ (-1 : Int) := by norm_num
  have e2 : (T : ℚ) * (2 : ℚ) ^ (-1 : Int) / 4 = (T : ℚ) * (2 : ℚ) ^ (-3 : Int) := by
    norm_num; ring
  unfold CreateUser.targetCarbs
  rw [F64.ofInt_fin T hT, lit_half, lit_four]
  simp only [F64.mul, F64.div]
  rw [e1, F64.round_exact T (-1) hT (by norm_num) (by norm_num)]
  simp only [F64.div, if_neg (show (4 : ℚ) ≠ 0 by norm_num)]
  rw [e2, F64.round_exact T (-3) hT (by norm_num) (by norm_num),
    toInt_floor _ (by positivity) (by norm_num; linarith)]
  congr 1
  have : (T : ℚ) * (2 : ℚ) ^ (-3 : Int) = (T : ℚ) / ((8 : Nat) : ℚ) := by norm_num; ring
  rw [this, Rat.floor_intCast_div_natCast]
  norm_num

theorem targetFat_eq (T : Int) (h0 : 0 ≤ T) (h1 : T ≤ 2 ^ 53) :
    CreateUser.targetFat T = some (T / 36) := by
  have hT : |T| ≤ 2 ^ 53 := by rw [abs_of_nonneg h0]; exact h1
  have hq : (0 : ℚ) ≤ (T : ℚ) := by exact_mod_cast h0
  have hq1 : (T : ℚ) ≤ 9007199254740992 := by exact_mod_cast h1
  have e1 : (T : ℚ) * (1 / 4) = (T : ℚ) * (2 : ℚ) ^ (-2 : Int) := by norm_num
  have e2 : (T : ℚ) * (2 : ℚ) ^ (-2 : Int) / 9 = (T : ℚ) / 36 := by norm_num; ring
  have hk0 : 0 ≤ T / 36 := Int.ediv_nonneg h0 (by norm_num)
  have hk1 : T / 36 ≤ 2 ^ 53 := by omega
  have hdm : (T : ℚ) = 36 * ((T / 36 : Int) : ℚ) + ((T % 36 : Int) : ℚ) := by
    have := Int.ediv_add_emod T 36
    exact_mod_cast this.symm
  have hr0 : (0 : ℚ) ≤ ((T % 36 : Int) : ℚ) := by
    exact_mod_cast Int.emod_nonneg T (by norm_num)
  have hr1 : ((T % 36 : Int) : ℚ) ≤ 35 := by
    have : T % 36 < 36 := Int.emod_lt_of_pos T (by norm_num)
    exact_mod_cast (show T % 36 ≤ 35 by omega)
  -- the rounded quotient stays strictly between `T / 36` and its successor
  have hlo : ((T / 36 : Int) : ℚ) ≤ F64.rnd ((T : ℚ) / 36) := by
    have a : ((T / 36 : Int) : ℚ) ≤ (T : ℚ) / 36 := by linarith
    have b := F64.rnd_mono _ _ a
    rwa [F64.rnd_int (T / 36) (by rw [abs_of_nonneg hk0]; exact hk1)] at b
  have herr := F64.rnd_abs_err ((T : ℚ) / 36) 47 (by norm_num) (by
    rw [abs_of_nonneg (by positivity)]; norm_num; linarith)
  have hhi : F64.rnd ((T : ℚ) / 36) < ((T / 36 : Int) : ℚ) + 1 := by
    have := (abs_le.mp herr).2
    norm_num at this
    linarith
  unfold CreateUser.targetFat
  rw [F64.ofInt_fin T hT, lit_quarter, lit_nine]
  simp only [F64.mul, F64.div]
  rw [e1, F64.round_exact T (-2) hT (by norm_num) (by norm_num)]
  simp only [F64.div, if_neg (show (9 : ℚ) ≠ 0 by norm_num)]
  rw [e2, F64.round_fin _ (by
    rw [abs_of_nonneg (by positivity)]
    have : (2 : ℚ) ^ (53 : Int) ≤ (2 : ℚ) ^ (1023 : Int) :=
      zpow_le_zpow_right₀ (by norm_num) (by norm_num)
    have h53 : (2 : ℚ) ^ (53 : Int) = 9007199254740992 := by norm_num
    linarith)]
  rw [toInt_floor _ (le_trans (by exact_mod_cast hk0) hlo) (by
    have : ((T / 36 : Int) : ℚ) ≤ 9007199254740992 := by exact_mod_cast hk1
    norm_num; linarith)]
  congr 1
  rw [Int.floor_eq_iff]
  exact ⟨hlo, hhi⟩

theorem spec_targetProtein_eq (T : Int) : Spec.targetProtein T = T / 16 := by
  unfold Spec.targetProtein
  have : (T : ℚ) * (25 / 100) / 4 = (T : ℚ) / ((16 : Nat) : ℚ) := by norm_num; ring
  rw [this, Rat.floor_intCast_div_natCast]; norm_num

theorem spec_targetCarbs_eq (T : Int) : Spec.targetCarbs T = T / 8 := by
  unfold Spec.targetCarbs
  have : (T : ℚ) * (5 / 10) / 4 = (T : ℚ) / ((8 : Nat) : ℚ) := by norm_num; ring
  rw [this, Rat.floor_intCast_div_natCast]; norm_num

theorem spec_targetFat_eq (T : Int) : Spec.targetFat T = T / 36 := by
  unfold Spec.targetFat
  have : (T : ℚ) * (25 / 100) / 9 = (T : ℚ) / ((36 : Nat) : ℚ) := by norm_num; ring
  rw [this, Rat.floor_intCast_div_natCast]; norm_num

/-! ## `calculateBaseCalories` on finite operands -/

theorem bmrConsts_nonneg (gender : String) :
    0 ≤ (calculateBaseCalories.bmrConsts gender).1 ∧
      0 ≤ (calculateBaseCalories.bmrConsts gender).2.1 ∧
      0 ≤ (calculateBaseCalories.bmrConsts gender).2.2.1 ∧
      0 ≤ (calculateBaseCalories.bmrConsts gender).2.2.2 := by
  unfold calculateBaseCalories.bmrConsts
  split_ifs <;> norm_num

theorem multiplierConst_nonneg (activityLevel : String) :
    0 ≤ calculateBaseCalories.multiplierConst activityLevel := by
  unfold calculateBaseCalories.multiplierConst
  split_ifs <;> norm_num

theorem activityMultiplier_eq (activityLevel : String) :
    calculateBaseCalories.activityMultiplier activityLevel
      = F64.lit (calculateBaseCalories.multiplierConst activityLevel) := by
  unfold calculateBaseCalories.activityMultiplier calculateBaseCalories.multiplierConst
  split_ifs <;> rfl

theorem bmr_eq (weight height : F64) (age : Int) (gender : String) :
    calculateBaseCalories.bmr weight height age gender
      = F64.sub
          (F64.add
            (F64.add (F64.lit (calculateBaseCalories.bmrConsts gender).1)
              (F64.mul (F64.lit (calculateBaseCalories.bmrConsts gender).2.1) weight))
            (F64.mul (F64.lit (calculateBaseCalories.bmrConsts gender).2.2.1) height))
          (F64.mul (F64.lit (calculateBaseCalories.bmrConsts gender).2.2.2) (F64.ofInt age)) := by
  unfold calculateBaseCalories.bmr calculateBaseCalories.bmrConsts
  split_ifs <;> rfl

/-- A finite `bmr` is the value of the rounded operations on the finite path. -/
theorem bmr_fin (w h : ℚ) (age : Int) (gender : String) (y : ℚ)
    (hy : calculateBaseCalories.bmr (F64.fin w) (F64.fin h) age gender = F64.fin y) :
    y = calculateBaseCalories.bmrVal (calculateBaseCalories.bmrConsts gender).1
          (calculateBaseCalories.bmrConsts gender).2.1
          (calculateBaseCalories.bmrConsts gender).2.2.1
          (calculateBaseCalories.bmrConsts gender).2.2.2 w h age := by
  rw [bmr_eq] at hy
  obtain ⟨s2, m3, hs2, hm3, rfl⟩ := F64.sub_eq_fin _ _ _ hy
  obtain ⟨s1, m2, hs1, hm2, rfl⟩ := F64.add_eq_fin _ _ _ hs2
  obtain ⟨c0, m1, hc0, hm1, rfl⟩ := F64.add_eq_fin _ _ _ hs1
  obtain ⟨c1, w', hc1, hw, rfl⟩ := F64.mul_eq_fin _ _ _ hm1
  obtain ⟨c2, h', hc2, hh, rfl⟩ := F64.mul_eq_fin _ _ _ hm2
  obtain ⟨c3, a', hc3, ha, rfl⟩ := F64.mul_eq_fin _ _ _ hm3
  cases hw
  cases hh
  rw [F64.round_eq_fin _ _ hc0, F64.round_eq_fin _ _ hc1, F64.round_eq_fin _ _ hc2,
    F64.round_eq_fin _ _ hc3, F64.round_eq_fin _ _ ha]
  rfl

/-- A defined result of `calculateBaseCalories` is the truncation of the rounded
product of the finite `bmr` and the multiplier. -/
theorem atAge_some (w h : ℚ) (age : Int) (gender activityLevel : String) (r : Int)
    (hr : calculateBaseCalories.atAge (F64.fin w) (F64.fin h) age gender activityLevel
      = some r) :
    r = F64.truncQ (F64.rnd
      (calculateBaseCalories.bmrVal (calculateBaseCalories.bmrConsts gender).1
          (calculateBaseCalories.bmrConsts gender).2.1
          (calculateBaseCalories.bmrConsts gender).2.2.1
          (calculateBaseCalories.bmrConsts gender).2.2.2 w h age
        * F64.rnd (calculateBaseCalories.multiplierConst activityLevel))) := by
  unfold calculateBaseCalories.atAge at hr
  obtain ⟨q, hq, rfl⟩ := F64.toInt_eq_some _ _ hr
  obtain ⟨y, m, hy, hm, rfl⟩ := F64.mul_eq_fin _ _ _ hq
  rw [activityMultiplier_eq] at hm
  rw [bmr_fin w h age gender y hy, F64.round_eq_fin _ _ hm]

theorem bmrVal_mono_weight (q0 q1 q2 q3 w1 w2 h : ℚ) (age : Int) (hq1 : 0 ≤ q1)
    (hw : w1 ≤ w2) :
    calculateBaseCalories.bmrVal q0 q1 q2 q3 w1 h age
      ≤ calculateBaseCalories.bmrVal q0 q1 q2 q3 w2 h age := by
  unfold calculateBaseCalories.bmrVal
  have c := F64.rnd_nonneg q1 hq1
  have a := F64.rnd_mono _ _ (mul_le_mul_of_nonneg_left hw c)
  have b := F64.rnd_mono _ _ (add_le_add_left a (F64.rnd q0))
  have d := F64.rnd_mono _ _ (add_le_add_right b (F64.rnd (F64.rnd q2 * h)))
  exact F64.rnd_mono _ _ (sub_le_sub_right d _)

theorem bmrVal_mono_height (q0 q1 q2 q3 w h1 h2 : ℚ) (age : Int) (hq2 : 0 ≤ q2)
    (hh : h1 ≤ h2) :
    calculateBaseCalories.bmrVal q0 q1 q2 q3 w h1 age
      ≤ calculateBaseCalories.bmrVal q0 q1 q2 q3 w h2 age := by
  unfold calculateBaseCalories.bmrVal
  have c := F64.rnd_nonneg q2 hq2
  have a := F64.rnd_mono _ _ (mul_le_mul_of_nonneg_left hh c)
  have d := F64.rnd_mono _ _ (add_le_add_left a (F64.rnd (F64.rnd q0 + F64.rnd (F64.rnd q1 * w))))
  exact F64.rnd_mono _ _ (sub_le_sub_right d _)

theorem bmrVal_anti_age (q0 q1 q2 q3 w h : ℚ) (age1 age2 : Int) (hq3 : 0 ≤ q3)
    (ha : age1 ≤ age2) :
    calculateBaseCalories.bmrVal q0 q1 q2 q3 w h age2
      ≤ calculateBaseCalories.bmrVal q0 q1 q2 q3 w h age1 := by
  unfold calculateBaseCalories.bmrVal
  have c := F64.rnd_nonneg q3 hq3
  have e : F64.rnd (age1 : ℚ) ≤ F64.rnd (age2 : ℚ) := F64.rnd_mono _ _ (by exact_mod_cast ha)
  have a := F64.rnd_mono _ _ (mul_le_mul_of_nonneg_left e c)
  exact F64.rnd_mono _ _ (sub_le_sub_left a _)

theorem truncQ_scaled_mono (x y m : ℚ) (hm : 0 ≤ m) (h : x ≤ y) :
    F64.truncQ (F64.rnd (x * F64.rnd m)) ≤ F64.truncQ (F64.rnd (y * F64.rnd m)) :=
  F64.truncQ_mono _ _ (F64.rnd_mono _ _ (mul_le_mul_of_nonneg_right h (F64.rnd_nonneg m hm)))

/-! ## Scaled meal fields -/

namespace F64

theorem expo_two_mul (x : ℚ) (hx : 0 < x) : expo (2 * x) = expo x + 1 := by
  obtain ⟨h1, h2⟩ := expo_spec x hx
  have h2x : 0 < 2 * x := by linarith
  have e1 : (2 : ℚ) ^ (expo x + 1) = (2 : ℚ) ^ expo x * 2 := by
    rw [zpow_add₀ (by norm_num : (2 : ℚ) ≠ 0)]; norm_num
  have e2 : (2 : ℚ) ^ (expo x + 1 + 1) = (2 : ℚ) ^ (expo x + 1) * 2 := by
    rw [zpow_add₀ (by norm_num : (2 : ℚ) ≠ 0) (expo x + 1) 1]; norm_num
  have a := le_expo_of_le (2 * x) h2x (expo x + 1) (by rw [e1]; linarith)
  have b := expo_le_of_lt (2 * x) h2x (expo x + 1) (by rw [e2]; linarith)
  omega

/-- Doubling commutes with rounding in the normal range. -/
theorem rnd_two_mul (x : ℚ) (hx : x = 0 ∨ (2 : ℚ) ^ (-1022 : Int) ≤ x) :
    rnd (2 * x) = 2 * rnd x := by
  rcases hx with h | h
  · subst h; simp [rnd_zero]
  · have hx0 : 0 < x := lt_of_lt_of_le (two_zpow_pos _) h
    have he := le_expo_of_le x hx0 (-1022) h
    have hu : ulpExp (2 * x) = ulpExp x + 1 := by
      unfold ulpExp
      rw [expo_two_mul x hx0]
      omega
    rw [rnd_of_pos x hx0, rnd_of_pos (2 * x) (by linarith)]
    unfold rndPos
    rw [hu]
    have hp := two_zpow_pos (ulpExp x)
    have e1 : (2 : ℚ) ^ (ulpExp x + 1) = (2 : ℚ) ^ ulpExp x * 2 := by
      rw [zpow_add₀ (by norm_num : (2 : ℚ) ≠ 0)]; norm_num
    have e2 : 2 * x / ((2 : ℚ) ^ ulpExp x * 2) = x / (2 : ℚ) ^ ulpExp x := by
      field_simp; ring
    rw [e1, e2]
    ring

end F64

theorem rnd_int64_bounds (base : Int) (h0 : 0 ≤ base) (k : Nat) (hk : k ≤ 63)
    (h1 : base ≤ 2 ^ k) :
    (F64.rnd (base : ℚ) = 0 ∨ 1 ≤ F64.rnd (base : ℚ)) ∧ F64.rnd (base : ℚ) ≤ (2 : ℚ) ^ k := by
  constructor
  · rcases eq_or_lt_of_le h0 with h | h
    · left; rw [← h]; simpa using F64.rnd_zero
    · right
      have a : (1 : ℚ) ≤ (base : ℚ) := by exact_mod_cast (show 1 ≤ base by omega)
      have b := F64.rnd_mono _ _ a
      rwa [F64.rnd_one] at b
  · have a : (base : ℚ) ≤ ((1 : Int) : ℚ) * (2 : ℚ) ^ (k : Int) := by
      rw [zpow_natCast]; push_cast; rw [one_mul]; exact_mod_cast h1
    have b := F64.rnd_mono _ _ a
    rw [F64.rnd_exact 1 k (by norm_num) (by omega)] at b
    rw [zpow_natCast] at b
    simpa using b

/-- A scaled meal field lies within one of the exact floor. -/
theorem scaled_near (base : Int) (p : ℚ) (h0 : 0 ≤ base) (h1 : base ≤ 2 ^ 51)
    (hp0 : 0 ≤ p) (hp1 : p ≤ 3) :
    ∃ c : Int, CreateMealEntry.scaled base (F64.fin p) = some c ∧
      Spec.scaled base p ≤ c ∧ c ≤ Spec.scaled base p + 1 := by
  have hb : |base| ≤ 2 ^ 53 := by rw [abs_of_nonneg h0]; omega
  have hq0 : (0 : ℚ) ≤ (base : ℚ) := by exact_mod_cast h0
  have hq1 : (base : ℚ) ≤ 2251799813685248 := by exact_mod_cast h1
  have hx0 : 0 ≤ (base : ℚ) * p := mul_nonneg hq0 hp0
  have hx1 : (base : ℚ) * p ≤ 6755399441055744 := by nlinarith
  have hk0 : 0 ≤ ⌊(base : ℚ) * p⌋ := Int.floor_nonneg.mpr hx0
  have hk1 : ⌊(base : ℚ) * p⌋ ≤ 6755399441055744 := by
    have : ((⌊(base : ℚ) * p⌋ : Int) : ℚ) ≤ ((6755399441055744 : Int) : ℚ) := by
      push_cast; exact le_trans (Int.floor_le _) hx1
    exact_mod_cast this
  have hlo : ((⌊(base : ℚ) * p⌋ : Int) : ℚ) ≤ F64.rnd ((base : ℚ) * p) := by
    have b := F64.rnd_mono _ _ (Int.floor_le ((base : ℚ) * p))
    rwa [F64.rnd_int _ (by rw [abs_of_nonneg hk0]; omega)] at b
  have hhi : F64.rnd ((base : ℚ) * p) ≤ ((⌊(base : ℚ) * p⌋ + 1 : Int) : ℚ) := by
    have a : (base : ℚ) * p ≤ ((⌊(base : ℚ) * p⌋ + 1 : Int) : ℚ) := by
      push_cast; exact le_of_lt (Int.lt_floor_add_one _)
    have b := F64.rnd_mono _ _ a
    rwa [F64.rnd_int _ (by rw [abs_of_nonneg (by omega)]; omega)] at b
  have hfin : F64.round ((base : ℚ) * p) = F64.fin (F64.rnd ((base : ℚ) * p)) := by
    apply F64.round_fin
    rw [abs_of_nonneg hx0]
    have : (2 : ℚ) ^ (53 : Int) ≤ (2 : ℚ) ^ (1023 : Int) :=
      zpow_le_zpow_right₀ (by norm_num) (by norm_num)
    have h53 : (2 : ℚ) ^ (53 : Int) = 9007199254740992 := by norm_num
    linarith
  refine ⟨⌊F64.rnd ((base : ℚ) * p)⌋, ?_, ?_, ?_⟩
  · unfold CreateMealEntry.scaled
    rw [F64.ofInt_fin base hb]
    simp only [F64.mul]
    rw [hfin]
    apply toInt_floor _ (le_trans (by exact_mod_cast hk0) hlo)
    have : ((⌊(base : ℚ) * p⌋ + 1 : Int) : ℚ) ≤ 6755399441055745 := by
      exact_mod_cast (show ⌊(base : ℚ) * p⌋ + 1 ≤ 6755399441055745 by omega)
    norm_num
    linarith
  · unfold Spec.scaled
    exact Int.le_floor.mpr hlo
  · unfold Spec.scaled
    have := Int.floor_mono hhi
    rwa [Int.floor_intCast] at this

/-- Doubling the portion doubles a scaled meal field, up to the truncation. -/
theorem scaled_double (base : Int) (p : ℚ) (h0 : 0 ≤ base) (h1 : base ≤ 2 ^ 61)
    (hp0 : 1 / 10 ≤ p) (hp1 : 2 * p ≤ 3) :
    ∃ c1 c2 : Int, CreateMealEntry.scaled base (F64.fin p) = some c1 ∧
      CreateMealEntry.scaled base (F64.fin (2 * p)) = some c2 ∧
      (c2 = 2 * c1 ∨ c2 = 2 * c1 + 1) := by
  obtain ⟨hb01, hb2⟩ := rnd_int64_bounds base h0 61 (by norm_num) h1
  have hb0 : 0 ≤ F64.rnd (base : ℚ) := F64.rnd_nonneg _ (by exact_mod_cast h0)
  have h61 : (2 : ℚ) ^ (61 : Nat) = 2305843009213693952 := by norm_num
  rw [h61] at hb2
  set b := F64.rnd (base : ℚ) with hbdef
  have hx0 : 0 ≤ b * p := mul_nonneg hb0 (by linarith)
  have hx1 : b * p ≤ ((3 : Int) : ℚ) * (2 : ℚ) ^ (60 : Int) := by
    norm_num; nlinarith
  have hnorm : b * p = 0 ∨ (2 : ℚ) ^ (-1022 : Int) ≤ b * p := by
    rcases hb01 with h | h
    · left; rw [h, zero_mul]
    · right
      have a : (2 : ℚ) ^ (-1022 : Int) ≤ (2 : ℚ) ^ (-4 : Int) :=
        zpow_le_zpow_right₀ (by norm_num) (by norm_num)
      have c : (2 : ℚ) ^ (-4 : Int) = 1 / 16 := by norm_num
      have d : 1 * (1 / 10 : ℚ) ≤ b * p := mul_le_mul h hp0 (by norm_num) hb0
      calc (2 : ℚ) ^ (-1022 : Int) ≤ (2 : ℚ) ^ (-4 : Int) := a
        _ = 1 / 16 := c
        _ ≤ 1 * (1 / 10 : ℚ) := by norm_num
        _ ≤ b * p := d
  have hy0 := F64.rnd_nonneg _ hx0
  have hy1 : F64.rnd (b * p) ≤ ((3 : Int) : ℚ) * (2 : ℚ) ^ (60 : Int) := by
    have := F64.rnd_mono _ _ hx1
    rwa [F64.rnd_exact 3 60 (by norm_num) (by norm_num)] at this
  have h60 : ((3 : Int) : ℚ) * (2 : ℚ) ^ (60 : Int) = 3458764513820540928 := by norm_num
  rw [h60] at hy1 hx1
  have big : (2 : ℚ) ^ (62 : Int) ≤ (2 : ℚ) ^ (1023 : Int) :=
    zpow_le_zpow_right₀ (by norm_num) (by norm_num)
  have h62 : (2 : ℚ) ^ (62 : Int) = 4611686018427387904 := by norm_num
  have hd : F64.rnd (b * (2 * p)) = 2 * F64.rnd (b * p) := by
    rw [show b * (2 * p) = 2 * (b * p) by ring]
    exact F64.rnd_two_mul _ hnorm
  have hof : F64.ofInt base = F64.fin b :=
    F64.ofInt_int64 base (by rw [abs_of_nonneg h0]; omega)
  have f1 : F64.round (b * p) = F64.fin (F64.rnd (b * p)) :=
    F64.round_fin _ (by rw [abs_of_nonneg hx0]; linarith)
  have f2 : F64.round (b * (2 * p)) = F64.fin (F64.rnd (b * (2 * p))) :=
    F64.round_fin _ (by rw [abs_of_nonneg (by nlinarith)]; nlinarith)
  refine ⟨⌊F64.rnd (b * p)⌋, ⌊F64.rnd (b * (2 * p))⌋, ?_, ?_, ?_⟩
  · unfold CreateMealEntry.scaled
    rw [hof]; simp only [F64.mul]; rw [f1]
    exact toInt_floor _ hy0 (by norm_num; linarith)
  · unfold CreateMealEntry.scaled
    rw [hof]; simp only [F64.mul]; rw [f2]
    exact toInt_floor _ (by rw [hd]; linarith) (by rw [hd]; norm_num; linarith)
  · rw [hd]
    have a := Int.floor_le (F64.rnd (b * p))
    have c := Int.lt_floor_add_one (F64.rnd (b * p))
    have l1 : 2 * ⌊F64.rnd (b * p)⌋ ≤ ⌊2 * F64.rnd (b * p)⌋ :=
      Int.le_floor.mpr (by push_cast; linarith)
    have l2 : ⌊2 * F64.rnd (b * p)⌋ < 2 * ⌊F64.rnd (b * p)⌋ + 2 :=
      Int.floor_lt.mpr (by push_cast; linarith)
    omega

/-! ## Error of `calculateBaseCalories` against the exact formula -/

theorem truncQ_add_one_le (x : ℚ) : F64.truncQ (x + 1) ≤ F64.truncQ x + 1 := by
  unfold F64.truncQ
  split_ifs with h1 h2 h2
  · rw [Int.floor_add_one]
  · rw [Int.floor_add_one]
    have := Int.floor_le_ceil x
    omega
  · exfalso; linarith
  · rw [Int.ceil_add_one]

/-- Truncations of two numbers less than 1 apart differ by at most 1. -/
theorem truncQ_close (x y : ℚ) (h : |x - y| < 1) : |F64.truncQ x - F64.truncQ y| ≤ 1 := by
  obtain ⟨h1, h2⟩ := abs_lt.mp h
  have a := F64.truncQ_mono x (y + 1) (by linarith)
  have b := F64.truncQ_mono y (x + 1) (by linarith)
  have c := truncQ_add_one_le x
  have d := truncQ_add_one_le y
  rw [abs_le]
  constructor <;> omega

/-- One rounded operation: if the operand `x` is within `e` of the exact value `X`,
the rounded result is finite and within `e + ρ` of `X`, where `ρ` is half a unit in
the last place at the magnitude of `X`. -/
theorem round_close (x X e M ρ : ℚ) (k : Int) (hk : -1022 ≤ k) (hk2 : k ≤ 1000)
    (hρ : (2 : ℚ) ^ (k - 53) ≤ ρ) (hM : M + e < (2 : ℚ) ^ (k + 1))
    (h1 : |x - X| ≤ e) (h2 : |X| ≤ M) :
    F64.round x = F64.fin (F64.rnd x) ∧ |F64.rnd x - X| ≤ e + ρ := by
  have hx : |x| < (2 : ℚ) ^ (k + 1) := by
    have : |x| ≤ |x - X| + |X| := by
      have := abs_add (x - X) X
      simpa using this
    linarith
  constructor
  · apply F64.round_fin
    have : (2 : ℚ) ^ (k + 1) ≤ (2 : ℚ) ^ (1023 : Int) :=
      zpow_le_zpow_right₀ (by norm_num) (by omega)
    linarith
  · have a := F64.rnd_abs_err x k hk hx
    have b : |F64.rnd x - X| ≤ |F64.rnd x - x| + |x - X| := by
      have := abs_add (F64.rnd x - x) (x - X)
      simpa using this
    linarith

theorem mul_err (c q w δ B : ℚ) (h1 : |c - q| ≤ δ) (h2 : |w| ≤ B) :
    |c * w - q * w| ≤ δ * B := by
  rw [← sub_mul, abs_mul]
  exact mul_le_mul h1 h2 (abs_nonneg _) (le_trans (abs_nonneg _) h1)

theorem abs_mul_le (q w A B : ℚ) (h1 : |q| ≤ A) (h2 : |w| ≤ B) : |q * w| ≤ A * B := by
  rw [abs_mul]
  exact mul_le_mul h1 h2 (abs_nonneg _) (le_trans (abs_nonneg _) h1)

theorem abs_add_le (a b A B : ℚ) (h1 : |a| ≤ A) (h2 : |b| ≤ B) : |a + b| ≤ A + B :=
  le_trans (abs_add a b) (add_le_add h1 h2)

theorem abs_sub_le' (a b A B : ℚ) (h1 : |a| ≤ A) (h2 : |b| ≤ B) : |a - b| ≤ A + B :=
  le_trans (abs_sub a b) (add_le_add h1 h2)

theorem add_err (a b a' b' e1 e2 : ℚ) (h1 : |a - a'| ≤ e1) (h2 : |b - b'| ≤ e2) :
    |a + b - (a' + b')| ≤ e1 + e2 := by
  have : a + b - (a' + b') = (a - a') + (b - b') := by ring
  rw [this]
  exact le_trans (abs_add _ _) (add_le_add h1 h2)

theorem sub_err (a b a' b' e1 e2 : ℚ) (h1 : |a - a'| ≤ e1) (h2 : |b - b'| ≤ e2) :
    |a - b - (a' - b')| ≤ e1 + e2 := by
  have : a - b - (a' - b') = (a - a') - (b - b') := by ring
  rw [this]
  exact le_trans (abs_sub _ _) (add_le_add h1 h2)

/-- A decimal constant below 512 becomes a finite `float64` within `2^-45` of it. -/
theorem lit_close (q : ℚ) (h0 : 0 ≤ q) (h1 : q ≤ 448) :
    F64.lit q = F64.fin (F64.rnd q) ∧ |F64.rnd q - q| ≤ 1 / 2 ^ 45 ∧ |F64.rnd q| ≤ 449 := by
  have hq : |q| ≤ 448 := by rw [abs_of_nonneg h0]; exact h1
  obtain ⟨a, b⟩ := round_close q q 0 448 (1 / 2 ^ 45) 8 (by norm_num) (by norm_num)
    (by norm_num) (by norm_num) (by simp) hq
  refine ⟨a, by simpa using b, ?_⟩
  have c : |F64.rnd q| ≤ |F64.rnd q - q| + |q| := by
    have := abs_add (F64.rnd q - q) q
    simpa using this
  have d : |F64.rnd q - q| ≤ 1 := le_trans (by simpa using b) (by norm_num)
  linarith

/-- The finite path of `bmr` for moderate operands, with its distance from the exact
value `q0 + q1 w + q2 h - q3 age`. -/
theorem bmr_forward (q0 q1 q2 q3 w h : ℚ) (age : Int)
    (hq0 : 0 ≤ q0 ∧ q0 ≤ 448) (hq1 : 0 ≤ q1 ∧ q1 ≤ 14) (hq2 : 0 ≤ q2 ∧ q2 ≤ 5)
    (hq3 : 0 ≤ q3 ∧ q3 ≤ 6)
    (hw : |w| ≤ 1000000) (hh : |h| ≤ 1000000) (ha : |age| ≤ 1000000) :
    F64.sub
        (F64.add (F64.add (F64.lit q0) (F64.mul (F64.lit q1) (F64.fin w)))
          (F64.mul (F64.lit q2) (F64.fin h)))
        (F64.mul (F64.lit q3) (F64.ofInt age))
      = F64.fin (calculateBaseCalories.bmrVal q0 q1 q2 q3 w h age) ∧
    |calculateBaseCalories.bmrVal q0 q1 q2 q3 w h age
        - (q0 + q1 * w + q2 * h - q3 * (age : ℚ))| ≤ 1 / 2 ^ 20 ∧
    |q0 + q1 * w + q2 * h - q3 * (age : ℚ)| ≤ 25000448 := by
  obtain ⟨l0, e0, _⟩ := lit_close q0 hq0.1 hq0.2
  obtain ⟨l1, e1, _⟩ := lit_close q1 hq1.1 (by linarith [hq1.2])
  obtain ⟨l2, e2, _⟩ := lit_close q2 hq2.1 (by linarith [hq2.2])
  obtain ⟨l3, e3, _⟩ := lit_close q3 hq3.1 (by linarith [hq3.2])
  have hage : |(age : ℚ)| ≤ 1000000 := by exact_mod_cast ha
  have lage : F64.ofInt age = F64.fin (age : ℚ) :=
    F64.ofInt_fin age (le_trans ha (by norm_num))
  have rage : F64.rnd (age : ℚ) = (age : ℚ) := F64.rnd_int age (le_trans ha (by norm_num))
  have a0 : |q0| ≤ 448 := by rw [abs_of_nonneg hq0.1]; exact hq0.2
  have a1 : |q1| ≤ 14 := by rw [abs_of_nonneg hq1.1]; exact hq1.2
  have a2 : |q2| ≤ 5 := by rw [abs_of_nonneg hq2.1]; exact hq2.2
  have a3 : |q3| ≤ 6 := by rw [abs_of_nonneg hq3.1]; exact hq3.2
  -- q1 * weight
  obtain ⟨f1, c1⟩ := round_close (F64.rnd q1 * w) (q1 * w) (1 / 2 ^ 25) 14000000 (1 / 2 ^ 26) 27
    (by norm_num) (by norm_num) (by norm_num) (by norm_num)
    (le_trans (mul_err _ _ _ _ _ e1 hw) (by norm_num))
    (le_trans (abs_mul_le _ _ _ _ a1 hw) (by norm_num))
  -- q0 + q1 * weight
  obtain ⟨f2, c2⟩ := round_close (F64.rnd q0 + F64.rnd (F64.rnd q1 * w)) (q0 + q1 * w)
    (1 / 2 ^ 23) 14000448 (1 / 2 ^ 26) 27
    (by norm_num) (by norm_num) (by norm_num) (by norm_num)
    (le_trans (add_err _ _ _ _ _ _ e0 c1) (by norm_num))
    (le_trans (abs_add_le _ _ _ _ a0 (abs_mul_le _ _ _ _ a1 hw)) (by norm_num))
  -- q2 * height
  obtain ⟨f3, c3⟩ := round_close (F64.rnd q2 * h) (q2 * h) (1 / 2 ^ 25) 5000000 (1 / 2 ^ 26) 27
    (by norm_num) (by norm_num) (by norm_num) (by norm_num)
    (le_trans (mul_err _ _ _ _ _ e2 hh) (by norm_num))
    (le_trans (abs_mul_le _ _ _ _ a2 hh) (by norm_num))
  -- q0 + q1 * weight + q2 * height
  obtain ⟨f4, c4⟩ := round_close
    (F64.rnd (F64.rnd q0 + F64.rnd (F64.rnd q1 * w)) + F64.rnd (F64.rnd q2 * h))
    (q0 + q1 * w + q2 * h) (1 / 2 ^ 21) 19000448 (1 / 2 ^ 26) 27
    (by norm_num) (by norm_num) (by norm_num) (by norm_num)
    (le_trans (add_err _ _ _ _ _ _ c2 c3) (by norm_num))
    (le_trans (abs_add_le _ _ _ _
      (abs_add_le _ _ _ _ a0 (abs_mul_le _ _ _ _ a1 hw)) (abs_mul_le _ _ _ _ a2 hh))
      (by norm_num))
  -- q3 * age
  obtain ⟨f5, c5⟩ := round_close (F64.rnd q3 * (age : ℚ)) (q3 * (age : ℚ)) (1 / 2 ^ 25) 6000000
    (1 / 2 ^ 26) 27
    (by norm_num) (by norm_num) (by norm_num) (by norm_num)
    (le_trans (mul_err _ _ _ _ _ e3 hage) (by norm_num))
    (le_trans (abs_mul_le _ _ _ _ a3 hage) (by norm_num))
  -- the difference
  have hX : |q0 + q1 * w + q2 * h - q3 * (age : ℚ)| ≤ 25000448 :=
    le_trans (abs_sub_le' _ _ _ _
      (abs_add_le _ _ _ _ (abs_add_le _ _ _ _ a0 (abs_mul_le _ _ _ _ a1 hw))
        (abs_mul_le _ _ _ _ a2 hh))
      (abs_mul_le _ _ _ _ a3 hage)) (by norm_num)
  obtain ⟨f6, c6⟩ := round_close
    (F64.rnd (F64.rnd (F64.rnd q0 + F64.rnd (F64.rnd q1 * w)) + F64.rnd (F64.rnd q2 * h))
      - F64.rnd (F64.rnd q3 * (age : ℚ)))
    (q0 + q1 * w + q2 * h - q3 * (age : ℚ)) (1 / 2 ^ 21 + 1 / 2 ^ 23) 25000448 (1 / 2 ^ 26) 27
    (by norm_num) (by norm_num) (by norm_num) (by norm_num)
    (le_trans (sub_err _ _ _ _ _ _ c4 c5) (by norm_num)) hX
  refine ⟨?_, ?_, hX⟩
  · rw [l0, l1, l2, l3, lage]
    unfold calculateBaseCalories.bmrVal
    rw [rage]
    simp only [F64.mul, F64.add, F64.sub, F64.neg]
    rw [f1, f3, f5]
    simp only [F64.add]
    rw [f2]
    simp only [F64.add]
    rw [f4]
    simp only [F64.add, F64.neg]
    rw [← sub_eq_add_neg, f6]
  · unfold calculateBaseCalories.bmrVal
    rw [rage]
    exact le_trans c6 (by norm_num)

theorem mul_err2 (a a' b b' ea eb A B : ℚ) (h1 : |a - a'| ≤ ea) (h2 : |b - b'| ≤ eb)
    (h3 : |a'| ≤ A) (h4 : |b| ≤ B) : |a * b - a' * b'| ≤ ea * B + A * eb := by
  have e : a * b - a' * b' = (a - a') * b + a' * (b - b') := by ring
  rw [e]
  refine le_trans (abs_add _ _) (add_le_add ?_ ?_)
  · exact abs_mul_le _ _ _ _ h1 h4
  · exact abs_mul_le _ _ _ _ h3 h2

theorem bmrConsts_bounds (gender : String) :
    (0 ≤ (calculateBaseCalories.bmrConsts gender).1 ∧
      (calculateBaseCalories.bmrConsts gender).1 ≤ 448) ∧
    (0 ≤ (calculateBaseCalories.bmrConsts gender).2.1 ∧
      (calculateBaseCalories.bmrConsts gender).2.1 ≤ 14) ∧
    (0 ≤ (calculateBaseCalories.bmrConsts gender).2.2.1 ∧
      (calculateBaseCalories.bmrConsts gender).2.2.1 ≤ 5) ∧
    (0 ≤ (calculateBaseCalories.bmrConsts gender).2.2.2 ∧
      (calculateBaseCalories.bmrConsts gender).2.2.2 ≤ 6) := by
  unfold calculateBaseCalories.bmrConsts
  split_ifs <;> norm_num

theorem multiplierConst_bounds (activityLevel : String) :
    0 ≤ calculateBaseCalories.multiplierConst activityLevel ∧
      calculateBaseCalories.multiplierConst activityLevel ≤ 2 := by
  unfold calculateBaseCalories.multiplierConst
  split_ifs <;> norm_num

theorem spec_bmr_eq (w h : ℚ) (age : Int) (gender : String) :
    Spec.bmr w h age gender
      = (calculateBaseCalories.bmrConsts gender).1
        + (calculateBaseCalories.bmrConsts gender).2.1 * w
        + (calculateBaseCalories.bmrConsts gender).2.2.1 * h
        - (calculateBaseCalories.bmrConsts gender).2.2.2 * (age : ℚ) := by
  unfold Spec.bmr calculateBaseCalories.bmrConsts GenderMale
  split_ifs <;> rfl

theorem spec_multiplier_eq (activityLevel : String) :
    Spec.activityMultiplier activityLevel
      = calculateBaseCalories.multiplierConst activityLevel := by
  unfold Spec.activityMultiplier calculateBaseCalories.multiplierConst ActivityLow
    ActivityModerate ActivityHigh
  rfl

/-- For moderate operands `calculateBaseCalories` is defined and within 1 of the
truncation of the exact `BMR × multiplier`. -/
theorem atAge_close (w h : ℚ) (age : Int) (gender activityLevel : String)
    (hw : |w| ≤ 1000000) (hh : |h| ≤ 1000000) (ha : |age| ≤ 1000000) :
    ∃ r : Int,
      calculateBaseCalories.atAge (F64.fin w) (F64.fin h) age gender activityLevel = some r ∧
      |r - F64.truncQ (Spec.scaledBmr w h age gender activityLevel)| ≤ 1 := by
  obtain ⟨b0, b1, b2, b3⟩ := bmrConsts_bounds gender
  obtain ⟨m0, m1⟩ := multiplierConst_bounds activityLevel
  obtain ⟨fwd, cl, hX⟩ := bmr_forward _ _ _ _ w h age b0 b1 b2 b3 hw hh ha
  obtain ⟨lm, em, am⟩ := lit_close (calculateBaseCalories.multiplierConst activityLevel) m0
    (by linarith)
  have hm3 : |F64.rnd (calculateBaseCalories.multiplierConst activityLevel)| ≤ 3 := by
    have c : |F64.rnd (calculateBaseCalories.multiplierConst activityLevel)|
        ≤ |F64.rnd (calculateBaseCalories.multiplierConst activityLevel)
            - calculateBaseCalories.multiplierConst activityLevel|
          + |calculateBaseCalories.multiplierConst activityLevel| := by
      have := abs_add (F64.rnd (calculateBaseCalories.multiplierConst activityLevel)
        - calculateBaseCalories.multiplierConst activityLevel)
        (calculateBaseCalories.multiplierConst activityLevel)
      simpa using this
    have d : |calculateBaseCalories.multiplierConst activityLevel| ≤ 2 := by
      rw [abs_of_nonneg m0]; exact m1
    have e : |F64.rnd (calculateBaseCalories.multiplierConst activityLevel)
        - calculateBaseCalories.multiplierConst activityLevel| ≤ 1 :=
      le_trans em (by norm_num)
    linarith
  have hV : Spec.scaledBmr w h age gender activityLevel
      = ((calculateBaseCalories.bmrConsts gender).1
        + (calculateBaseCalories.bmrConsts gender).2.1 * w
        + (calculateBaseCalories.bmrConsts gender).2.2.1 * h
        - (calculateBaseCalories.bmrConsts gender).2.2.2 * (age : ℚ))
        * calculateBaseCalories.multiplierConst activityLevel := by
    unfold Spec.scaledBmr
    rw [spec_bmr_eq, spec_multiplier_eq]
  have hVb : |Spec.scaledBmr w h age gender activityLevel| ≤ 50000896 := by
    rw [hV]
    exact le_trans (abs_mul_le _ _ 25000448 2 hX (by rw [abs_of_nonneg m0]; exact m1))
      (by norm_num)
  obtain ⟨f7, c7⟩ := round_close
    (calculateBaseCalories.bmrVal (calculateBaseCalories.bmrConsts gender).1
        (calculateBaseCalories.bmrConsts gender).2.1
        (calculateBaseCalories.bmrConsts gender).2.2.1
        (calculateBaseCalories.bmrConsts gender).2.2.2 w h age
      * F64.rnd (calculateBaseCalories.multiplierConst activityLevel))
    (Spec.scaledBmr w h age gender activityLevel) (1 / 2 ^ 17) 50000896 (1 / 2 ^ 26) 27
    (by norm_num) (by norm_num) (by norm_num) (by norm_num)
    (by rw [hV]; exact le_trans (mul_err2 _ _ _ _ _ _ _ _ cl em hX hm3) (by norm_num)) hVb
  obtain ⟨c7a, c7b⟩ := abs_le.mp c7
  obtain ⟨v1, v2⟩ := abs_le.mp hVb
  refine ⟨_, ?_, truncQ_close _ _ (lt_of_le_of_lt c7 (by norm_num))⟩
  unfold calculateBaseCalories.atAge
  rw [bmr_eq, fwd, activityMultiplier_eq, lm]
  simp only [F64.mul]
  rw [f7]
  apply F64.toInt_fin
  · have := F64.truncQ_mono (((-50000897 : Int) : ℚ)) _ (by push_cast; norm_num at c7a ⊢; linarith)
    rw [F64.truncQ_int] at this
    exact le_trans (by norm_num) this
  · have := F64.truncQ_mono _ (((50000897 : Int) : ℚ)) (by push_cast; norm_num at c7b ⊢; linarith)
    rw [F64.truncQ_int] at this
    exact lt_of_le_of_lt this (by norm_num)

/-! ## Relative error of `caloriesBurned` -/

namespace F64

theorem acc_pos : 0 < acc := by unfold acc; norm_num

theorem acc_le_one : acc ≤ 1 := by unfold acc; norm_num

theorem acc_pow_pos (n : Nat) : 0 < acc ^ n := pow_pos acc_pos n

theorem near_refl (X : ℚ) (h : 0 ≤ X) : Near 0 X X := by
  unfold Near; simp [h]

theorem near_rnd (x : ℚ) (h0 : 0 ≤ x) (h : x = 0 ∨ (2 : ℚ) ^ (-1022 : Int) ≤ x) :
    Near 1 x (rnd x) := by
  have hr := rnd_nonneg x h0
  rcases h with h | h
  · subst h
    unfold Near
    simp [rnd_zero]
  · have e := rnd_rel_err x (by rwa [abs_of_nonneg h0])
    rw [abs_of_nonneg h0] at e
    obtain ⟨e1, e2⟩ := abs_le.mp e
    have hu : (2 : ℚ) ^ (-53 : Int) = 1 / 2 ^ 53 := by norm_num
    rw [hu] at e1 e2
    refine ⟨h0, hr, ?_, ?_⟩
    · unfold acc; rw [pow_one]; linarith
    · unfold acc; rw [pow_one]
      have : rnd x * (1 - 1 / 2 ^ 53) ≤ (x + 1 / 2 ^ 53 * x) * (1 - 1 / 2 ^ 53) :=
        mul_le_mul_of_nonneg_right (by linarith) (by norm_num)
      have h2 : (x + 1 / 2 ^ 53 * x) * (1 - 1 / 2 ^ 53) = x - x * (1 / 2 ^ 53) ^ 2 := by ring
      have h3 : 0 ≤ x * (1 / 2 ^ 53 : ℚ) ^ 2 := by positivity
      linarith

theorem near_trans (n m : Nat) (X y z : ℚ) (h1 : Near n X y) (h2 : Near m y z) :
    Near (n + m) X z := by
  obtain ⟨a1, a2, a3, a4⟩ := h1
  obtain ⟨b1, b2, b3, b4⟩ := h2
  have hn := acc_pow_pos n
  have hm := acc_pow_pos m
  refine ⟨a1, b2, ?_, ?_⟩
  · rw [pow_add, ← mul_assoc]
    exact le_trans (mul_le_mul_of_nonneg_right a3 (le_of_lt hm)) b3
  · rw [pow_add, mul_comm (acc ^ n), ← mul_assoc]
    exact le_trans (mul_le_mul_of_nonneg_right b4 (le_of_lt hn)) a4

theorem near_mul (n m : Nat) (X x Y y : ℚ) (h1 : Near n X x) (h2 : Near m Y y) :
    Near (n + m) (X * Y) (x * y) := by
  obtain ⟨a1, a2, a3, a4⟩ := h1
  obtain ⟨b1, b2, b3, b4⟩ := h2
  have hn := acc_pow_pos n
  have hm := acc_pow_pos m
  refine ⟨mul_nonneg a1 b1, mul_nonneg a2 b2, ?_, ?_⟩
  · rw [pow_add]
    calc X * Y * (acc ^ n * acc ^ m) = (X * acc ^ n) * (Y * acc ^ m) := by ring
      _ ≤ x * y := mul_le_mul a3 b3 (mul_nonneg b1 (le_of_lt hm)) a2
  · rw [pow_add]
    calc x * y * (acc ^ n * acc ^ m) = (x * acc ^ n) * (y * acc ^ m) := by ring
      _ ≤ X * Y := mul_le_mul a4 b4 (mul_nonneg b2 (le_of_lt hm)) a1

theorem near_div (n m : Nat) (X x Y y : ℚ) (h1 : Near n X x) (h2 : Near m Y y)
    (hY : 0 < Y) (hy : 0 < y) : Near (n + m) (X / Y) (x / y) := by
  obtain ⟨a1, a2, a3, a4⟩ := h1
  obtain ⟨b1, b2, b3, b4⟩ := h2
  have hn := acc_pow_pos n
  have hm := acc_pow_pos m
  refine ⟨div_nonneg a1 (le_of_lt hY), div_nonneg a2 (le_of_lt hy), ?_, ?_⟩
  · rw [pow_add, div_mul_eq_mul_div, div_le_div_iff₀ hY hy]
    calc X * (acc ^ n * acc ^ m) * y = (X * acc ^ n) * (y * acc ^ m) := by ring
      _ ≤ x * Y := mul_le_mul a3 b4 (mul_nonneg b2 (le_of_lt hm)) a2
  · rw [pow_add, div_mul_eq_mul_div, div_le_div_iff₀ hy hY]
    calc x * (acc ^ n * acc ^ m) * Y = (x * acc ^ n) * (Y * acc ^ m) := by ring
      _ ≤ X * y := mul_le_mul a4 b3 (mul_nonneg b1 (le_of_lt hm)) a1

theorem near_mono (n m : Nat) (X x : ℚ) (h : Near n X x) (hnm : n ≤ m) : Near m X x := by
  obtain ⟨a1, a2, a3, a4⟩ := h
  have hle : acc ^ m ≤ acc ^ n := pow_le_pow_of_le_one (le_of_lt acc_pos) acc_le_one hnm
  refine ⟨a1, a2, ?_, ?_⟩
  · exact le_trans (mul_le_mul_of_nonneg_left hle a1) a3
  · exact le_trans (mul_le_mul_of_nonneg_left hle a2) a4

/-- Upper bound from nearness: within at most 7 roundings the computed value is at
most twice the exact one. -/
theorem near_le_two (n : Nat) (hn : n ≤ 7) (X x : ℚ) (h : Near n X x) : x ≤ 2 * X := by
  obtain ⟨a1, a2, a3, a4⟩ := near_mono n 7 X x h hn
  have h7 : (1 : ℚ) / 2 ≤ acc ^ 7 := by unfold acc; norm_num
  nlinarith

theorem near_ge_half (n : Nat) (hn : n ≤ 7) (X x : ℚ) (h : Near n X x) : X ≤ 2 * x := by
  obtain ⟨a1, a2, a3, a4⟩ := near_mono n 7 X x h hn
  have h7 : (1 : ℚ) / 2 ≤ acc ^ 7 := by unfold acc; norm_num
  nlinarith

theorem near_zero (n : Nat) (x : ℚ) (h : Near n 0 x) : x = 0 := by
  obtain ⟨_, a2, _, a4⟩ := h
  have hn := acc_pow_pos n
  have : x * acc ^ n = 0 := le_antisymm a4 (mul_nonneg a2 (le_of_lt hn))
  rcases mul_eq_zero.mp this with h | h
  · exact h
  · exact absurd h (ne_of_gt hn)

/-- Nearness to an exact value that is zero or at least `2^-1021` keeps the computed
value zero or normal. -/
theorem near_normal (n : Nat) (hn : n ≤ 7) (X x : ℚ) (h : Near n X x)
    (hX : X = 0 ∨ (2 : ℚ) ^ (-1021 : Int) ≤ X) :
    x = 0 ∨ (2 : ℚ) ^ (-1022 : Int) ≤ x := by
  rcases hX with h0 | h0
  · left; subst h0; exact near_zero n x h
  · right
    have := near_ge_half n hn X x h
    have e : (2 : ℚ) ^ (-1021 : Int) = 2 * (2 : ℚ) ^ (-1022 : Int) := by
      rw [show (-1021 : Int) = 1 + (-1022) by norm_num, zpow_add₀ (by norm_num : (2 : ℚ) ≠ 0)]
      norm_num
    rw [e] at h0
    linarith

theorem round_near (x : ℚ) (h0 : 0 ≤ x) (h1 : x ≤ (2 : ℚ) ^ (1023 : Int))
    (hn : x = 0 ∨ (2 : ℚ) ^ (-1022 : Int) ≤ x) :
    round x = fin (rnd x) ∧ Near 1 x (rnd x) :=
  ⟨round_fin x (by rwa [abs_of_nonneg h0]), near_rnd x h0 hn⟩

theorem small_le_big (k : Int) (hk : k ≤ 1023) : (2 : ℚ) ^ k ≤ (2 : ℚ) ^ (1023 : Int) :=
  zpow_le_zpow_right₀ (by norm_num) hk

theorem tiny_le (k : Int) (hk : -1021 ≤ k) : (2 : ℚ) ^ (-1021 : Int) ≤ (2 : ℚ) ^ k :=
  zpow_le_zpow_right₀ (by norm_num) hk

end F64

theorem floor_close (x y : ℚ) (hx : 0 ≤ x) (hy : 0 ≤ y) (h : |x - y| < 1) :
    |⌊x⌋ - ⌊y⌋| ≤ 1 := by
  have := truncQ_close x y h
  rwa [F64.truncQ_of_nonneg x hx, F64.truncQ_of_nonneg y hy] at this

/-- The last product of `caloriesBurned` when nothing underflows. -/
theorem final_normal (V x : ℚ) (h : F64.Near 6 V x) (hV : V < 2 ^ 49)
    (hn : x = 0 ∨ (2 : ℚ) ^ (-1022 : Int) ≤ x) :
    ∃ c : Int, F64.toInt (F64.round x) = some c ∧ |c - ⌊V⌋| ≤ 1 := by
  have hx0 : 0 ≤ x := h.2.1
  have hV0 : 0 ≤ V := h.1
  have hx2 := F64.near_le_two 6 (by norm_num) V x h
  have h50 : (2 : ℚ) ^ (50 : Int) = 2 ^ 50 := by norm_cast
  obtain ⟨f, nr⟩ := F64.round_near x hx0 (by
    have := F64.small_le_big 50 (by norm_num)
    rw [h50] at this
    linarith) hn
  have n7 : F64.Near 7 V (F64.rnd x) := F64.near_trans 6 1 V x _ h nr
  obtain ⟨_, t0, t1, t2⟩ := n7
  have t3 := F64.near_le_two 7 (by norm_num) V _ ⟨hV0, t0, t1, t2⟩
  have a7 : 1 - 7 / 2 ^ 53 ≤ F64.acc ^ 7 := by unfold F64.acc; norm_num
  have lo : V - 1 < F64.rnd x := by nlinarith
  have hi : F64.rnd x < V + 1 := by nlinarith
  refine ⟨⌊F64.rnd x⌋, ?_, ?_⟩
  · rw [f]
    exact toInt_floor _ t0 (by norm_num; linarith)
  · exact floor_close _ _ t0 hV0 (abs_lt.mpr ⟨by linarith, by linarith⟩)

/-- The last product of `caloriesBurned` when it is below one half: the entry gets 0. -/
theorem final_small (V x : ℚ) (hx0 : 0 ≤ x) (hx1 : x ≤ 1 / 2) (hV0 : 0 ≤ V) (hV1 : V < 1) :
    ∃ c : Int, F64.toInt (F64.round x) = some c ∧ |c - ⌊V⌋| ≤ 1 := by
  have hhalf : F64.rnd (1 / 2 : ℚ) = 1 / 2 := by
    have := F64.rnd_exact 1 (-1) (by norm_num) (by norm_num)
    norm_num at this
    simpa using this
  have r0 := F64.rnd_nonneg x hx0
  have r1 := F64.rnd_mono _ _ hx1
  rw [hhalf] at r1
  have f : F64.round x = F64.fin (F64.rnd x) := F64.round_fin x (by
    rw [abs_of_nonneg hx0]
    have := F64.small_le_big 0 (by norm_num)
    simp only [zpow_zero] at this
    linarith)
  have e1 : ⌊F64.rnd x⌋ = 0 := by
    rw [Int.floor_eq_iff]; constructor <;> push_cast <;> linarith
  have e2 : ⌊V⌋ = 0 := by
    rw [Int.floor_eq_iff]; constructor <;> push_cast <;> linarith
  refine ⟨⌊F64.rnd x⌋, ?_, ?_⟩
  · rw [f]
    exact toInt_floor _ r0 (by norm_num; linarith)
  · rw [e1, e2]; norm_num

theorem int_cast_normal (n : Int) (h0 : 0 ≤ n) :
    (n : ℚ) = 0 ∨ (2 : ℚ) ^ (-1022 : Int) ≤ (n : ℚ) := by
  rcases eq_or_lt_of_le h0 with h | h
  · left; rw [← h]; norm_num
  · right
    have a : (1 : ℚ) ≤ (n : ℚ) := by exact_mod_cast (show 1 ≤ n by omega)
    have b : (2 : ℚ) ^ (-1022 : Int) ≤ (2 : ℚ) ^ (0 : Int) :=
      zpow_le_zpow_right₀ (by norm_num) (by norm_num)
    rw [zpow_zero] at b
    linarith

/-- The computation of `caloriesBurned` up to the multiplication by the intensity:
finite, and within 5 roundings of `base × (d / bd) × i`. -/
theorem burn_upto_intensity (base d bd : Int) (i : ℚ)
    (hb0 : 0 ≤ base) (hb1 : base < 2 ^ 63) (hbd0 : 0 < bd) (hbd1 : bd < 2 ^ 63)
    (hd0 : 5 ≤ d) (hd1 : d ≤ 180) (hi0 : 1 / 2 ≤ i) (hi1 : i ≤ 2) :
    ∃ t : ℚ,
      F64.mul (F64.mul (F64.ofInt base) (F64.div (F64.ofInt d) (F64.ofInt bd))) (F64.fin i)
        = F64.fin t ∧
      F64.Near 5 ((base : ℚ) * ((d : ℚ) / (bd : ℚ)) * i) t ∧
      (base : ℚ) * ((d : ℚ) / (bd : ℚ)) * i ≤ 2 ^ 72 := by
  have qb0 : (0 : ℚ) ≤ (base : ℚ) := by exact_mod_cast hb0
  have qb1 : (base : ℚ) ≤ 2 ^ 63 := by exact_mod_cast (le_of_lt hb1)
  have qbd0 : (1 : ℚ) ≤ (bd : ℚ) := by exact_mod_cast (show 1 ≤ bd by omega)
  have qbd1 : (bd : ℚ) ≤ 2 ^ 63 := by exact_mod_cast (le_of_lt hbd1)
  have qd0 : (5 : ℚ) ≤ (d : ℚ) := by exact_mod_cast hd0
  have qd1 : (d : ℚ) ≤ 180 := by exact_mod_cast hd1
  have hdabs : |d| ≤ 2 ^ 53 := by rw [abs_of_nonneg (by omega)]; omega
  -- the three conversions
  have ofb := F64.ofInt_int64 base (by rw [abs_of_nonneg hb0]; omega)
  have ofbd := F64.ofInt_int64 bd (by rw [abs_of_nonneg (by omega)]; omega)
  have ofd := F64.ofInt_fin d hdabs
  have nb : F64.Near 1 (base : ℚ) (F64.rnd (base : ℚ)) :=
    F64.near_rnd _ qb0 (int_cast_normal base hb0)
  have nbd : F64.Near 1 (bd : ℚ) (F64.rnd (bd : ℚ)) :=
    F64.near_rnd _ (by linarith) (int_cast_normal bd (by omega))
  have fbd1 : 1 ≤ F64.rnd (bd : ℚ) := by
    have := F64.rnd_mono _ _ qbd0
    rwa [F64.rnd_one] at this
  -- the quotient
  have dq0 : 0 < (d : ℚ) / (bd : ℚ) := div_pos (by linarith) (by linarith)
  have dq1 : (d : ℚ) / (bd : ℚ) ≤ 180 := by
    rw [div_le_iff₀ (by linarith)]; nlinarith
  have dq2 : 5 / 2 ^ 63 ≤ (d : ℚ) / (bd : ℚ) := by
    rw [div_le_div_iff₀ (by norm_num) (by linarith)]; nlinarith
  have n1 : F64.Near 1 ((d : ℚ) / (bd : ℚ)) ((d : ℚ) / F64.rnd (bd : ℚ)) :=
    F64.near_div 0 1 _ _ _ _ (F64.near_refl _ (by linarith)) nbd (by linarith) (by linarith)
  have tiny67 : (2 : ℚ) ^ (-1021 : Int) ≤ 1 / 2 ^ 67 := by
    have := F64.tiny_le (-67) (by norm_num)
    have e : (2 : ℚ) ^ (-67 : Int) = 1 / 2 ^ 67 := by norm_num
    rwa [e] at this
  have x1le : (d : ℚ) / F64.rnd (bd : ℚ) ≤ 180 := by
    rw [div_le_iff₀ (by linarith)]; nlinarith
  have big9 : (2 : ℚ) ^ (9 : Int) ≤ (2 : ℚ) ^ (1023 : Int) := F64.small_le_big 9 (by norm_num)
  have big80 : (2 : ℚ) ^ (80 : Int) ≤ (2 : ℚ) ^ (1023 : Int) :=
    F64.small_le_big 80 (by norm_num)
  have h9 : (2 : ℚ) ^ (9 : Int) = 512 := by norm_num
  have h80 : (2 : ℚ) ^ (80 : Int) = 2 ^ 80 := by norm_cast
  rw [h9] at big9
  rw [h80] at big80
  obtain ⟨f1, r1⟩ := F64.round_near ((d : ℚ) / F64.rnd (bd : ℚ)) n1.2.1 (by linarith)
    (F64.near_normal 1 (by norm_num) _ _ n1 (Or.inr (by linarith)))
  have n1' : F64.Near 2 ((d : ℚ) / (bd : ℚ)) (F64.rnd ((d : ℚ) / F64.rnd (bd : ℚ))) :=
    F64.near_trans 1 1 _ _ _ n1 r1
  -- times the base
  have X2norm : (base : ℚ) * ((d : ℚ) / (bd : ℚ)) = 0 ∨
      (2 : ℚ) ^ (-1021 : Int) ≤ (base : ℚ) * ((d : ℚ) / (bd : ℚ)) := by
    rcases eq_or_lt_of_le hb0 with h | h
    · left; rw [← h]; norm_num
    · right
      have a : (1 : ℚ) ≤ (base : ℚ) := by exact_mod_cast (show 1 ≤ base by omega)
      have : (5 : ℚ) / 2 ^ 63 ≤ (base : ℚ) * ((d : ℚ) / (bd : ℚ)) := by nlinarith
      have c : (1 : ℚ) / 2 ^ 67 ≤ 5 / 2 ^ 63 := by norm_num
      linarith
  have X2le : (base : ℚ) * ((d : ℚ) / (bd : ℚ)) ≤ 2 ^ 63 * 180 := by nlinarith
  have n2 : F64.Near 3 ((base : ℚ) * ((d : ℚ) / (bd : ℚ)))
      (F64.rnd (base : ℚ) * F64.rnd ((d : ℚ) / F64.rnd (bd : ℚ))) :=
    F64.near_mul 1 2 _ _ _ _ nb n1'
  obtain ⟨f2, r2⟩ := F64.round_near _ n2.2.1 (by
      have := F64.near_le_two 3 (by norm_num) _ _ n2
      have c : (2 : ℚ) * (2 ^ 63 * 180) ≤ 2 ^ 80 := by norm_num
      linarith)
    (F64.near_normal 3 (by norm_num) _ _ n2 X2norm)
  have n2' := F64.near_trans 3 1 _ _ _ n2 r2
  -- times the intensity
  have X3norm : (base : ℚ) * ((d : ℚ) / (bd : ℚ)) * i = 0 ∨
      (2 : ℚ) ^ (-1021 : Int) ≤ (base : ℚ) * ((d : ℚ) / (bd : ℚ)) * i := by
    rcases eq_or_lt_of_le hb0 with h | h
    · left; rw [← h]; norm_num
    · right
      have a : (1 : ℚ) ≤ (base : ℚ) := by exact_mod_cast (show 1 ≤ base by omega)
      have b : (5 : ℚ) / 2 ^ 63 ≤ (base : ℚ) * ((d : ℚ) / (bd : ℚ)) := by nlinarith
      have : (5 : ℚ) / 2 ^ 63 * (1 / 2) ≤ (base : ℚ) * ((d : ℚ) / (bd : ℚ)) * i :=
        mul_le_mul b hi0 (by norm_num) (by positivity)
      have c : (1 : ℚ) / 2 ^ 67 ≤ 5 / 2 ^ 63 * (1 / 2) := by norm_num
      linarith
  have X3le : (base : ℚ) * ((d : ℚ) / (bd : ℚ)) * i ≤ 2 ^ 72 := by
    have : (base : ℚ) * ((d : ℚ) / (bd : ℚ)) * i ≤ 2 ^ 63 * 180 * 2 :=
      mul_le_mul X2le hi1 (by linarith) (by norm_num)
    have c : (2 : ℚ) ^ 63 * 180 * 2 ≤ 2 ^ 72 := by norm_num
    linarith
  have n3 : F64.Near 4 ((base : ℚ) * ((d : ℚ) / (bd : ℚ)) * i)
      (F64.rnd (F64.rnd (base : ℚ) * F64.rnd ((d : ℚ) / F64.rnd (bd : ℚ))) * i) :=
    F64.near_mul 4 0 _ _ _ _ n2' (F64.near_refl i (by linarith))
  obtain ⟨f3, r3⟩ := F64.round_near _ n3.2.1 (by
      have := F64.near_le_two 4 (by norm_num) _ _ n3
      have c : (2 : ℚ) * 2 ^ 72 ≤ 2 ^ 80 := by norm_num
      linarith)
    (F64.near_normal 4 (by norm_num) _ _ n3 X3norm)
  have n3' := F64.near_trans 4 1 _ _ _ n3 r3
  refine ⟨_, ?_, n3', X3le⟩
  rw [ofb, ofbd, ofd]
  have hne : F64.rnd (bd : ℚ) ≠ 0 := by linarith
  simp only [F64.div, if_neg hne]
  rw [f1]
  simp only [F64.mul]
  rw [f2]
  simp only [F64.mul]
  rw [f3]

theorem eta_facts :
    (0 : ℚ) < (2 : ℚ) ^ (-1022 : Int) ∧ (2 : ℚ) ^ (-1022 : Int) ≤ 1 / 2 ^ 100 ∧
      F64.rnd ((2 : ℚ) ^ (-1022 : Int)) = (2 : ℚ) ^ (-1022 : Int) := by
  refine ⟨F64.two_zpow_pos _, ?_, ?_⟩
  · have : (2 : ℚ) ^ (-1022 : Int) ≤ (2 : ℚ) ^ (-100 : Int) :=
      zpow_le_zpow_right₀ (by norm_num) (by norm_num)
    have e : (2 : ℚ) ^ (-100 : Int) = 1 / 2 ^ 100 := by norm_num
    rwa [e] at this
  · have := F64.rnd_exact 1 (-1022) (by norm_num) (by norm_num)
    simpa using this

/-- For a package with a positive base duration and a nonnegative base burn, a
duration in [5, 180], an intensity in [0.5, 2.0] and a nonnegative finite weight, when
the exact value is below 2^49 the entry's `caloriesBurned` is defined and within 1 of
the floor of the exact value. -/
theorem caloriesBurned_close (pkg : WorkoutPackage) (d : Int) (i w : ℚ)
    (hb0 : 0 ≤ pkg.BaseCaloriesBurn) (hb1 : pkg.BaseCaloriesBurn < 2 ^ 63)
    (hbd0 : 0 < pkg.BaseDurationMinutes) (hbd1 : pkg.BaseDurationMinutes < 2 ^ 63)
    (hd0 : 5 ≤ d) (hd1 : d ≤ 180) (hi0 : 1 / 2 ≤ i) (hi1 : i ≤ 2)
    (hw0 : 0 ≤ w) (hw1 : w ≤ (2 : ℚ) ^ (1024 : Int))
    (hV : (pkg.BaseCaloriesBurn : ℚ) * ((d : ℚ) / (pkg.BaseDurationMinutes : ℚ)) * i * (w / 70)
      < 2 ^ 49) :
    ∃ c : Int, CreateWorkoutEntry.caloriesBurned pkg d (F64.fin i) (F64.fin w) = some c ∧
      |c - Spec.caloriesBurned pkg.BaseCaloriesBurn d pkg.BaseDurationMinutes i w| ≤ 1 := by
  obtain ⟨t, ht, nt, Xle⟩ := burn_upto_intensity pkg.BaseCaloriesBurn d pkg.BaseDurationMinutes i
    hb0 hb1 hbd0 hbd1 hd0 hd1 hi0 hi1
  have h70 : F64.lit 70 = F64.fin 70 := by
    have := F64.lit_int 70 (by norm_num); simpa using this
  have x40 : 0 ≤ w / 70 := by positivity
  have x41 : w / 70 ≤ (2 : ℚ) ^ (1023 : Int) := by
    have e : (2 : ℚ) ^ (1024 : Int) = 2 * (2 : ℚ) ^ (1023 : Int) := by
      rw [show (1024 : Int) = 1 + 1023 by norm_num, zpow_add₀ (by norm_num : (2 : ℚ) ≠ 0)]
      norm_num
    have p := F64.two_zpow_pos 1023
    rw [e] at hw1
    rw [div_le_iff₀ (by norm_num)]
    linarith
  have f4 : F64.round (w / 70) = F64.fin (F64.rnd (w / 70)) :=
    F64.round_fin _ (by rwa [abs_of_nonneg x40])
  have t40 := F64.rnd_nonneg _ x40
  have t0 : 0 ≤ t := nt.2.1
  have t2 := F64.near_le_two 5 (by norm_num) _ _ nt
  obtain ⟨e0, e1, e2⟩ := eta_facts
  have hcode : CreateWorkoutEntry.caloriesBurned pkg d (F64.fin i) (F64.fin w)
      = F64.toInt (F64.round (t * F64.rnd (w / 70))) := by
    unfold CreateWorkoutEntry.caloriesBurned
    rw [ht, h70]
    simp only [F64.div, if_neg (show (70 : ℚ) ≠ 0 by norm_num)]
    rw [f4]
    simp only [F64.mul]
  rw [hcode]
  unfold Spec.caloriesBurned
  by_cases hs : w / 70 = 0 ∨ (2 : ℚ) ^ (-1022 : Int) ≤ w / 70
  · -- the weight factor is zero or normal
    have n4 := F64.near_rnd _ x40 hs
    have n5 : F64.Near 6
        ((pkg.BaseCaloriesBurn : ℚ) * ((d : ℚ) / (pkg.BaseDurationMinutes : ℚ)) * i * (w / 70))
        (t * F64.rnd (w / 70)) := F64.near_mul 5 1 _ _ _ _ nt n4
    by_cases hn : t * F64.rnd (w / 70) = 0 ∨ (2 : ℚ) ^ (-1022 : Int) ≤ t * F64.rnd (w / 70)
    · exact final_normal _ _ n5 hV hn
    · push_neg at hn
      have v2 := F64.near_ge_half 6 (by norm_num) _ _ n5
      generalize (2 : ℚ) ^ (-1022 : Int) = η at e0 e1 hn
      exact final_small _ _ n5.2.1 (by linarith [hn.2]) n5.1 (by linarith [hn.2])
  · -- the weight factor underflows
    push_neg at hs
    have r4 := F64.rnd_mono _ _ (le_of_lt hs.2)
    rw [e2] at r4
    generalize (2 : ℚ) ^ (-1022 : Int) = η at e0 e1 hs r4
    have p1 : t * F64.rnd (w / 70) ≤ 2 ^ 73 * (1 / 2 ^ 100) :=
      mul_le_mul (by linarith) (by linarith) t40 (by norm_num)
    have p2 : (pkg.BaseCaloriesBurn : ℚ) * ((d : ℚ) / (pkg.BaseDurationMinutes : ℚ)) * i
        * (w / 70) ≤ 2 ^ 72 * (1 / 2 ^ 100) :=
      mul_le_mul Xle (by linarith [hs.2]) x40 (by norm_num)
    exact final_small _ _ (mul_nonneg t0 t40) (le_trans p1 (by norm_num))
      (mul_nonneg nt.1 x40) (lt_of_le_of_lt p2 (by norm_num))

/-! ## Claims -/

/-- C1, as stated, fails because every binary64 operation rounds: for a package with
base duration 10 and base burn 70, duration 10, intensity 1.0 and weight 47 the exact
value is 70 × (10/10) × 1 × (47/70) = 47, but `47 / 70.0` rounds below 47/70, the
product rounds to the `float64` just below 47, and the entry gets 46 calories.
At large magnitudes the gap grows with the spacing of the `float64` grid: with the
base burn 10^18 the entry gets 671428571428571392 against the floor
671428571428571428. -/
theorem C1_counterexample :
    CreateWorkoutEntry.caloriesBurned ⟨10, 70⟩ 10 (F64.fin 1) (F64.fin 47) = some 46 ∧
      Spec.caloriesBurned 70 10 10 1 47 = 47 ∧
      CreateWorkoutEntry.caloriesBurned ⟨10, 1000000000000000000⟩ 10 (F64.fin 1) (F64.fin 47)
        = some 671428571428571392 ∧
      Spec.caloriesBurned 1000000000000000000 10 10 1 47 = 671428571428571428 := by
  decide!

/-- C1 (amended): for a workout package with `baseDurationMinutes > 0` and
`baseCaloriesBurn ≥ 0` (both int64), a finite weight `≥ 0`, an intensity in
`[0.5, 2.0]` and a duration in `[5, 180]`, whenever the exact value
`baseCaloriesBurn × (durationMinutes / baseDurationMinutes) × intensityMultiplier ×
(weight / 70)` is below 2^49, the `caloriesBurned` of the entry is defined and differs
from the floor of that exact value by at most 1. -/
theorem C1_calories_burned (pkg : WorkoutPackage) (durationMinutes : Int)
    (intensityMultiplier weight : ℚ)
    (hb0 : 0 ≤ pkg.BaseCaloriesBurn) (hb1 : pkg.BaseCaloriesBurn < 2 ^ 63)
    (hbd0 : 0 < pkg.BaseDurationMinutes) (hbd1 : pkg.BaseDurationMinutes < 2 ^ 63)
    (hd0 : 5 ≤ durationMinutes) (hd1 : durationMinutes ≤ 180)
    (hi0 : 1 / 2 ≤ intensityMultiplier) (hi1 : intensityMultiplier ≤ 2)
    (hw0 : 0 ≤ weight) (hw1 : weight ≤ (2 : ℚ) ^ (1024 : Int))
    (hV : (pkg.BaseCaloriesBurn : ℚ)
        * ((durationMinutes : ℚ) / (pkg.BaseDurationMinutes : ℚ))
        * intensityMultiplier * (weight / 70) < 2 ^ 49) :
    ∃ c : Int,
      CreateWorkoutEntry.caloriesBurned pkg durationMinutes (F64.fin intensityMultiplier)
        (F64.fin weight) = some c ∧
      |c - Spec.caloriesBurned pkg.BaseCaloriesBurn durationMinutes pkg.BaseDurationMinutes
          intensityMultiplier weight| ≤ 1 :=
  caloriesBurned_close pkg durationMinutes intensityMultiplier weight hb0 hb1 hbd0 hbd1
    hd0 hd1 hi0 hi1 hw0 hw1 hV

/-- Witness of C1: the package of 30 minutes and 300 calories, 45 minutes, intensity
1.25, weight 90. -/
theorem C1_calories_burned_witness :
    ∃ c : Int,
      CreateWorkoutEntry.caloriesBurned ⟨30, 300⟩ 45 (F64.fin (5 / 4)) (F64.fin 90) = some c ∧
      |c - Spec.caloriesBurned 300 45 30 (5 / 4) 90| ≤ 1 :=
  C1_calories_burned ⟨30, 300⟩ 45 (5 / 4) 90 (by decide) (by decide) (by decide) (by decide)
    (by decide) (by decide) (by norm_num) (by norm_num) (by norm_num)
    (le_trans (by norm_num : (90 : ℚ) ≤ (2 : ℚ) ^ (7 : Int))
      (zpow_le_zpow_right₀ (by norm_num) (by norm_num)))
    (by norm_num)

/-- C2, as stated, fails where the binary64 product rounds up to an integer: for a
package whose base values are 3 and the portion multiplier 0.3333333333333333 (the
`float64` 6004799503160661 / 2^54, within [0.1, 3.0]) the product 3 × p is just below
1 and its floor is 0, but the rounded product is 1.0 and the entry gets 1 calorie.
A base value beyond 53 bits is already rounded by its conversion: base 2^53 + 1 at
the portion 1.0 gives 2^53. -/
theorem C2_counterexample :
    F64.lit (3333333333333333 / 10000000000000000)
        = F64.fin (6004799503160661 / 18014398509481984) ∧
      (1 / 10 : ℚ) ≤ 6004799503160661 / 18014398509481984 ∧
      (6004799503160661 / 18014398509481984 : ℚ) ≤ 3 ∧
      (CreateMealEntry.newEntry "usr1" "meal1"
          (F64.fin (6004799503160661 / 18014398509481984)) ⟨"LUNCH", 3, 3, 3, 3⟩).Calories
        = some 1 ∧
      Spec.scaled 3 (6004799503160661 / 18014398509481984) = 0 ∧
      CreateMealEntry.scaled 9007199254740993 (F64.fin 1) = some 9007199254740992 ∧
      Spec.scaled 9007199254740993 1 = 9007199254740993 := by
  decide!

/-- C2 (amended): for a meal package whose base values lie in `[0, 2^51]` and a portion
multiplier `p` in `[0.1, 3.0]`, each of calories, protein, carbs and fat of the entry
is defined, is computed from its own base field, and is `floor(base × p)` or
`floor(base × p) + 1` (the latter when the binary64 product rounds up to an integer). -/
theorem C2_meal_fields (userID packageID : String) (pkg : MealPackage) (p : ℚ)
    (hp0 : 1 / 10 ≤ p) (hp1 : p ≤ 3)
    (hc : 0 ≤ pkg.BaseCalories ∧ pkg.BaseCalories ≤ 2 ^ 51)
    (hpr : 0 ≤ pkg.BaseProtein ∧ pkg.BaseProtein ≤ 2 ^ 51)
    (hcb : 0 ≤ pkg.BaseCarbs ∧ pkg.BaseCarbs ≤ 2 ^ 51)
    (hf : 0 ≤ pkg.BaseFat ∧ pkg.BaseFat ≤ 2 ^ 51) :
    ∃ cal pro carb fat : Int,
      (CreateMealEntry.newEntry userID packageID (F64.fin p) pkg).Calories = some cal ∧
      (CreateMealEntry.newEntry userID packageID (F64.fin p) pkg).Protein = some pro ∧
      (CreateMealEntry.newEntry userID packageID (F64.fin p) pkg).Carbs = some carb ∧
      (CreateMealEntry.newEntry userID packageID (F64.fin p) pkg).Fat = some fat ∧
      (Spec.scaled pkg.BaseCalories p ≤ cal ∧ cal ≤ Spec.scaled pkg.BaseCalories p + 1) ∧
      (Spec.scaled pkg.BaseProtein p ≤ pro ∧ pro ≤ Spec.scaled pkg.BaseProtein p + 1) ∧
      (Spec.scaled pkg.BaseCarbs p ≤ carb ∧ carb ≤ Spec.scaled pkg.BaseCarbs p + 1) ∧
      (Spec.scaled pkg.BaseFat p ≤ fat ∧ fat ≤ Spec.scaled pkg.BaseFat p + 1) := by
  have hp : 0 ≤ p := by linarith
  obtain ⟨cal, e1, b1⟩ := scaled_near pkg.BaseCalories p hc.1 hc.2 hp hp1
  obtain ⟨pro, e2, b2⟩ := scaled_near pkg.BaseProtein p hpr.1 hpr.2 hp hp1
  obtain ⟨carb, e3, b3⟩ := scaled_near pkg.BaseCarbs p hcb.1 hcb.2 hp hp1
  obtain ⟨fat, e4, b4⟩ := scaled_near pkg.BaseFat p hf.1 hf.2 hp hp1
  exact ⟨cal, pro, carb, fat, e1, e2, e3, e4, b1, b2, b3, b4⟩

/-- Witness of C2: the package (500, 30, 60, 15) at the portion 1.5. -/
theorem C2_meal_fields_witness :
    ∃ cal pro carb fat : Int,
      (CreateMealEntry.newEntry "usr1" "meal1" (F64.fin (3 / 2))
        ⟨"LUNCH", 500, 30, 60, 15⟩).Calories = some cal ∧
      (CreateMealEntry.newEntry "usr1" "meal1" (F64.fin (3 / 2))
        ⟨"LUNCH", 500, 30, 60, 15⟩).Protein = some pro ∧
      (CreateMealEntry.newEntry "usr1" "meal1" (F64.fin (3 / 2))
        ⟨"LUNCH", 500, 30, 60, 15⟩).Carbs = some carb ∧
      (CreateMealEntry.newEntry "usr1" "meal1" (F64.fin (3 / 2))
        ⟨"LUNCH", 500, 30, 60, 15⟩).Fat = some fat ∧
      (Spec.scaled 500 (3 / 2) ≤ cal ∧ cal ≤ Spec.scaled 500 (3 / 2) + 1) ∧
      (Spec.scaled 30 (3 / 2) ≤ pro ∧ pro ≤ Spec.scaled 30 (3 / 2) + 1) ∧
      (Spec.scaled 60 (3 / 2) ≤ carb ∧ carb ≤ Spec.scaled 60 (3 / 2) + 1) ∧
      (Spec.scaled 15 (3 / 2) ≤ fat ∧ fat ≤ Spec.scaled 15 (3 / 2) + 1) :=
  C2_meal_fields "usr1" "meal1" ⟨"LUNCH", 500, 30, 60, 15⟩ (3 / 2) (by norm_num) (by norm_num)
    (by decide) (by decide) (by decide) (by decide)

/-- C3, as stated, fails in two ways.  Rounding: for weight 75, height 204, age 29
(born 1997-01-01, computed on 2026-06-01), MALE and LOW the exact `BMR × 1.2` is
2289, but the binary64 product is just below it and the function returns 2288.
Direction of truncation: for weight 1, height 1 and age 100 the exact product is
-553.3704, whose floor is -554, but `int()` truncates toward zero and returns -553.
Magnitude: for weight 3 × 10^15 (height 180, age 34) the result 48229200000000912 is
2 above the exact 48229200000000910. -/
theorem C3_counterexample :
    calculateBaseCalories (F64.fin 75) (F64.fin 204) ⟨1997, 1, 1⟩ GenderMale ActivityLow
        ⟨2026, 6, 1⟩ = some 2288 ∧
      calculateBaseCalories.age ⟨1997, 1, 1⟩ ⟨2026, 6, 1⟩ = 29 ∧
      ⌊Spec.scaledBmr 75 204 29 GenderMale ActivityLow⌋ = 2289 ∧
      calculateBaseCalories.atAge (F64.fin 1) (F64.fin 1) 100 GenderMale ActivityLow
        = some (-553) ∧
      ⌊Spec.scaledBmr 1 1 100 GenderMale ActivityLow⌋ = -554 ∧
      calculateBaseCalories.atAge (F64.fin 3000000000000000) (F64.fin 180) 34 GenderMale
        ActivityLow = some 48229200000000912 ∧
      ⌊Spec.scaledBmr 3000000000000000 180 34 GenderMale ActivityLow⌋
        = 48229200000000910 := by
  decide!

/-- C3 (amended): for weight and height of absolute value at most 10^6 and an age of
absolute value at most 10^6, `calculateBaseCalories` is defined and differs by at most
1 from the truncation toward zero of `BMR × m`, where BMR is
`88.362 + 13.397 w + 4.799 h - 5.677 age` for MALE and
`447.593 + 9.247 w + 3.098 h - 4.330 age` for every other gender, and `m` is 1.2 for
LOW, 1.55 for MODERATE, 1.9 for HIGH and 1.4 for any other activity level. -/
theorem C3_base_calories (weight height : ℚ) (birthDate now : Date)
    (gender activityLevel : String)
    (hw : |weight| ≤ 1000000) (hh : |height| ≤ 1000000)
    (ha : |calculateBaseCalories.age birthDate now| ≤ 1000000) :
    ∃ r : Int,
      calculateBaseCalories (F64.fin weight) (F64.fin height) birthDate gender
        activityLevel now = some r ∧
      |r - F64.truncQ (Spec.scaledBmr weight height
          (calculateBaseCalories.age birthDate now) gender activityLevel)| ≤ 1 := by
  unfold calculateBaseCalories
  exact atAge_close weight height _ gender activityLevel hw hh ha

/-- Witness of C3: weight 80, height 180, born 1992-01-01, computed on 2026-06-01,
MALE, MODERATE. -/
theorem C3_base_calories_witness :
    ∃ r : Int,
      calculateBaseCalories (F64.fin 80) (F64.fin 180) ⟨1992, 1, 1⟩ GenderMale
        ActivityModerate ⟨2026, 6, 1⟩ = some r ∧
      |r - F64.truncQ (Spec.scaledBmr 80 180
          (calculateBaseCalories.age ⟨1992, 1, 1⟩ ⟨2026, 6, 1⟩) GenderMale
          ActivityModerate)| ≤ 1 :=
  C3_base_calories 80 180 ⟨1992, 1, 1⟩ ⟨2026, 6, 1⟩ GenderMale ActivityModerate
    (by norm_num [abs_le]) (by norm_num [abs_le]) (by decide)

/-- C4: the age that `calculateBaseCalories` computes is not always the number of
whole years.  Born 2000-03-01, on 2025-03-01 the 25th birthday has arrived, yet the
day of the year is 60 against 61 in the leap year of birth and the code computes 24.
Born 2001-03-01, on 2024-02-29 the 23rd birthday has not arrived, yet both days of
the year are 60 and the code computes 23 instead of 22. -/
theorem C4_age_leap_year_slip :
    calculateBaseCalories.age ⟨2000, 3, 1⟩ ⟨2025, 3, 1⟩ = 24 ∧
      Spec.wholeYears ⟨2000, 3, 1⟩ ⟨2025, 3, 1⟩ = 25 ∧
      Date.YearDay ⟨2000, 3, 1⟩ = 61 ∧ Date.YearDay ⟨2025, 3, 1⟩ = 60 ∧
      calculateBaseCalories.age ⟨2001, 3, 1⟩ ⟨2024, 2, 29⟩ = 23 ∧
      Spec.wholeYears ⟨2001, 3, 1⟩ ⟨2024, 2, 29⟩ = 22 ∧
      Date.YearDay ⟨2001, 3, 1⟩ = 60 ∧ Date.YearDay ⟨2024, 2, 29⟩ = 60 ∧
      Date.valid ⟨2000, 3, 1⟩ = true ∧ Date.valid ⟨2025, 3, 1⟩ = true ∧
      Date.valid ⟨2001, 3, 1⟩ = true ∧ Date.valid ⟨2024, 2, 29⟩ = true := by
  decide

/-- C5, as stated, fails where the 64-bit subtraction wraps: for the base calories
-2^63 and the goal LOSE the stored target is 2^63 - 500, not -2^63 - 500. -/
theorem C5_counterexample :
    (CreateUser.goal (-9223372036854775808) GoalTypeLose).TargetCalories
        = 9223372036854775308 ∧
      (CreateUser.goal (-9223372036854775808) GoalTypeLose).TargetCalories
        ≠ -9223372036854775808 - 500 := by
  decide

/-- C5 (amended): for a goal type accepted at registration and base calories whose
adjustment stays in the int64 range, the stored target is `baseCalories - 500` for
LOSE and `baseCalories + 500` for GAIN. -/
theorem C5_targetCalories (baseCalories : Int) (goalType : String)
    (hg : goalType = GoalTypeLose ∨ goalType = GoalTypeGain)
    (hlo : -(2 : Int) ^ 63 ≤ baseCalories - 500) (hhi : baseCalories + 500 < (2 : Int) ^ 63) :
    (goalType = GoalTypeLose →
        (CreateUser.goal baseCalories goalType).TargetCalories = baseCalories - 500) ∧
      (goalType = GoalTypeGain →
        (CreateUser.goal baseCalories goalType).TargetCalories = baseCalories + 500) := by
  have hne : GoalTypeGain ≠ GoalTypeLose := by decide
  norm_num at hlo hhi
  constructor
  · intro h
    simp only [CreateUser.goal, CreateUser.targetCalories, if_pos h, wrap64]
    norm_num
    omega
  · intro h
    subst h
    simp only [CreateUser.goal, CreateUser.targetCalories, if_neg hne, wrap64]
    norm_num
    omega

/-- Witness of C5: base calories 2837 with the goal LOSE. -/
theorem C5_targetCalories_witness :
    ((GoalTypeLose = GoalTypeLose →
        (CreateUser.goal 2837 GoalTypeLose).TargetCalories = 2837 - 500) ∧
      (GoalTypeLose = GoalTypeGain →
        (CreateUser.goal 2837 GoalTypeLose).TargetCalories = 2837 + 500)) :=
  C5_targetCalories 2837 GoalTypeLose (Or.inl rfl) (by norm_num) (by norm_num)

/-- C6, as stated, fails once the target no longer fits the 53 bits of a `float64`:
a registration with weight 2.3e15, height 180, age 34, MALE, LOW and LOSE gets base
calories 36975720000000912 and target 36975720000000412, whose conversion to
`float64` rounds up, so that the stored protein target is 2310982500000026 while
`floor(T × 0.25 / 4)` is 2310982500000025. -/
theorem C6_counterexample :
    calculateBaseCalories.atAge (F64.fin 2300000000000000) (F64.fin 180) 34 GenderMale
        ActivityLow = some 36975720000000912 ∧
      (CreateUser.goal 36975720000000912 GoalTypeLose).TargetCalories = 36975720000000412 ∧
      (CreateUser.goal 36975720000000912 GoalTypeLose).TargetProtein
        = some 2310982500000026 ∧
      Spec.targetProtein 36975720000000412 = 2310982500000025 := by
  decide!

/-- C6 (amended): when the target calories `T` that `CreateUser` computed lie in
`[0, 2^53]`, the stored macro targets are `floor(T × 0.25 / 4)`, `floor(T × 0.5 / 4)`
and `floor(T × 0.25 / 9)`, each computed from `T` itself. -/
theorem C6_macro_targets (baseCalories : Int) (goalType : String)
    (h0 : 0 ≤ (CreateUser.goal baseCalories goalType).TargetCalories)
    (h1 : (CreateUser.goal baseCalories goalType).TargetCalories ≤ 2 ^ 53) :
    (CreateUser.goal baseCalories goalType).TargetProtein
        = some (Spec.targetProtein (CreateUser.goal baseCalories goalType).TargetCalories) ∧
      (CreateUser.goal baseCalories goalType).TargetCarbs
        = some (Spec.targetCarbs (CreateUser.goal baseCalories goalType).TargetCalories) ∧
      (CreateUser.goal baseCalories goalType).TargetFat
        = some (Spec.targetFat (CreateUser.goal baseCalories goalType).TargetCalories) := by
  simp only [CreateUser.goal] at h0 h1 ⊢
  rw [targetProtein_eq _ h0 h1, targetCarbs_eq _ h0 h1, targetFat_eq _ h0 h1,
    spec_targetProtein_eq, spec_targetCarbs_eq, spec_targetFat_eq]
  exact ⟨rfl, rfl, rfl⟩

/-- Witness of C6: base calories 2837 with the goal LOSE, target 2337. -/
theorem C6_macro_targets_witness :
    (CreateUser.goal 2837 GoalTypeLose).TargetProtein
        = some (Spec.targetProtein (CreateUser.goal 2837 GoalTypeLose).TargetCalories) ∧
      (CreateUser.goal 2837 GoalTypeLose).TargetCarbs
        = some (Spec.targetCarbs (CreateUser.goal 2837 GoalTypeLose).TargetCalories) ∧
      (CreateUser.goal 2837 GoalTypeLose).TargetFat
        = some (Spec.targetFat (CreateUser.goal 2837 GoalTypeLose).TargetCalories) :=
  C6_macro_targets 2837 GoalTypeLose (by decide) (by decide)

/-- C7, as stated, fails: for base calories 643 and the goal LOSE the target is 143
and the macros are 8, 17 and 3, which account for 127 calories, 16 short of 143.
Beyond 53 bits the conversion of the target to `float64` adds its own error: for base
calories 2^62 and the goal GAIN the macros fall 564 calories short of the target. -/
theorem C7_counterexample :
    (CreateUser.goal 643 GoalTypeLose).TargetCalories = 143 ∧
      (CreateUser.goal 643 GoalTypeLose).TargetProtein = some 8 ∧
      (CreateUser.goal 643 GoalTypeLose).TargetCarbs = some 17 ∧
      (CreateUser.goal 643 GoalTypeLose).TargetFat = some 3 ∧
      ¬ (|(8 : Int) * 4 + 17 * 4 + 3 * 9 - 143| ≤ 3) ∧
      (CreateUser.goal 4611686018427387904 GoalTypeGain).TargetCalories
        = 4611686018427388404 ∧
      (CreateUser.goal 4611686018427387904 GoalTypeGain).TargetProtein
        = some 288230376151711744 ∧
      (CreateUser.goal 4611686018427387904 GoalTypeGain).TargetCarbs
        = some 576460752303423488 ∧
      (CreateUser.goal 4611686018427387904 GoalTypeGain).TargetFat
        = some 128102389400760768 ∧
      (288230376151711744 : Int) * 4 + 576460752303423488 * 4 + 128102389400760768 * 9
        - 4611686018427388404 = -564 := by
  decide!

/-- C7 (amended): when the target calories `T` that `CreateUser` computed lie in
`[0, 2^53]`, the three macro targets are defined and reproduce `T` within 16
calories: `|targetProtein*4 + targetCarbs*4 + targetFat*9 - T| ≤ 16`. -/
theorem C7_macro_round_trip (baseCalories : Int) (goalType : String)
    (h0 : 0 ≤ (CreateUser.goal baseCalories goalType).TargetCalories)
    (h1 : (CreateUser.goal baseCalories goalType).TargetCalories ≤ 2 ^ 53) :
    ∃ p c f : Int,
      (CreateUser.goal baseCalories goalType).TargetProtein = some p ∧
      (CreateUser.goal baseCalories goalType).TargetCarbs = some c ∧
      (CreateUser.goal baseCalories goalType).TargetFat = some f ∧
      |p * 4 + c * 4 + f * 9 - (CreateUser.goal baseCalories goalType).TargetCalories| ≤ 16 := by
  simp only [CreateUser.goal] at h0 h1 ⊢
  refine ⟨_, _, _, targetProtein_eq _ h0 h1, targetCarbs_eq _ h0 h1, targetFat_eq _ h0 h1, ?_⟩
  rw [abs_le]
  omega

/-- Witness of C7: base calories 643 with the goal LOSE, target 143. -/
theorem C7_macro_round_trip_witness :
    ∃ p c f : Int,
      (CreateUser.goal 643 GoalTypeLose).TargetProtein = some p ∧
      (CreateUser.goal 643 GoalTypeLose).TargetCarbs = some c ∧
      (CreateUser.goal 643 GoalTypeLose).TargetFat = some f ∧
      |p * 4 + c * 4 + f * 9 - (CreateUser.goal 643 GoalTypeLose).TargetCalories| ≤ 16 :=
  C7_macro_round_trip 643 GoalTypeLose (by decide) (by decide)

/-- C8, as stated, fails where the scaled BMR leaves the int64 range: at weight 80
(height 180, age 34, MALE, MODERATE) the result is 2837, but at the larger weight
10^18 the product is about 2.07e19 and the conversion to `int` has no defined result
to compare. -/
theorem C8_counterexample :
    calculateBaseCalories.atAge (F64.fin 80) (F64.fin 180) 34 GenderMale ActivityModerate
        = some 2837 ∧
      calculateBaseCalories.atAge (F64.fin 1000000000000000000) (F64.fin 180) 34 GenderMale
        ActivityModerate = none := by
  decide!

/-- C8 (amended): with the other inputs fixed, results of `calculateBaseCalories`
that are defined (the scaled BMR finite and within the int64 range) are
non-decreasing in weight, non-decreasing in height and non-increasing in age. -/
theorem C8_monotone (x1 x2 y : ℚ) (n1 n2 : Int) (gender activityLevel : String)
    (r1 r2 : Int) :
    (x1 ≤ x2 →
      calculateBaseCalories.atAge (F64.fin x1) (F64.fin y) n1 gender activityLevel = some r1 →
      calculateBaseCalories.atAge (F64.fin x2) (F64.fin y) n1 gender activityLevel = some r2 →
      r1 ≤ r2) ∧
    (x1 ≤ x2 →
      calculateBaseCalories.atAge (F64.fin y) (F64.fin x1) n1 gender activityLevel = some r1 →
      calculateBaseCalories.atAge (F64.fin y) (F64.fin x2) n1 gender activityLevel = some r2 →
      r1 ≤ r2) ∧
    (n1 ≤ n2 →
      calculateBaseCalories.atAge (F64.fin x1) (F64.fin y) n1 gender activityLevel = some r1 →
      calculateBaseCalories.atAge (F64.fin x1) (F64.fin y) n2 gender activityLevel = some r2 →
      r2 ≤ r1) := by
  obtain ⟨_, hq1, hq2, hq3⟩ := bmrConsts_nonneg gender
  have hm := multiplierConst_nonneg activityLevel
  refine ⟨?_, ?_, ?_⟩
  · intro hx e1 e2
    rw [atAge_some _ _ _ _ _ _ e1, atAge_some _ _ _ _ _ _ e2]
    exact truncQ_scaled_mono _ _ _ hm (bmrVal_mono_weight _ _ _ _ _ _ _ _ hq1 hx)
  · intro hx e1 e2
    rw [atAge_some _ _ _ _ _ _ e1, atAge_some _ _ _ _ _ _ e2]
    exact truncQ_scaled_mono _ _ _ hm (bmrVal_mono_height _ _ _ _ _ _ _ _ hq2 hx)
  · intro hn e1 e2
    rw [atAge_some _ _ _ _ _ _ e1, atAge_some _ _ _ _ _ _ e2]
    exact truncQ_scaled_mono _ _ _ hm (bmrVal_anti_age _ _ _ _ _ _ _ _ hq3 hn)

/-- Witness of C8: weights 75 and 76 at height 204, age 29, MALE, LOW. -/
theorem C8_monotone_witness :
    (75 : ℚ) ≤ 76 ∧
      calculateBaseCalories.atAge (F64.fin 75) (F64.fin 204) 29 GenderMale ActivityLow
        = some 2288 ∧
      calculateBaseCalories.atAge (F64.fin 76) (F64.fin 204) 29 GenderMale ActivityLow
        = some 2305 ∧
      (2288 : Int) ≤ 2305 :=
  ⟨by norm_num, by decide!, by decide!,
    (C8_monotone 75 76 204 29 29 GenderMale ActivityLow 2288 2305).1 (by norm_num)
      (by decide!) (by decide!)⟩

/-- C9, as stated, fails where the doubled field leaves the int64 range: for base
calories 2^62 the portion 1.5 gives 3 × 2^61 calories, but at the doubled portion 3.0
the product 3 × 2^62 exceeds 2^63 and the conversion to `int` has no defined result
(no int64 equals twice the first value). -/
theorem C9_counterexample :
    CreateMealEntry.scaled 4611686018427387904 (F64.fin (3 / 2))
        = some 6917529027641081856 ∧
      CreateMealEntry.scaled 4611686018427387904 (F64.fin (2 * (3 / 2))) = none := by
  decide!

/-- C9 (amended): for a meal package whose base values lie in `[0, 2^61]` and a portion
multiplier `p` with `0.1 ≤ p` and `2p ≤ 3.0`, each of calories, protein, carbs and fat
is defined at `p` and at `2p`, and the value at `2p` is twice the value at `p` or
twice that value plus one. -/
theorem C9_doubling (userID packageID : String) (pkg : MealPackage) (p : ℚ)
    (hp0 : 1 / 10 ≤ p) (hp1 : 2 * p ≤ 3)
    (hc : 0 ≤ pkg.BaseCalories ∧ pkg.BaseCalories ≤ 2 ^ 61)
    (hpr : 0 ≤ pkg.BaseProtein ∧ pkg.BaseProtein ≤ 2 ^ 61)
    (hcb : 0 ≤ pkg.BaseCarbs ∧ pkg.BaseCarbs ≤ 2 ^ 61)
    (hf : 0 ≤ pkg.BaseFat ∧ pkg.BaseFat ≤ 2 ^ 61) :
    (∃ c1 c2 : Int,
      (CreateMealEntry.newEntry userID packageID (F64.fin p) pkg).Calories = some c1 ∧
      (CreateMealEntry.newEntry userID packageID (F64.fin (2 * p)) pkg).Calories = some c2 ∧
      (c2 = 2 * c1 ∨ c2 = 2 * c1 + 1)) ∧
    (∃ c1 c2 : Int,
      (CreateMealEntry.newEntry userID packageID (F64.fin p) pkg).Protein = some c1 ∧
      (CreateMealEntry.newEntry userID packageID (F64.fin (2 * p)) pkg).Protein = some c2 ∧
      (c2 = 2 * c1 ∨ c2 = 2 * c1 + 1)) ∧
    (∃ c1 c2 : Int,
      (CreateMealEntry.newEntry userID packageID (F64.fin p) pkg).Carbs = some c1 ∧
      (CreateMealEntry.newEntry userID packageID (F64.fin (2 * p)) pkg).Carbs = some c2 ∧
      (c2 = 2 * c1 ∨ c2 = 2 * c1 + 1)) ∧
    (∃ c1 c2 : Int,
      (CreateMealEntry.newEntry userID packageID (F64.fin p) pkg).Fat = some c1 ∧
      (CreateMealEntry.newEntry userID packageID (F64.fin (2 * p)) pkg).Fat = some c2 ∧
      (c2 = 2 * c1 ∨ c2 = 2 * c1 + 1)) :=
  ⟨scaled_double pkg.BaseCalories p hc.1 hc.2 hp0 hp1,
    scaled_double pkg.BaseProtein p hpr.1 hpr.2 hp0 hp1,
    scaled_double pkg.BaseCarbs p hcb.1 hcb.2 hp0 hp1,
    scaled_double pkg.BaseFat p hf.1 hf.2 hp0 hp1⟩

/-- Witness of C9: base value 5 at the portions 1.375 and 2.75, giving 6 and 13. -/
theorem C9_doubling_witness :
    (CreateMealEntry.newEntry "usr1" "meal1" (F64.fin (2 * (11 / 8)))
        ⟨"LUNCH", 5, 5, 5, 5⟩).Calories = some 13 ∧
      (CreateMealEntry.newEntry "usr1" "meal1" (F64.fin (11 / 8))
        ⟨"LUNCH", 5, 5, 5, 5⟩).Calories = some 6 ∧
      ((∃ c1 c2 : Int,
        (CreateMealEntry.newEntry "usr1" "meal1" (F64.fin (11 / 8))
          ⟨"LUNCH", 5, 5, 5, 5⟩).Calories = some c1 ∧
        (CreateMealEntry.newEntry "usr1" "meal1" (F64.fin (2 * (11 / 8)))
          ⟨"LUNCH", 5, 5, 5, 5⟩).Calories = some c2 ∧
        (c2 = 2 * c1 ∨ c2 = 2 * c1 + 1))) :=
  ⟨by decide!, by decide!,
    (C9_doubling "usr1" "meal1" ⟨"LUNCH", 5, 5, 5, 5⟩ (11 / 8) (by norm_num) (by norm_num)
      (by decide) (by decide) (by decide) (by decide)).1⟩

/-- C10, as stated, fails for a base burn that `float64` cannot hold: with
`baseCaloriesBurn = 2^53 + 1`, the duration equal to the base duration 30,
intensity 1.0 and weight 70.0 the entry gets 2^53 calories, one less than the base. -/
theorem C10_counterexample :
    CreateWorkoutEntry.caloriesBurned ⟨30, 9007199254740993⟩ 30 (F64.fin 1) (F64.fin 70)
      = some 9007199254740992 := by
  decide!

/-- C10 (amended): for a package whose base duration is a nonzero int64 and whose base
calorie burn is at most 2^53 in absolute value, an entry with the base duration,
intensity 1.0 and weight 70.0 has `caloriesBurned` equal to the base calorie burn. -/
theorem C10_identity_entry (pkg : WorkoutPackage)
    (hbd : pkg.BaseDurationMinutes ≠ 0) (hbd64 : |pkg.BaseDurationMinutes| ≤ 2 ^ 63)
    (hb : |pkg.BaseCaloriesBurn| ≤ 2 ^ 53) :
    CreateWorkoutEntry.caloriesBurned pkg pkg.BaseDurationMinutes (F64.fin 1) (F64.fin 70)
      = some pkg.BaseCaloriesBurn := by
  unfold CreateWorkoutEntry.caloriesBurned
  have h70 : F64.lit 70 = F64.fin 70 := by
    have := F64.lit_int 70 (by norm_num); simpa using this
  rw [F64.ofInt_int64 _ hbd64, F64.div_self_fin _ (F64.rnd_int_ne_zero _ hbd),
    F64.ofInt_fin _ hb, F64.mul_one_fin _ hb, F64.mul_one_fin _ hb, h70,
    F64.div_self_fin 70 (by norm_num), F64.mul_one_fin _ hb]
  have hr : F64.truncQ (pkg.BaseCaloriesBurn : ℚ) = pkg.BaseCaloriesBurn := F64.truncQ_int _
  have h2 := abs_le.mp hb
  have := F64.toInt_fin (pkg.BaseCaloriesBurn : ℚ) (by rw [hr]; norm_num at h2 ⊢; omega)
    (by rw [hr]; norm_num at h2 ⊢; omega)
  rw [this, hr]

/-- Witness of C10: the package of 30 minutes and 300 calories. -/
theorem C10_identity_entry_witness :
    CreateWorkoutEntry.caloriesBurned ⟨30, 300⟩ 30 (F64.fin 1) (F64.fin 70) = some 300 :=
  C10_identity_entry ⟨30, 300⟩ (by decide) (by decide) (by decide)

/-! ## Handlers: auxiliary facts -/

theorem ofInt_zero : F64.ofInt 0 = F64.fin 0 := by
  have := F64.ofInt_fin 0 (by norm_num)
  simpa using this

theorem div_zero_not_fin (X : F64) (y : ℚ) : F64.div X (F64.fin 0) ≠ F64.fin y := by
  cases X with
  | fin a =>
    simp only [F64.div, if_true]
    split_ifs <;> simp
  | inf s => simp [F64.div]
  | nan => simp [F64.div]

/-- Dividing by the zero of `float64(0)` gives an infinity or a NaN. -/
theorem div_zero_cases (X : F64) :
    F64.div X (F64.fin 0) = F64.nan ∨ ∃ s, F64.div X (F64.fin 0) = F64.inf s := by
  cases X with
  | fin a =>
    simp only [F64.div, if_true]
    split_ifs
    · exact Or.inl rfl
    · exact Or.inr ⟨_, rfl⟩
  | inf s => exact Or.inr ⟨_, rfl⟩
  | nan => exact Or.inl rfl

/-- With a base duration of 0 the `caloriesBurned` has no defined value. -/
theorem caloriesBurned_zero_duration (pkg : WorkoutPackage) (d : Int) (i w : F64)
    (h : pkg.BaseDurationMinutes = 0) :
    CreateWorkoutEntry.caloriesBurned pkg d i w = none := by
  by_contra hne
  obtain ⟨r, hr⟩ := Option.ne_none_iff_exists'.mp hne
  unfold CreateWorkoutEntry.caloriesBurned at hr
  obtain ⟨q, hq, _⟩ := F64.toInt_eq_some _ _ hr
  obtain ⟨a, b, ha, _, _⟩ := F64.mul_eq_fin _ _ _ hq
  obtain ⟨a2, b2, ha2, _, _⟩ := F64.mul_eq_fin _ _ _ ha
  obtain ⟨a3, b3, _, hb3, _⟩ := F64.mul_eq_fin _ _ _ ha2
  rw [h, ofInt_zero] at hb3
  exact div_zero_not_fin _ _ hb3

theorem fieldError_some (field tag : String) : fieldError field (some tag) = [(field, tag)] :=
  rfl

theorem fieldError_none (field : String) : fieldError field none = [] := rfl

theorem lit_tenth : F64.lit (1 / 10) = F64.fin (3602879701896397 / 36028797018963968) := by
  decide!

theorem lit_three : F64.lit 3 = F64.fin 3 := by decide!

theorem lit_one_half : F64.lit (1 / 2) = F64.fin (1 / 2) := by decide!

theorem lit_two : F64.lit 2 = F64.fin 2 := by decide!

/-- The tags `required,min=0.1,max=3` pass a `float64` exactly between 0.1 and 3. -/
theorem portionTags_none_iff (q : ℚ) (hq : F64.rnd q = q) :
    mealEntryRequest.portionTags (F64.fin q) = none ↔ (1 / 10 ≤ q ∧ q ≤ 3) := by
  have hc : (3602879701896397 / 36028797018963968 : ℚ) = F64.rnd (1 / 10) :=
    F64.round_eq_fin _ _ lit_tenth
  have hc2 : (1 / 10 : ℚ) ≤ 3602879701896397 / 36028797018963968 := by norm_num
  unfold mealEntryRequest.portionTags floatTags
  rw [lit_tenth, lit_three]
  simp only [F64.isZero, F64.le]
  constructor
  · intro h
    split_ifs at h with h1 h2 h3
    simp only [decide_eq_true_eq, Bool.not_eq_true', decide_eq_false_iff_not, not_le] at h1 h2 h3
    exact ⟨by linarith, by linarith⟩
  · rintro ⟨h1, h2⟩
    have h3 := F64.rnd_mono _ _ h1
    rw [hq, ← hc] at h3
    have h0 : q ≠ 0 := by intro h; rw [h] at h1; norm_num at h1
    simp [h0, h3, h2]

/-- The tags `required,min=0.5,max=2` pass exactly the values between 0.5 and 2. -/
theorem intensityTags_none_iff (q : ℚ) :
    workoutEntryRequest.intensityTags (F64.fin q) = none ↔ (1 / 2 ≤ q ∧ q ≤ 2) := by
  unfold workoutEntryRequest.intensityTags floatTags
  rw [lit_one_half, lit_two]
  simp only [F64.isZero, F64.le]
  constructor
  · intro h
    split_ifs at h with h1 h2 h3
    simp only [decide_eq_true_eq, Bool.not_eq_true', decide_eq_false_iff_not, not_le] at h1 h2 h3
    exact ⟨by linarith, by linarith⟩
  · rintro ⟨h1, h2⟩
    have h0 : q ≠ 0 := by intro h; rw [h] at h1; norm_num at h1
    simp [h0, h2]
    linarith

/-- The tags `required,min=5,max=180` pass exactly the integers from 5 to 180. -/
theorem durationTags_none_iff (d : Int) :
    workoutEntryRequest.durationTags d = none ↔ (5 ≤ d ∧ d ≤ 180) := by
  unfold workoutEntryRequest.durationTags intTags
  constructor
  · intro h
    split_ifs at h with h1 h2 h3
    omega
  · rintro ⟨h1, h2⟩
    have h0 : d ≠ 0 := by omega
    have h3 : ¬ d < 5 := by omega
    have h4 : ¬ 180 < d := by omega
    simp [h0, h3, h4]

theorem meal_fieldErrors_ne_nil (req : mealEntryRequest)
    (h : mealEntryRequest.portionTags req.PortionMultiplier ≠ none) :
    req.fieldErrors ≠ [] := by
  obtain ⟨tag, ht⟩ := Option.ne_none_iff_exists'.mp h
  unfold mealEntryRequest.fieldErrors
  rw [ht, fieldError_some]
  simp

theorem workout_fieldErrors_ne_nil (req : workoutEntryRequest)
    (h : workoutEntryRequest.intensityTags req.IntensityMultiplier ≠ none ∨
      workoutEntryRequest.durationTags req.DurationMinutes ≠ none) :
    req.fieldErrors ≠ [] := by
  unfold workoutEntryRequest.fieldErrors
  rcases h with h | h
  · obtain ⟨tag, ht⟩ := Option.ne_none_iff_exists'.mp h
    rw [ht, fieldError_some]
    simp
  · obtain ⟨tag, ht⟩ := Option.ne_none_iff_exists'.mp h
    rw [ht, fieldError_some]
    simp

/-- A request that fails its binding is answered 400 without any store call. -/
theorem CreateMealEntry_binding (store : Store) (id : String) (t1 t2 : Instant)
    (req : mealEntryRequest) (h : req.fieldErrors ≠ []) :
    CreateMealEntry store id t1 t2 req
      = (Reply.error 400 (ErrorBody.binding req.fieldErrors), []) := by
  unfold CreateMealEntry
  rw [if_pos h]

theorem CreateWorkoutEntry_binding (store : Store) (id : String) (t1 t2 : Instant)
    (req : workoutEntryRequest) (h : req.fieldErrors ≠ []) :
    CreateWorkoutEntry store id t1 t2 req
      = (Reply.error 400 (ErrorBody.binding req.fieldErrors), []) := by
  unfold CreateWorkoutEntry
  rw [if_pos h]

/-- A scaled meal field against the nearest integer: never above it, at most one
below. -/
theorem scaled_round (base : Int) (p : ℚ) (h0 : 0 ≤ base) (h1 : base ≤ 2 ^ 51)
    (hp0 : 0 ≤ p) (hp1 : p ≤ 3) :
    ∃ c : Int, CreateMealEntry.scaled base (F64.fin p) = some c ∧
      round ((base : ℚ) * p) - 1 ≤ c ∧ c ≤ round ((base : ℚ) * p) := by
  obtain ⟨c, hc, lo, _⟩ := scaled_near base p h0 h1 hp0 hp1
  have hb : |base| ≤ 2 ^ 53 := by rw [abs_of_nonneg h0]; omega
  have hq0 : (0 : ℚ) ≤ (base : ℚ) := by exact_mod_cast h0
  have hq1 : (base : ℚ) ≤ 2251799813685248 := by exact_mod_cast h1
  have hx0 : 0 ≤ (base : ℚ) * p := mul_nonneg hq0 hp0
  have hx1 : (base : ℚ) * p ≤ 6755399441055744 := by nlinarith
  have herr := F64.rnd_abs_err ((base : ℚ) * p) 52 (by norm_num) (by
    rw [abs_of_nonneg hx0]; norm_num; linarith)
  have hup : F64.rnd ((base : ℚ) * p) ≤ (base : ℚ) * p + 1 / 2 := by
    have := (abs_le.mp herr).2
    norm_num at this
    linarith
  have hr0 := F64.rnd_nonneg _ hx0
  have hfin : F64.round ((base : ℚ) * p) = F64.fin (F64.rnd ((base : ℚ) * p)) := by
    apply F64.round_fin
    rw [abs_of_nonneg hx0]
    have : (2 : ℚ) ^ (53 : Int) ≤ (2 : ℚ) ^ (1023 : Int) :=
      zpow_le_zpow_right₀ (by norm_num) (by norm_num)
    have h53 : (2 : ℚ) ^ (53 : Int) = 9007199254740992 := by norm_num
    linarith
  have hc2 : CreateMealEntry.scaled base (F64.fin p) = some ⌊F64.rnd ((base : ℚ) * p)⌋ := by
    unfold CreateMealEntry.scaled
    rw [F64.ofInt_fin base hb]
    simp only [F64.mul]
    rw [hfin]
    exact toInt_floor _ hr0 (by norm_num; linarith)
  have hceq : c = ⌊F64.rnd ((base : ℚ) * p)⌋ := by
    rw [hc2] at hc
    exact (Option.some.inj hc).symm
  refine ⟨c, hc, ?_, ?_⟩
  · have : round ((base : ℚ) * p) ≤ ⌊(base : ℚ) * p⌋ + 1 := by
      rw [round_eq]
      have : ⌊(base : ℚ) * p + 1 / 2⌋ ≤ ⌊(base : ℚ) * p + 1⌋ :=
        Int.floor_mono (by linarith)
      rwa [Int.floor_add_one] at this
    unfold Spec.scaled at lo
    omega
  · rw [hceq, round_eq]
    exact Int.floor_mono hup

/-! ## Claims C11 to C20 -/

/-- C11, as stated, fails: the handler has no check of the base duration.  With the
package `workout0` (base duration 0, base burn 300) and the user `usr1` in the store,
a valid request of 30 minutes is answered 201: the quotient `30 / 0` is `+Inf`, the
`caloriesBurned` has no defined value, and the entry is handed to the store. -/
theorem C11_counterexample :
    F64.div (F64.ofInt 30) (F64.ofInt 0) = F64.inf false ∧
      CreateWorkoutEntry storeWithZeroDuration "e1" 1 2
          ⟨"usr1", "workout0", F64.fin 1, 30, "2023-03-18"⟩
        = (Reply.json 201 ⟨"e1", "usr1", "workout0", F64.fin 1, 30, none, ⟨2023, 3, 18⟩, 1, 2⟩,
            [StoreCall.GetWorkoutPackage "workout0", StoreCall.GetUser "usr1",
              StoreCall.CreateWorkoutEntry
                ⟨"e1", "usr1", "workout0", F64.fin 1, 30, none, ⟨2023, 3, 18⟩, 1, 2⟩]) := by
  decide!

/-- C11 (amended): `CreateWorkoutEntry` does not check the base duration.  When a
request passes the binding and its date parses, the package resolves with
`baseDurationMinutes = 0` and the user resolves, the quotient of the duration by the
base duration is an infinity or a NaN, the `caloriesBurned` of the entry has no
defined value, the entry is handed to the store, and the reply is 201 with what the
store returns when the store accepts it. -/
theorem C11_zero_duration_stored (store : Store) (id : String) (timestamp createdAt : Instant)
    (req : workoutEntryRequest) (date : Date) (pkg : WorkoutPackage) (user : User)
    (hb : req.fieldErrors = []) (hd : parseDate req.Date = some date)
    (hp : store.GetWorkoutPackage req.PackageID = Except.ok pkg)
    (hz : pkg.BaseDurationMinutes = 0)
    (hu : store.GetUser req.UserID = Except.ok user) :
    (F64.div (F64.ofInt req.DurationMinutes) (F64.ofInt pkg.BaseDurationMinutes) = F64.nan ∨
      ∃ s, F64.div (F64.ofInt req.DurationMinutes) (F64.ofInt pkg.BaseDurationMinutes)
        = F64.inf s) ∧
    ∃ entry : WorkoutEntry,
      entry.CaloriesBurned = none ∧
      (CreateWorkoutEntry store id timestamp createdAt req).2
        = [StoreCall.GetWorkoutPackage req.PackageID, StoreCall.GetUser req.UserID,
            StoreCall.CreateWorkoutEntry entry] ∧
      ∀ created, store.CreateWorkoutEntry entry = Except.ok created →
        (CreateWorkoutEntry store id timestamp createdAt req).1 = Reply.json 201 created := by
  constructor
  · rw [hz, ofInt_zero]
    exact div_zero_cases _
  · refine ⟨{ ID := id
              UserID := req.UserID
              PackageID := req.PackageID
              IntensityMultiplier := req.IntensityMultiplier
              DurationMinutes := req.DurationMinutes
              CaloriesBurned :=
                CreateWorkoutEntry.caloriesBurned pkg req.DurationMinutes
                  req.IntensityMultiplier user.Weight
              Date := date
              Timestamp := timestamp
              CreatedAt := createdAt }, ?_, ?_, ?_⟩
    · exact caloriesBurned_zero_duration pkg _ _ _ hz
    · unfold CreateWorkoutEntry
      rw [if_neg (by rw [hb]; simp)]
      simp only [hd, hp, hu]
      split <;> rfl
    · intro created hc
      unfold CreateWorkoutEntry
      rw [if_neg (by rw [hb]; simp)]
      simp only [hd, hp, hu, hc]

/-- Witness of C11: the store with the package `workout0` of base duration 0. -/
theorem C11_zero_duration_stored_witness :
    (F64.div (F64.ofInt 30) (F64.ofInt 0) = F64.nan ∨
      ∃ s, F64.div (F64.ofInt 30) (F64.ofInt 0) = F64.inf s) ∧
    ∃ entry : WorkoutEntry,
      entry.CaloriesBurned = none ∧
      (CreateWorkoutEntry storeWithZeroDuration "e1" 1 2
          ⟨"usr1", "workout0", F64.fin 1, 30, "2023-03-18"⟩).2
        = [StoreCall.GetWorkoutPackage "workout0", StoreCall.GetUser "usr1",
            StoreCall.CreateWorkoutEntry entry] ∧
      ∀ created, storeWithZeroDuration.CreateWorkoutEntry entry = Except.ok created →
        (CreateWorkoutEntry storeWithZeroDuration "e1" 1 2
          ⟨"usr1", "workout0", F64.fin 1, 30, "2023-03-18"⟩).1 = Reply.json 201 created :=
  C11_zero_duration_stored storeWithZeroDuration "e1" 1 2
    ⟨"usr1", "workout0", F64.fin 1, 30, "2023-03-18"⟩ ⟨2023, 3, 18⟩ ⟨0, 300⟩ exampleUser
    (by decide!) (by decide) rfl rfl rfl

theorem fieldError_eq_nil (field : String) (failed : Option String) :
    fieldError field failed = [] ↔ failed = none := by
  cases failed <;> simp [fieldError]

theorem requiredTag_none (s : String) : requiredTag s = none ↔ s ≠ "" := by
  unfold requiredTag
  split_ifs with h <;> simp [h]

/-- The binding of a meal-entry request passes exactly when every field passes. -/
theorem meal_fieldErrors_nil (req : mealEntryRequest) :
    req.fieldErrors = [] ↔
      (req.UserID ≠ "" ∧ req.PackageID ≠ "" ∧
        mealEntryRequest.portionTags req.PortionMultiplier = none ∧ req.Date ≠ "") := by
  unfold mealEntryRequest.fieldErrors
  simp only [List.append_eq_nil, fieldError_eq_nil, requiredTag_none]
  tauto

/-- The binding of a workout-entry request passes exactly when every field passes. -/
theorem workout_fieldErrors_nil (req : workoutEntryRequest) :
    req.fieldErrors = [] ↔
      (req.UserID ≠ "" ∧ req.PackageID ≠ "" ∧
        workoutEntryRequest.intensityTags req.IntensityMultiplier = none ∧
        workoutEntryRequest.durationTags req.DurationMinutes = none ∧ req.Date ≠ "") := by
  unfold workoutEntryRequest.fieldErrors
  simp only [List.append_eq_nil, fieldError_eq_nil, requiredTag_none]
  tauto

/-- C12: the tags of `PortionMultiplier` pass a `float64` value `q` exactly when
`0.1 ≤ q ≤ 3`: with the other fields present, the binding of the request passes if and
only if the portion is in that range.  The values 0.1 and 3.0 pass, 0.09 fails on `min`
and 3.01 on `max`, an infinity or a NaN fails, and a request whose portion is out of
range is answered 400 with the binding error, no call being made on the store. -/
theorem C12_portion_check (q : ℚ) (hq : F64.rnd q = q) :
    (mealEntryRequest.portionTags (F64.fin q) = none ↔ (1 / 10 ≤ q ∧ q ≤ 3)) ∧
    (∀ req : mealEntryRequest, req.PortionMultiplier = F64.fin q →
      req.UserID ≠ "" → req.PackageID ≠ "" → req.Date ≠ "" →
      (req.fieldErrors = [] ↔ (1 / 10 ≤ q ∧ q ≤ 3))) ∧
    mealEntryRequest.portionTags (F64.lit (1 / 10)) = none ∧
    mealEntryRequest.portionTags (F64.lit 3) = none ∧
    mealEntryRequest.portionTags (F64.lit (9 / 100)) = some "min" ∧
    mealEntryRequest.portionTags (F64.lit (301 / 100)) = some "max" ∧
    mealEntryRequest.portionTags F64.nan ≠ none ∧
    (∀ s, mealEntryRequest.portionTags (F64.inf s) ≠ none) ∧
    (∀ (store : Store) (id : String) (timestamp createdAt : Instant) (req : mealEntryRequest),
      req.PortionMultiplier = F64.fin q → ¬ (1 / 10 ≤ q ∧ q ≤ 3) →
      CreateMealEntry store id timestamp createdAt req
        = (Reply.error 400 (ErrorBody.binding req.fieldErrors), []) ∧
      ∃ tag, ("PortionMultiplier", tag) ∈ req.fieldErrors) := by
  have key := portionTags_none_iff q hq
  refine ⟨key, ?_, by decide!, by decide!, by decide!, by decide!, by decide!, ?_, ?_⟩
  · intro req hp h1 h2 h3
    rw [meal_fieldErrors_nil, hp, key]
    tauto
  · intro s
    cases s <;> decide!
  · intro store id t1 t2 req hp hr
    have hne : mealEntryRequest.portionTags req.PortionMultiplier ≠ none := by
      rw [hp]
      exact fun h => hr (key.mp h)
    refine ⟨CreateMealEntry_binding store id t1 t2 req (meal_fieldErrors_ne_nil req hne), ?_⟩
    obtain ⟨tag, ht⟩ := Option.ne_none_iff_exists'.mp hne
    refine ⟨tag, ?_⟩
    unfold mealEntryRequest.fieldErrors
    rw [ht, fieldError_some]
    simp

/-- Witness of C12: the portion 1/2. -/
theorem C12_portion_check_witness :
    (mealEntryRequest.portionTags (F64.fin (1 / 2)) = none ↔
      ((1 : ℚ) / 10 ≤ 1 / 2 ∧ (1 : ℚ) / 2 ≤ 3)) ∧
    (∀ req : mealEntryRequest, req.PortionMultiplier = F64.fin (1 / 2) →
      req.UserID ≠ "" → req.PackageID ≠ "" → req.Date ≠ "" →
      (req.fieldErrors = [] ↔ ((1 : ℚ) / 10 ≤ 1 / 2 ∧ (1 : ℚ) / 2 ≤ 3))) ∧
    mealEntryRequest.portionTags (F64.lit (1 / 10)) = none ∧
    mealEntryRequest.portionTags (F64.lit 3) = none ∧
    mealEntryRequest.portionTags (F64.lit (9 / 100)) = some "min" ∧
    mealEntryRequest.portionTags (F64.lit (301 / 100)) = some "max" ∧
    mealEntryRequest.portionTags F64.nan ≠ none ∧
    (∀ s, mealEntryRequest.portionTags (F64.inf s) ≠ none) ∧
    (∀ (store : Store) (id : String) (timestamp createdAt : Instant) (req : mealEntryRequest),
      req.PortionMultiplier = F64.fin (1 / 2) → ¬ ((1 : ℚ) / 10 ≤ 1 / 2 ∧ (1 : ℚ) / 2 ≤ 3) →
      CreateMealEntry store id timestamp createdAt req
        = (Reply.error 400 (ErrorBody.binding req.fieldErrors), []) ∧
      ∃ tag, ("PortionMultiplier", tag) ∈ req.fieldErrors) :=
  C12_portion_check (1 / 2) (by decide!)

/-- C13: the tags of `IntensityMultiplier` and `DurationMinutes` pass exactly when
`0.5 ≤ intensity ≤ 2` and `5 ≤ duration ≤ 180`: with the other fields present, the
binding of the request passes if and only if both are in range.  A request with one of
them out of range is answered 400 with the binding error, and no call is made on the
store: no package lookup, no user lookup, no write. -/
theorem C13_workout_checks (q : ℚ) (d : Int) :
    ((workoutEntryRequest.intensityTags (F64.fin q) = none ∧
        workoutEntryRequest.durationTags d = none) ↔
      (1 / 2 ≤ q ∧ q ≤ 2 ∧ 5 ≤ d ∧ d ≤ 180)) ∧
    (∀ req : workoutEntryRequest, req.IntensityMultiplier = F64.fin q →
      req.DurationMinutes = d → req.UserID ≠ "" → req.PackageID ≠ "" → req.Date ≠ "" →
      (req.fieldErrors = [] ↔ (1 / 2 ≤ q ∧ q ≤ 2 ∧ 5 ≤ d ∧ d ≤ 180))) ∧
    workoutEntryRequest.intensityTags F64.nan ≠ none ∧
    (∀ s, workoutEntryRequest.intensityTags (F64.inf s) ≠ none) ∧
    (∀ (store : Store) (id : String) (timestamp createdAt : Instant)
        (req : workoutEntryRequest),
      req.IntensityMultiplier = F64.fin q → req.DurationMinutes = d →
      ¬ (1 / 2 ≤ q ∧ q ≤ 2 ∧ 5 ≤ d ∧ d ≤ 180) →
      CreateWorkoutEntry store id timestamp createdAt req
        = (Reply.error 400 (ErrorBody.binding req.fieldErrors), [])) := by
  have k1 := intensityTags_none_iff q
  have k2 := durationTags_none_iff d
  have key : (workoutEntryRequest.intensityTags (F64.fin q) = none ∧
        workoutEntryRequest.durationTags d = none) ↔
      (1 / 2 ≤ q ∧ q ≤ 2 ∧ 5 ≤ d ∧ d ≤ 180) := by
    rw [k1, k2]
    tauto
  refine ⟨key, ?_, by decide!, ?_, ?_⟩
  · intro req hi hd h1 h2 h3
    rw [workout_fieldErrors_nil, hi, hd, ← key]
    tauto
  · intro s
    cases s <;> decide!
  · intro store id t1 t2 req hi hd hr
    apply CreateWorkoutEntry_binding
    apply workout_fieldErrors_ne_nil
    rw [hi, hd]
    by_contra hcon
    push_neg at hcon
    exact hr (key.mp hcon)

/-- Witness of C13: a request of 200 minutes at intensity 1 is refused without a call on
the store. -/
theorem C13_workout_checks_witness :
    CreateWorkoutEntry storeWithoutUsers "e1" 1 2
        ⟨"usr1", "workout1", F64.fin 1, 200, "2023-03-18"⟩
      = (Reply.error 400 (ErrorBody.binding [("DurationMinutes", "max")]), []) :=
  ((C13_workout_checks 1 200).2.2.2.2 storeWithoutUsers "e1" 1 2
    ⟨"usr1", "workout1", F64.fin 1, 200, "2023-03-18"⟩ rfl rfl (by norm_num)).trans
    (by decide!)

/-- The three membership checks pass exactly when the three values are in their sets. -/
theorem enumError_none_iff (gender activityLevel goal : String) :
    CreateUser.enumError gender activityLevel goal = none ↔
      ((gender = GenderMale ∨ gender = GenderFemale ∨ gender = GenderOther) ∧
        (activityLevel = ActivityLow ∨ activityLevel = ActivityModerate ∨
          activityLevel = ActivityHigh) ∧
        (goal = GoalTypeLose ∨ goal = GoalTypeGain)) := by
  unfold CreateUser.enumError
  split_ifs with h1 h2 h3 <;> simp only [reduceCtorEq, false_iff, true_iff] <;> tauto

/-- C14, as stated, fails: the binding checks more than presence.  A request with every
field present, a birth date that parses and the three values in their sets, but a
password of three characters, is answered 400 and nothing is handed to the store. -/
theorem C14_counterexample :
    parseDate "1990-01-01" = some ⟨1990, 1, 1⟩ ∧
    CreateUser.enumError "FEMALE" "LOW" "LOSE" = none ∧
    CreateUser (fun _ => true) storeWithoutUsers "u1" ⟨2026, 6, 1⟩ 1 2 3 0
        ⟨"Ann", "ann@example.com", "abc", "FEMALE", "1990-01-01", F64.fin 165, F64.fin 60,
          "LOW", "LOSE"⟩
      = (Reply.error 400 (ErrorBody.binding [("Password", "min")]), []) := by
  decide!

/-- C14 (amended): given a registration request that passes the whole binding (every
field present, the email well formed, the password of six characters or more) and whose
birth date parses, `CreateUser` answers 400 without a call on the store if and only if
gender is not one of MALE, FEMALE, OTHER, or activityLevel is not one of LOW, MODERATE,
HIGH, or goal is not one of LOSE, GAIN; otherwise it hands the store, in its one call,
the new user, whose goal is computed from the base calories. -/
theorem C14_registration_checks (isEmail : String → Bool) (store : Store) (id : String)
    (now : Date) (startDate createdAt lastLoginAt : Instant) (implInt : Int)
    (req : userRegistrationRequest) (birthDate : Date)
    (hb : req.fieldErrors isEmail = []) (hd : parseDate req.BirthDate = some birthDate) :
    ((((CreateUser isEmail store id now startDate createdAt lastLoginAt implInt req).1.status
          = 400 ∧
        (CreateUser isEmail store id now startDate createdAt lastLoginAt implInt req).2 = [])
      ↔ ¬ ((req.Gender = GenderMale ∨ req.Gender = GenderFemale ∨ req.Gender = GenderOther) ∧
          (req.ActivityLevel = ActivityLow ∨ req.ActivityLevel = ActivityModerate ∨
            req.ActivityLevel = ActivityHigh) ∧
          (req.Goal = GoalTypeLose ∨ req.Goal = GoalTypeGain)))) ∧
    (((req.Gender = GenderMale ∨ req.Gender = GenderFemale ∨ req.Gender = GenderOther) ∧
          (req.ActivityLevel = ActivityLow ∨ req.ActivityLevel = ActivityModerate ∨
            req.ActivityLevel = ActivityHigh) ∧
          (req.Goal = GoalTypeLose ∨ req.Goal = GoalTypeGain)) →
      (CreateUser isEmail store id now startDate createdAt lastLoginAt implInt req).2
        = [StoreCall.CreateUser
            (CreateUser.newUser id birthDate now startDate createdAt lastLoginAt implInt req)] ∧
      (CreateUser.newUser id birthDate now startDate createdAt lastLoginAt implInt
          req).Goal.toGoalInfo
        = CreateUser.goal
            ((calculateBaseCalories req.Weight req.Height birthDate req.Gender
              req.ActivityLevel now).getD implInt) req.Goal ∧
      ∀ created, store.CreateUser
          (CreateUser.newUser id birthDate now startDate createdAt lastLoginAt implInt req)
            = Except.ok created →
        (CreateUser isEmail store id now startDate createdAt lastLoginAt implInt req).1
          = Reply.json 201 created) := by
  have hu : CreateUser isEmail store id now startDate createdAt lastLoginAt implInt req
      = match CreateUser.enumError req.Gender req.ActivityLevel req.Goal with
        | some message => (Reply.error 400 (ErrorBody.text message), [])
        | none =>
          match store.CreateUser
            (CreateUser.newUser id birthDate now startDate createdAt lastLoginAt implInt
              req) with
          | Except.error e =>
            (Reply.error 400 (ErrorBody.text e),
              [StoreCall.CreateUser
                (CreateUser.newUser id birthDate now startDate createdAt lastLoginAt implInt
                  req)])
          | Except.ok createdUser =>
            (Reply.json 201 createdUser,
              [StoreCall.CreateUser
                (CreateUser.newUser id birthDate now startDate createdAt lastLoginAt implInt
                  req)]) := by
    unfold CreateUser
    rw [if_neg (by rw [hb]; simp)]
    simp only [hd]
  rw [hu, ← enumError_none_iff]
  cases he : CreateUser.enumError req.Gender req.ActivityLevel req.Goal with
  | some message => simp [Reply.status]
  | none =>
    cases hs : store.CreateUser
        (CreateUser.newUser id birthDate now startDate createdAt lastLoginAt implInt req) with
    | error e => simp [CreateUser.newUser]
    | ok created => simp [CreateUser.newUser]

/-- Witness of C14: a request with the goal MAINTAIN, which is not in the set. -/
theorem C14_registration_checks_witness :
    (CreateUser (fun _ => true) storeWithoutUsers "u1" ⟨2026, 6, 1⟩ 1 2 3 0
        ⟨"Ann", "ann@example.com", "abcdef", "FEMALE", "1990-01-01", F64.fin 165, F64.fin 60,
          "LOW", "MAINTAIN"⟩).1.status = 400 ∧
    (CreateUser (fun _ => true) storeWithoutUsers "u1" ⟨2026, 6, 1⟩ 1 2 3 0
        ⟨"Ann", "ann@example.com", "abcdef", "FEMALE", "1990-01-01", F64.fin 165, F64.fin 60,
          "LOW", "MAINTAIN"⟩).2 = [] :=
  (C14_registration_checks (fun _ => true) storeWithoutUsers "u1" ⟨2026, 6, 1⟩ 1 2 3 0
    ⟨"Ann", "ann@example.com", "abcdef", "FEMALE", "1990-01-01", F64.fin 165, F64.fin 60,
      "LOW", "MAINTAIN"⟩ ⟨1990, 1, 1⟩ (by decide!) (by decide!)).1.mpr (by decide)

/-- C15: the scenario MALE, 80 kg, 180 cm, age 34, MODERATE, LOSE.  The BMR of the
formula is 1830.924, the floor of 1830.924 * 1.55 is 2837, and the code computes
`baseCalories = 2837`, `targetCalories = 2337`, `targetProtein = 146`,
`targetCarbs = 292` and `targetFat = 64`; so does the user built by `CreateUser` for
a person born on 1992-01-01 who registers on 2026-06-01. -/
theorem C15_scenario :
    Spec.bmr 80 180 34 "MALE" = 1830924 / 1000 ∧
    ⌊(1830924 / 1000 : ℚ) * (155 / 100)⌋ = 2837 ∧
    calculateBaseCalories.atAge (F64.fin 80) (F64.fin 180) 34 GenderMale ActivityModerate
      = some 2837 ∧
    CreateUser.goal 2837 GoalTypeLose = ⟨"LOSE", 2337, some 146, some 292, some 64⟩ ∧
    calculateBaseCalories.age ⟨1992, 1, 1⟩ ⟨2026, 6, 1⟩ = 34 ∧
    (CreateUser.newUser "u1" ⟨1992, 1, 1⟩ ⟨2026, 6, 1⟩ 1 2 3 0
        ⟨"Bob", "bob@example.com", "abcdef", "MALE", "1992-01-01", F64.fin 180, F64.fin 80,
          "MODERATE", "LOSE"⟩).Goal.toGoalInfo
      = ⟨"LOSE", 2337, some 146, some 292, some 64⟩ := by
  decide!

/-- C16: for the package with base duration 30 and base burn 300, an entry of 45
minutes at intensity 1.2 for a user of 90 kg has `caloriesBurned = 694`. -/
theorem C16_scenario :
    CreateWorkoutEntry.caloriesBurned ⟨30, 300⟩ 45 (F64.lit (12 / 10)) (F64.fin 90)
      = some 694 := by
  decide!

/-- C17, as stated, fails: the code truncates the product, it does not round it to the
nearest integer.  For a base of 3 and a portion of 0.5 the product is 1.5: the stored
value is 1, the nearest integer is 2. -/
theorem C17_counterexample :
    mealEntryRequest.portionTags (F64.fin (1 / 2)) = none ∧
    (CreateMealEntry.newEntry "usr1" "meal1" (F64.fin (1 / 2)) ⟨"LUNCH", 3, 3, 3, 3⟩).Calories
      = some 1 ∧
    round ((3 : ℚ) * (1 / 2)) = 2 := by
  decide!

/-- C17 (amended): for a meal package whose four base values are between 0 and 2^51
and a portion `p` between 0.1 and 3, each of calories, protein, carbs and fat of the
entry is defined, is never above the product of the base value and `p` rounded to the
nearest integer, and is at most one below it. -/
theorem C17_truncation_not_rounding (userID packageID : String) (pkg : MealPackage) (p : ℚ)
    (hp0 : 1 / 10 ≤ p) (hp1 : p ≤ 3)
    (hc : 0 ≤ pkg.BaseCalories ∧ pkg.BaseCalories ≤ 2 ^ 51)
    (hpr : 0 ≤ pkg.BaseProtein ∧ pkg.BaseProtein ≤ 2 ^ 51)
    (hcb : 0 ≤ pkg.BaseCarbs ∧ pkg.BaseCarbs ≤ 2 ^ 51)
    (hf : 0 ≤ pkg.BaseFat ∧ pkg.BaseFat ≤ 2 ^ 51) :
    ∃ calories protein carbs fat : Int,
      (CreateMealEntry.newEntry userID packageID (F64.fin p) pkg).Calories = some calories ∧
      (CreateMealEntry.newEntry userID packageID (F64.fin p) pkg).Protein = some protein ∧
      (CreateMealEntry.newEntry userID packageID (F64.fin p) pkg).Carbs = some carbs ∧
      (CreateMealEntry.newEntry userID packageID (F64.fin p) pkg).Fat = some fat ∧
      round ((pkg.BaseCalories : ℚ) * p) - 1 ≤ calories ∧
      calories ≤ round ((pkg.BaseCalories : ℚ) * p) ∧
      round ((pkg.BaseProtein : ℚ) * p) - 1 ≤ protein ∧
      protein ≤ round ((pkg.BaseProtein : ℚ) * p) ∧
      round ((pkg.BaseCarbs : ℚ) * p) - 1 ≤ carbs ∧
      carbs ≤ round ((pkg.BaseCarbs : ℚ) * p) ∧
      round ((pkg.BaseFat : ℚ) * p) - 1 ≤ fat ∧
      fat ≤ round ((pkg.BaseFat : ℚ) * p) := by
  have hp : 0 ≤ p := by linarith
  obtain ⟨c1, e1, l1, u1⟩ := scaled_round pkg.BaseCalories p hc.1 hc.2 hp hp1
  obtain ⟨c2, e2, l2, u2⟩ := scaled_round pkg.BaseProtein p hpr.1 hpr.2 hp hp1
  obtain ⟨c3, e3, l3, u3⟩ := scaled_round pkg.BaseCarbs p hcb.1 hcb.2 hp hp1
  obtain ⟨c4, e4, l4, u4⟩ := scaled_round pkg.BaseFat p hf.1 hf.2 hp hp1
  exact ⟨c1, c2, c3, c4, e1, e2, e3, e4, l1, u1, l2, u2, l3, u3, l4, u4⟩

/-- Witness of C17: the package of 500 kcal, 30 g, 60 g and 15 g at the portion 1/2. -/
theorem C17_truncation_not_rounding_witness :
    ∃ calories protein carbs fat : Int,
      (CreateMealEntry.newEntry "usr1" "meal1" (F64.fin (1 / 2))
        ⟨"LUNCH", 500, 30, 60, 15⟩).Calories = some calories ∧
      (CreateMealEntry.newEntry "usr1" "meal1" (F64.fin (1 / 2))
        ⟨"LUNCH", 500, 30, 60, 15⟩).Protein = some protein ∧
      (CreateMealEntry.newEntry "usr1" "meal1" (F64.fin (1 / 2))
        ⟨"LUNCH", 500, 30, 60, 15⟩).Carbs = some carbs ∧
      (CreateMealEntry.newEntry "usr1" "meal1" (F64.fin (1 / 2))
        ⟨"LUNCH", 500, 30, 60, 15⟩).Fat = some fat ∧
      round ((((500 : Int)) : ℚ) * (1 / 2)) - 1 ≤ calories ∧
      calories ≤ round ((((500 : Int)) : ℚ) * (1 / 2)) ∧
      round ((((30 : Int)) : ℚ) * (1 / 2)) - 1 ≤ protein ∧
      protein ≤ round ((((30 : Int)) : ℚ) * (1 / 2)) ∧
      round ((((60 : Int)) : ℚ) * (1 / 2)) - 1 ≤ carbs ∧
      carbs ≤ round ((((60 : Int)) : ℚ) * (1 / 2)) ∧
      round ((((15 : Int)) : ℚ) * (1 / 2)) - 1 ≤ fat ∧
      fat ≤ round ((((15 : Int)) : ℚ) * (1 / 2)) :=
  C17_truncation_not_rounding "usr1" "meal1" ⟨"LUNCH", 500, 30, 60, 15⟩ (1 / 2)
    (by norm_num) (by norm_num) (by decide) (by decide) (by decide) (by decide)

/-- C18: `CreateMealEntry` never looks the user up.  In a store that knows no user, a
meal-entry request for the user `ghost` is answered 201 and its entry is handed to the
store, the only calls being the package lookup and the write, while the workout-entry
request for the same user is answered 400 `Invalid user` and writes nothing. -/
theorem C18_meal_entry_unknown_user :
    (∀ id, storeWithoutUsers.GetUser id = Except.error "user not found") ∧
    CreateMealEntry storeWithoutUsers "e1" 1 2 ⟨"ghost", "meal1", F64.fin 1, "2023-03-18"⟩
      = (Reply.json 201
          ⟨⟨"ghost", "meal1", F64.fin 1, some 500, some 30, some 60, some 15, "LUNCH"⟩,
            "e1", ⟨2023, 3, 18⟩, 1, 2⟩,
          [StoreCall.GetMealPackage "meal1",
            StoreCall.CreateMealEntry
              ⟨⟨"ghost", "meal1", F64.fin 1, some 500, some 30, some 60, some 15, "LUNCH"⟩,
                "e1", ⟨2023, 3, 18⟩, 1, 2⟩]) ∧
    CreateWorkoutEntry storeWithoutUsers "e1" 1 2
        ⟨"ghost", "workout1", F64.fin 1, 30, "2023-03-18"⟩
      = (Reply.error 400 (ErrorBody.text "Invalid user: user not found"),
          [StoreCall.GetWorkoutPackage "workout1", StoreCall.GetUser "ghost"]) :=
  ⟨fun _ => rfl, by decide!, by decide!⟩

/-- C19: when the package id of a meal-entry or of a workout-entry request does not
resolve in the store, the handler replies with an error of status 400, not 500, whatever
else the request holds; the calls it made on the store are at most the package lookup:
no entry is handed to the store and nothing is written. -/
theorem C19_unresolved_package (store : Store) (id : String) (timestamp createdAt : Instant) :
    (∀ (req : mealEntryRequest) (e : String),
      store.GetMealPackage req.PackageID = Except.error e →
      (∃ body, (CreateMealEntry store id timestamp createdAt req).1 = Reply.error 400 body) ∧
      ((CreateMealEntry store id timestamp createdAt req).2 = [] ∨
        (CreateMealEntry store id timestamp createdAt req).2
          = [StoreCall.GetMealPackage req.PackageID]) ∧
      ∀ call ∈ (CreateMealEntry store id timestamp createdAt req).2, call.isWrite = false) ∧
    (∀ (req : workoutEntryRequest) (e : String),
      store.GetWorkoutPackage req.PackageID = Except.error e →
      (∃ body, (CreateWorkoutEntry store id timestamp createdAt req).1
        = Reply.error 400 body) ∧
      ((CreateWorkoutEntry store id timestamp createdAt req).2 = [] ∨
        (CreateWorkoutEntry store id timestamp createdAt req).2
          = [StoreCall.GetWorkoutPackage req.PackageID]) ∧
      ∀ call ∈ (CreateWorkoutEntry store id timestamp createdAt req).2,
        call.isWrite = false) := by
  constructor
  · intro req e he
    unfold CreateMealEntry
    split_ifs with hb
    · simp
    · cases hd : parseDate req.Date with
      | none => simp
      | some date => simp [he, StoreCall.isWrite]
  · intro req e he
    unfold CreateWorkoutEntry
    split_ifs with hb
    · simp
    · cases hd : parseDate req.Date with
      | none => simp
      | some date => simp [he, StoreCall.isWrite]

/-- Witness of C19: the package ids `nomeal` and `noworkout` are unknown to the store. -/
theorem C19_unresolved_package_witness :
    (CreateMealEntry storeWithoutUsers "e1" 1 2
        ⟨"usr1", "nomeal", F64.fin 1, "2023-03-18"⟩).2 = [StoreCall.GetMealPackage "nomeal"] ∧
    ∃ body, (CreateWorkoutEntry storeWithoutUsers "e1" 1 2
        ⟨"usr1", "noworkout", F64.fin 1, 30, "2023-03-18"⟩).1 = Reply.error 400 body :=
  ⟨(((C19_unresolved_package storeWithoutUsers "e1" 1 2).1
      ⟨"usr1", "nomeal", F64.fin 1, "2023-03-18"⟩ "meal package not found" rfl).2.1).resolve_left
      (by decide!),
    ((C19_unresolved_package storeWithoutUsers "e1" 1 2).2
      ⟨"usr1", "noworkout", F64.fin 1, 30, "2023-03-18"⟩ "workout package not found" rfl).1⟩

/-- C20, as stated, fails: `calculateBaseCalories` reads the clock.  With the same
weight, height, birth date, gender and activity level, the call made on 2026-06-01
returns 2837 and the call made on 2027-06-01 returns 2829. -/
theorem C20_counterexample :
    calculateBaseCalories (F64.fin 80) (F64.fin 180) ⟨1992, 1, 1⟩ GenderMale ActivityModerate
        ⟨2026, 6, 1⟩ = some 2837 ∧
    calculateBaseCalories (F64.fin 80) (F64.fin 180) ⟨1992, 1, 1⟩ GenderMale ActivityModerate
        ⟨2027, 6, 1⟩ = some 2829 := by
  decide!

/-- C20 (amended): `calculateBaseCalories` depends on the moment of the call through
the age only: two invocations with the same weight, height, birth date, gender and
activity level, made at moments that give the same age, return the same value. -/
theorem C20_same_age_same_result (weight height : F64) (birthDate : Date)
    (gender activityLevel : String) (now1 now2 : Date)
    (h : calculateBaseCalories.age birthDate now1 = calculateBaseCalories.age birthDate now2) :
    calculateBaseCalories weight height birthDate gender activityLevel now1
      = calculateBaseCalories weight height birthDate gender activityLevel now2 := by
  unfold calculateBaseCalories
  rw [h]

/-- Witness of C20: two days of the same year of age. -/
theorem C20_same_age_same_result_witness :
    calculateBaseCalories (F64.fin 80) (F64.fin 180) ⟨1992, 1, 1⟩ GenderMale ActivityModerate
        ⟨2026, 6, 1⟩
      = calculateBaseCalories (F64.fin 80) (F64.fin 180) ⟨1992, 1, 1⟩ GenderMale
          ActivityModerate ⟨2026, 9, 30⟩ :=
  C20_same_age_same_result (F64.fin 80) (F64.fin 180) ⟨1992, 1, 1⟩ GenderMale ActivityModerate
    ⟨2026, 6, 1⟩ ⟨2026, 9, 30⟩ (by decide)

/-! ## Strings: auxiliary facts -/

theorem cut_at_cons_eq (t : List Char) : strings.cut ['@'] ('@' :: t) = some ([], t) := by
  simp [strings.cut]

theorem cut_at_cons_ne (x : Char) (t : List Char) (hx : ¬ '@' = x) :
    strings.cut ['@'] (x :: t)
      = match strings.cut ['@'] t with
        | some (before, after) => some (x :: before, after)
        | none => none := by
  rw [strings.cut]
  simp [hx]

theorem cut_at_none (l : List Char) (h : '@' ∉ l) : strings.cut ['@'] l = none := by
  induction l with
  | nil => simp [strings.cut]
  | cons x t ih =>
    simp only [List.mem_cons, not_or] at h
    rw [cut_at_cons_ne x t h.1, ih h.2]

theorem cut_at_some (a b : List Char) (h : '@' ∉ a) :
    strings.cut ['@'] (a ++ '@' :: b) = some (a, b) := by
  induction a with
  | nil => exact cut_at_cons_eq b
  | cons x t ih =>
    simp only [List.mem_cons, not_or] at h
    rw [List.cons_append, cut_at_cons_ne x _ h.1, ih h.2]

theorem cut_at_inv (l a b : List Char) (h : strings.cut ['@'] l = some (a, b)) :
    l = a ++ '@' :: b ∧ '@' ∉ a := by
  induction l generalizing a with
  | nil => simp [strings.cut] at h
  | cons x t ih =>
    by_cases hx : '@' = x
    · subst hx
      rw [cut_at_cons_eq] at h
      simp only [Option.some.injEq, Prod.mk.injEq] at h
      obtain ⟨rfl, rfl⟩ := h
      simp
    · rw [cut_at_cons_ne x t hx] at h
      cases hc : strings.cut ['@'] t with
      | none => rw [hc] at h; cases h
      | some p =>
        obtain ⟨a1, b1⟩ := p
        rw [hc] at h
        simp only [Option.some.injEq, Prod.mk.injEq] at h
        obtain ⟨rfl, rfl⟩ := h
        obtain ⟨e, hn⟩ := ih a1 hc
        refine ⟨by rw [e]; simp, ?_⟩
        simp only [List.mem_cons, not_or]
        exact ⟨hx, hn⟩

theorem cut_at_none_inv (l : List Char) (h : strings.cut ['@'] l = none) : '@' ∉ l := by
  intro hm
  obtain ⟨a, b, e, hn⟩ := List.eq_append_cons_of_mem hm
  rw [e, cut_at_some a b hn] at h
  cases h

theorem splitChars_none (sep : List Char) (n : Nat) (s : List Char)
    (h : strings.cut sep s = none) : strings.splitChars sep n s = [s] := by
  cases n with
  | zero => rfl
  | succ n => simp [strings.splitChars, h]

theorem splitChars_some (sep : List Char) (n : Nat) (s a b : List Char)
    (h : strings.cut sep s = some (a, b)) :
    strings.splitChars sep (n + 1) s = a :: strings.splitChars sep n b := by
  simp [strings.splitChars, h]

theorem splitChars_cons (sep : List Char) (n : Nat) (s : List Char) :
    ∃ y ys, strings.splitChars sep n s = y :: ys := by
  cases n with
  | zero => exact ⟨s, [], rfl⟩
  | succ n =>
    cases h : strings.cut sep s with
    | none => exact ⟨s, [], splitChars_none sep _ s h⟩
    | some p => exact ⟨p.1, _, splitChars_some sep n s p.1 p.2 h⟩

/-- The first part of a split on `@` has no `@`. -/
theorem splitChars_at_head (n : Nat) (s : List Char) (h : s.length ≤ n) :
    ∃ y ys, strings.splitChars ['@'] n s = y :: ys ∧ '@' ∉ y := by
  cases n with
  | zero =>
    have : s = [] := List.length_eq_zero.mp (Nat.le_zero.mp h)
    subst this
    exact ⟨[], [], rfl, by simp⟩
  | succ n =>
    cases hc : strings.cut ['@'] s with
    | none => exact ⟨s, [], splitChars_none _ _ s hc, cut_at_none_inv s hc⟩
    | some p =>
      obtain ⟨a, b⟩ := p
      exact ⟨a, _, splitChars_some _ n s a b hc, (cut_at_inv s a b hc).2⟩

theorem isPrefixOf_scheme (x y z : Char) (u : List Char) :
    List.isPrefixOf [':', '/', '/'] (x :: y :: z :: u) = (':' == x && ('/' == y && '/' == z)) := by
  simp only [List.isPrefixOf, Bool.and_true]

theorem isPrefixOf_scheme_one (x : Char) : List.isPrefixOf [':', '/', '/'] [x] = false := by
  simp only [List.isPrefixOf, Bool.and_false]

theorem isPrefixOf_scheme_two (x y : Char) :
    List.isPrefixOf [':', '/', '/'] [x, y] = false := by
  simp only [List.isPrefixOf, Bool.and_false]

theorem cut_scheme_cons (x : Char) (t : List Char)
    (hp : List.isPrefixOf [':', '/', '/'] (x :: t) = false) :
    strings.cut [':', '/', '/'] (x :: t)
      = match strings.cut [':', '/', '/'] t with
        | some (before, after) => some (x :: before, after)
        | none => none := by
  rw [strings.cut, if_neg (by rw [hp]; simp)]

theorem cut_scheme_none_cons (x : Char) (t : List Char)
    (h : strings.cut [':', '/', '/'] (x :: t) = none) :
    List.isPrefixOf [':', '/', '/'] (x :: t) = false ∧ strings.cut [':', '/', '/'] t = none := by
  have hp : List.isPrefixOf [':', '/', '/'] (x :: t) = false := by
    by_contra hcon
    rw [Bool.not_eq_false] at hcon
    rw [strings.cut, if_pos hcon] at h
    cases h
  refine ⟨hp, ?_⟩
  rw [cut_scheme_cons x t hp] at h
  cases hc : strings.cut [':', '/', '/'] t with
  | none => rfl
  | some p => rw [hc] at h; cases h

theorem cut_scheme_some (a c : List Char) (h : strings.cut [':', '/', '/'] a = none) :
    strings.cut [':', '/', '/'] (a ++ ':' :: '/' :: '/' :: c) = some (a, c) := by
  induction a with
  | nil => simp [strings.cut]
  | cons x t ih =>
    obtain ⟨hp, ht⟩ := cut_scheme_none_cons x t h
    have hp2 : List.isPrefixOf [':', '/', '/'] (x :: (t ++ ':' :: '/' :: '/' :: c)) = false := by
      rcases t with _ | ⟨y, _ | ⟨z, u⟩⟩
      · rw [List.nil_append, isPrefixOf_scheme]
        simp
      · rw [List.cons_append, List.nil_append, isPrefixOf_scheme]
        simp
      · rw [List.cons_append, List.cons_append, isPrefixOf_scheme]
        rw [isPrefixOf_scheme] at hp
        exact hp
    rw [List.cons_append, cut_scheme_cons x _ hp2, ih ht]

theorem cut_scheme_inv (l a b : List Char) (h : strings.cut [':', '/', '/'] l = some (a, b)) :
    l = a ++ ':' :: '/' :: '/' :: b ∧ strings.cut [':', '/', '/'] a = none := by
  induction l generalizing a with
  | nil => simp [strings.cut] at h
  | cons x t ih =>
    by_cases hp : List.isPrefixOf [':', '/', '/'] (x :: t) = true
    · rw [strings.cut, if_pos hp] at h
      simp only [Option.some.injEq, Prod.mk.injEq] at h
      obtain ⟨rfl, rfl⟩ := h
      refine ⟨?_, by simp [strings.cut]⟩
      rcases t with _ | ⟨y, _ | ⟨z, u⟩⟩
      · rw [isPrefixOf_scheme_one] at hp; cases hp
      · rw [isPrefixOf_scheme_two] at hp; cases hp
      · rw [isPrefixOf_scheme] at hp
        simp only [Bool.and_eq_true, beq_iff_eq] at hp
        obtain ⟨h1, h2, h3⟩ := hp
        subst h1 h2 h3
        simp
    · have hp' : List.isPrefixOf [':', '/', '/'] (x :: t) = false := by
        rw [Bool.not_eq_true] at hp
        exact hp
      rw [cut_scheme_cons x t hp'] at h
      cases hc : strings.cut [':', '/', '/'] t with
      | none => rw [hc] at h; cases h
      | some p =>
        obtain ⟨a1, b1⟩ := p
        rw [hc] at h
        simp only [Option.some.injEq, Prod.mk.injEq] at h
        obtain ⟨rfl, rfl⟩ := h
        obtain ⟨e, h1⟩ := ih a1 hc
        refine ⟨by rw [e]; simp, ?_⟩
        have hq : List.isPrefixOf [':', '/', '/'] (x :: a1) = false := by
          by_contra hcon
          rw [Bool.not_eq_false] at hcon
          apply hp
          rw [e]
          rcases a1 with _ | ⟨y, _ | ⟨z, u⟩⟩
          · rw [isPrefixOf_scheme_one] at hcon; cases hcon
          · rw [isPrefixOf_scheme_two] at hcon; cases hcon
          · rw [List.cons_append, List.cons_append, isPrefixOf_scheme]
            rw [isPrefixOf_scheme] at hcon
            exact hcon
        rw [cut_scheme_cons x a1 hq, h1]

theorem Split_at (l : List Char) (a b : List Char) (h : strings.cut ['@'] l = some (a, b)) :
    ∃ y ys, '@' ∉ y ∧ strings.Split (String.mk l) "@" = String.mk a :: String.mk y :: ys ∧
      (strings.cut ['@'] b = none → y = b) := by
  obtain ⟨e, -⟩ := cut_at_inv l a b h
  have hlen : l.length = (a.length + b.length) + 1 := by rw [e]; simp; omega
  obtain ⟨y, ys, hy, hn⟩ := splitChars_at_head (a.length + b.length) b (by omega)
  refine ⟨y, ys.map String.mk, hn, ?_, ?_⟩
  · unfold strings.Split
    show List.map String.mk (strings.splitChars ['@'] l.length l) = _
    rw [hlen, splitChars_some _ _ l a b h, hy]
    rfl
  · intro hb
    rw [splitChars_none _ _ b hb] at hy
    simp only [List.cons.injEq] at hy
    exact hy.1.symm

theorem Split_scheme_some (l a b : List Char)
    (h : strings.cut [':', '/', '/'] l = some (a, b)) :
    ∃ y ys, strings.Split (String.mk l) "://" = String.mk a :: y :: ys := by
  obtain ⟨e, -⟩ := cut_scheme_inv l a b h
  have hlen : l.length = (a.length + b.length + 2) + 1 := by rw [e]; simp; omega
  obtain ⟨y, ys, hy⟩ := splitChars_cons [':', '/', '/'] (a.length + b.length + 2) b
  refine ⟨String.mk y, ys.map String.mk, ?_⟩
  unfold strings.Split
  show List.map String.mk (strings.splitChars [':', '/', '/'] l.length l) = _
  rw [hlen, splitChars_some _ _ l a b h, hy]
  rfl

theorem Split_scheme_none (l : List Char) (h : strings.cut [':', '/', '/'] l = none) :
    strings.Split (String.mk l) "://" = [String.mk l] := by
  unfold strings.Split
  show List.map String.mk (strings.splitChars [':', '/', '/'] l.length l) = _
  rw [splitChars_none _ _ l h]
  rfl

/-- The value of `maskConnectionString` on a string with an `@`, by what stands before
the first `@`. -/
theorem mask_of_cut (l a b : List Char) (h : strings.cut ['@'] l = some (a, b)) :
    ∃ y, '@' ∉ y ∧ (strings.cut ['@'] b = none → y = b) ∧
      maskConnectionString (String.mk l)
        = match strings.cut [':', '/', '/'] a with
          | some (a0, _) => String.mk a0 ++ "://[credentials-hidden]@" ++ String.mk y
          | none => String.mk l := by
  obtain ⟨y, ys, hy, hs, hb⟩ := Split_at l a b h
  refine ⟨y, hy, hb, ?_⟩
  have hc : strings.Contains (String.mk l) "@" = true := by
    unfold strings.Contains
    show (strings.cut ['@'] l).isSome = true
    rw [h]
    rfl
  unfold maskConnectionString
  rw [if_pos hc, hs]
  cases hq : strings.cut [':', '/', '/'] a with
  | none =>
    simp only
    rw [Split_scheme_none a hq]
  | some p =>
    obtain ⟨a0, a1⟩ := p
    obtain ⟨z, zs, hz⟩ := Split_scheme_some a a0 a1 hq
    simp only
    rw [hz]

theorem mask_no_at (l : List Char) (h : strings.cut ['@'] l = none) :
    maskConnectionString (String.mk l) = String.mk l := by
  have hc : strings.Contains (String.mk l) "@" = false := by
    unfold strings.Contains
    show (strings.cut ['@'] l).isSome = false
    rw [h]
    rfl
  unfold maskConnectionString
  rw [if_neg (by rw [hc]; simp)]

theorem mk_append (a b : List Char) : String.mk a ++ String.mk b = String.mk (a ++ b) := rfl

/-- The masked form of a string `scheme://credentials@rest`. -/
theorem mask_shape (s c r : List Char) (h1 : '@' ∉ s)
    (h2 : strings.cut [':', '/', '/'] s = none) (h3 : '@' ∉ c) (h4 : '@' ∉ r) :
    maskConnectionString (String.mk (s ++ ':' :: '/' :: '/' :: (c ++ '@' :: r)))
      = String.mk s ++ "://[credentials-hidden]@" ++ String.mk r := by
  have e : s ++ ':' :: '/' :: '/' :: (c ++ '@' :: r)
      = (s ++ ':' :: '/' :: '/' :: c) ++ '@' :: r := by simp
  have hn : '@' ∉ s ++ ':' :: '/' :: '/' :: c := by
    simp only [List.mem_append, List.mem_cons, not_or]
    exact ⟨h1, by decide, by decide, by decide, h3⟩
  have hcut := cut_at_some _ r hn
  rw [← e] at hcut
  obtain ⟨y, -, hb, hm⟩ := mask_of_cut _ _ _ hcut
  rw [hm, cut_scheme_some s c h2, hb (cut_at_none r h4)]

/-! ## Dates: auxiliary facts -/

theorem daysIn_le (y : Int) (m : Nat) : daysIn y m ≤ 31 := by
  unfold daysIn
  split_ifs <;> omega

/-- Within one year the day of the year grows with the date. -/
theorem YearDay_mono (a b : Date) (ha : a.valid = true) (hb : b.valid = true)
    (hy : a.year = b.year)
    (h : a.month < b.month ∨ (a.month = b.month ∧ a.day ≤ b.day)) :
    a.YearDay ≤ b.YearDay := by
  obtain ⟨y1, m1, d1⟩ := a
  obtain ⟨y2, m2, d2⟩ := b
  simp only [Date.valid, Bool.and_eq_true, decide_eq_true_eq] at ha hb
  simp only at hy h
  subst hy
  obtain ⟨⟨⟨ha1, ha2⟩, ha3⟩, ha4⟩ := ha
  obtain ⟨⟨⟨hb1, hb2⟩, hb3⟩, hb4⟩ := hb
  unfold Date.YearDay
  simp only
  clear hb4
  rcases h with h | ⟨rfl, h⟩
  · cases hl : isLeap y1 <;> interval_cases m1 <;>
      norm_num [daysIn, daysBefore, hl] at ha4 ⊢ <;>
      interval_cases m2 <;> norm_num [daysBefore] <;> omega
  · omega

/-! ## Collections: auxiliary facts -/

theorem user_lookup_id (u : User) : u.toDocument.lookup "id" = none := rfl

theorem user_lookup_underscore_id (u : User) :
    u.toDocument.lookup "_id" = some (Value.string u.ID) := rfl

theorem entry_lookup_userID (e : FullMealEntry) : e.toDocument.lookup "userID" = none := rfl

theorem ObjectIDFromHex_some (id : String) (v : Value) (h : ObjectIDFromHex id = some v) :
    ∃ hex, v = Value.objectID hex := by
  unfold ObjectIDFromHex at h
  split_ifs at h
  exact ⟨_, (Option.some.inj h).symm⟩

/-- No document written from a `models.User` meets a filter of `GetUser`. -/
theorem GetUser_not_found (us : List User) (es : List Document) (id : String) :
    MongoStore.GetUser ⟨us.map User.toDocument, es⟩ id = Except.error "user not found" := by
  have hfound : (match ObjectIDFromHex id with
      | none => FindOne (us.map User.toDocument) [("id", Cond.eq (Value.string id))]
      | some objID => FindOne (us.map User.toDocument) [("_id", Cond.eq objID)]) = none := by
    cases h : ObjectIDFromHex id with
    | none =>
      simp only [FindOne, List.find?_eq_none, List.mem_map]
      rintro d ⟨u, -, rfl⟩
      simp [Document.meets, user_lookup_id, Cond.holds]
    | some v =>
      obtain ⟨hex, rfl⟩ := ObjectIDFromHex_some id v h
      simp only [FindOne, List.find?_eq_none, List.mem_map]
      rintro d ⟨u, -, rfl⟩
      simp [Document.meets, user_lookup_underscore_id, Cond.holds]
  unfold MongoStore.GetUser
  simp only [hfound]

/-- No document written from a `models.MealEntry` meets the filter of
`GetMealEntriesByUserAndDateRange`. -/
theorem GetMealEntries_empty (us : List Document) (es : List FullMealEntry) (userID : String)
    (startDate endDate : Instant) :
    MongoStore.GetMealEntriesByUserAndDateRange ⟨us, es.map FullMealEntry.toDocument⟩ userID
      startDate endDate = [] := by
  unfold MongoStore.GetMealEntriesByUserAndDateRange
  have hfind : Find (es.map FullMealEntry.toDocument)
      [("userID", Cond.eq (Value.string userID)),
       ("timestamp",
          Cond.range (Value.dateTime startDate.toDateTime)
            (Value.dateTime endDate.toDateTime))] = [] := by
    simp only [Find, List.filter_eq_nil_iff, List.mem_map]
    rintro d ⟨e, -, rfl⟩
    simp [Document.meets, entry_lookup_userID, Cond.holds]
  simp only [hfind]
  rfl

/-! ## Claims C21 to C29 -/

/-- C21: the meal entry that `CreateMealEntry` builds and hands to the store carries
the meal type of the fetched package, the user id, package id and portion multiplier of
the request, and the parsed date of the request, each unchanged. -/
theorem C21_copied_verbatim (store : Store) (id : String) (timestamp createdAt : Instant)
    (req : mealEntryRequest) (date : Date) (pkg : MealPackage)
    (hb : req.fieldErrors = []) (hd : parseDate req.Date = some date)
    (hp : store.GetMealPackage req.PackageID = Except.ok pkg) :
    ∃ entry : FullMealEntry,
      (CreateMealEntry store id timestamp createdAt req).2
        = [StoreCall.GetMealPackage req.PackageID, StoreCall.CreateMealEntry entry] ∧
      entry.MealType = pkg.MealType ∧ entry.UserID = req.UserID ∧
      entry.PackageID = req.PackageID ∧ entry.PortionMultiplier = req.PortionMultiplier ∧
      entry.Date = date := by
  refine ⟨{ toMealEntry :=
              CreateMealEntry.newEntry req.UserID req.PackageID req.PortionMultiplier pkg
            ID := id
            Date := date
            Timestamp := timestamp
            CreatedAt := createdAt }, ?_, rfl, rfl, rfl, rfl, rfl⟩
  unfold CreateMealEntry
  rw [if_neg (by rw [hb]; simp)]
  simp only [hd, hp]
  split <;> rfl

/-- Witness of C21: a lunch of 500 kcal at the portion 0.5. -/
theorem C21_copied_verbatim_witness :
    ∃ entry : FullMealEntry,
      (CreateMealEntry storeWithoutUsers "e1" 1 2
          ⟨"usr1", "meal1", F64.fin (1 / 2), "2023-03-18"⟩).2
        = [StoreCall.GetMealPackage "meal1", StoreCall.CreateMealEntry entry] ∧
      entry.MealType = "LUNCH" ∧ entry.UserID = "usr1" ∧
      entry.PackageID = "meal1" ∧ entry.PortionMultiplier = F64.fin (1 / 2) ∧
      entry.Date = ⟨2023, 3, 18⟩ :=
  C21_copied_verbatim storeWithoutUsers "e1" 1 2 ⟨"usr1", "meal1", F64.fin (1 / 2), "2023-03-18"⟩
    ⟨2023, 3, 18⟩ ⟨"LUNCH", 500, 30, 60, 15⟩ (by decide!) (by decide) rfl

/-- C22: a user stored by `MongoStore.CreateUser` is not found again by
`MongoStore.GetUser`.  The document carries the id under `_id`, as a string;
`GetUser` asks for the field `id`, which no document has, or, when the id reads as an
object id, for an `_id` that is an object id, which a string does not equal.  For the
user `usr1`, and for a user stored with a generated object id, the answer is
`user not found`, and so it is for every id on every collection of stored users. -/
theorem C22_stored_user_not_found :
    (MongoStore.CreateUser ⟨[], []⟩ "65f1a2b3c4d5e6f708192a3b" exampleUser).toOption
      = some (exampleUser, ⟨[exampleUser.toDocument], []⟩) ∧
    FindOne [exampleUser.toDocument] [("_id", Cond.eq (Value.string "usr1"))]
      = some exampleUser.toDocument ∧
    MongoStore.GetUser ⟨[exampleUser.toDocument], []⟩ "usr1" = Except.error "user not found" ∧
    (MongoStore.CreateUser ⟨[], []⟩ "65f1a2b3c4d5e6f708192a3b"
        { exampleUser with ID := "" }).toOption
      = some ({ exampleUser with ID := "65f1a2b3c4d5e6f708192a3b" },
          ⟨[User.toDocument { exampleUser with ID := "65f1a2b3c4d5e6f708192a3b" }], []⟩) ∧
    MongoStore.GetUser
        ⟨[User.toDocument { exampleUser with ID := "65f1a2b3c4d5e6f708192a3b" }], []⟩
        "65f1a2b3c4d5e6f708192a3b" = Except.error "user not found" ∧
    ∀ (us : List User) (es : List Document) (id : String),
      MongoStore.GetUser ⟨us.map User.toDocument, es⟩ id = Except.error "user not found" :=
  ⟨by decide!, by decide!, GetUser_not_found [exampleUser] [] "usr1", by decide!,
    GetUser_not_found [{ exampleUser with ID := "65f1a2b3c4d5e6f708192a3b" }] []
      "65f1a2b3c4d5e6f708192a3b",
    GetUser_not_found⟩

/-- C23: a meal entry stored by `MongoStore.CreateMealEntry` is not returned by
`GetMealEntriesByUserAndDateRange`.  The document carries the user under `userId`; the
filter asks for the field `userID`, which no document has.  For the entry of `usr1`
stamped at one second, the range from 0 to 2 seconds returns nothing, and so does
every range for every user on every collection of stored entries. -/
theorem C23_stored_entry_not_returned :
    (MongoStore.CreateMealEntry ⟨[], []⟩ "65f1a2b3c4d5e6f708192a3b" 5000000000
        exampleMealEntry).toOption
      = some (exampleMealEntry, ⟨[], [exampleMealEntry.toDocument]⟩) ∧
    exampleMealEntry.UserID = "usr1" ∧
    (0 : Instant) ≤ exampleMealEntry.Timestamp ∧ exampleMealEntry.Timestamp ≤ 2000000000 ∧
    Find [exampleMealEntry.toDocument]
        [("userId", Cond.eq (Value.string "usr1")),
         ("timestamp", Cond.range (Value.dateTime 0) (Value.dateTime 2000))]
      = [exampleMealEntry.toDocument] ∧
    MongoStore.GetMealEntriesByUserAndDateRange ⟨[], [exampleMealEntry.toDocument]⟩ "usr1"
      0 2000000000 = [] ∧
    ∀ (us : List Document) (es : List FullMealEntry) (userID : String)
      (startDate endDate : Instant),
      MongoStore.GetMealEntriesByUserAndDateRange ⟨us, es.map FullMealEntry.toDocument⟩ userID
        startDate endDate = [] :=
  ⟨by decide!, by decide, by decide, by decide, by decide!, by decide!, GetMealEntries_empty⟩

/-- C24: the upper bound that `GetMealEntries` and `GetWorkoutEntries` hand to the store
is 23:59:59 of the end date, not the end of the day.  For the end date 2023-03-18 the
bound is 1679183999 s; the instant half a second later is still on that day and is
above the bound.  So it is for every end date: the last second of the day, its first
instant apart, is excluded. -/
theorem C24_last_second_excluded :
    (∀ store : String → Instant → Instant → List FullMealEntry,
      (GetMealEntries store "2026-11-04" "usr1" (some "2023-03-18") (some "2023-03-18")).2
        = [("usr1", 1679097600000000000, 1679183999000000000)]) ∧
    (∀ store : String → Instant → Instant → List WorkoutEntry,
      (GetWorkoutEntries store "2026-11-04" "usr1" (some "2023-03-18") (some "2023-03-18")).2
        = [("usr1", 1679097600000000000, 1679183999000000000)]) ∧
    Date.midnight ⟨2023, 3, 18⟩ ≤ 1679183999500000000 ∧
    (1679183999500000000 : Instant) < Date.midnight ⟨2023, 3, 18⟩ + 24 * Hour ∧
    ¬ ((1679183999500000000 : Instant) ≤ endOfDay (Date.midnight ⟨2023, 3, 18⟩)) ∧
    ∀ endDate : Instant,
      endDate ≤ endOfDay endDate + 500000000 ∧
      endOfDay endDate + 500000000 < endDate + 24 * Hour ∧
      ¬ (endOfDay endDate + 500000000 ≤ endOfDay endDate) := by
  refine ⟨fun _ => rfl, fun _ => rfl, by decide, by decide, by decide, ?_⟩
  intro endDate
  have e : endOfDay endDate = endDate + 86399000000000 := by
    unfold endOfDay Hour Second
    norm_num
  have e2 : (24 : Int) * Hour = 86400000000000 := by decide
  rw [e, e2]
  have key : ∀ x : Int, x ≤ x + 86399000000000 + 500000000 ∧
      x + 86399000000000 + 500000000 < x + 86400000000000 ∧
      ¬ (x + 86399000000000 + 500000000 ≤ x + 86399000000000) := by
    intro x
    omega
  exact key endDate

/-- C25: `maskConnectionString` hides the credentials.  For a scheme `s` with neither
`@` nor `://`, credentials `c` without `@` and a remainder `r` without `@`, the string
`s ++ "://" ++ c ++ "@" ++ r` becomes `s ++ "://[credentials-hidden]@" ++ r`; and a
string without `@` is returned unchanged. -/
theorem C25_mask_credentials (s c r : String)
    (hs1 : strings.Contains s "@" = false) (hs2 : strings.Contains s "://" = false)
    (hc : strings.Contains c "@" = false) (hr : strings.Contains r "@" = false) :
    maskConnectionString (s ++ "://" ++ c ++ "@" ++ r) = s ++ "://[credentials-hidden]@" ++ r ∧
    ∀ uri : String, strings.Contains uri "@" = false → maskConnectionString uri = uri := by
  constructor
  · have k1 : strings.cut ['@'] s.data = none := by
      unfold strings.Contains at hs1
      exact Option.not_isSome_iff_eq_none.mp (by rw [hs1]; simp)
    have k2 : strings.cut [':', '/', '/'] s.data = none := by
      unfold strings.Contains at hs2
      exact Option.not_isSome_iff_eq_none.mp (by rw [hs2]; simp)
    have k3 : strings.cut ['@'] c.data = none := by
      unfold strings.Contains at hc
      exact Option.not_isSome_iff_eq_none.mp (by rw [hc]; simp)
    have k4 : strings.cut ['@'] r.data = none := by
      unfold strings.Contains at hr
      exact Option.not_isSome_iff_eq_none.mp (by rw [hr]; simp)
    have e : s ++ "://" ++ c ++ "@" ++ r
        = String.mk (s.data ++ ':' :: '/' :: '/' :: (c.data ++ '@' :: r.data)) := by
      apply String.ext
      simp [String.data_append]
    rw [e]
    exact mask_shape s.data c.data r.data (cut_at_none_inv _ k1) k2 (cut_at_none_inv _ k3)
      (cut_at_none_inv _ k4)
  · intro uri h
    unfold maskConnectionString
    rw [if_neg (by rw [h]; simp)]

/-- Witness of C25: a MongoDB connection string. -/
theorem C25_mask_credentials_witness :
    maskConnectionString ("mongodb" ++ "://" ++ "user:secret" ++ "@" ++ "host:27017/db")
      = "mongodb" ++ "://[credentials-hidden]@" ++ "host:27017/db" ∧
    ∀ uri : String, strings.Contains uri "@" = false → maskConnectionString uri = uri :=
  C25_mask_credentials "mongodb" "user:secret" "host:27017/db" (by decide) (by decide)
    (by decide) (by decide)

/-- C26, as stated, fails beyond the 53 bits of a `float64`: for the target
2^62 + 500 the conversion of the target to `float64` loses the 500, and the macros
account for 564 calories less than the target. -/
theorem C26_counterexample :
    CreateUser.targetProtein 4611686018427388404 = some 288230376151711744 ∧
    CreateUser.targetCarbs 4611686018427388404 = some 576460752303423488 ∧
    CreateUser.targetFat 4611686018427388404 = some 128102389400760768 ∧
    ¬ ((4611686018427388404 : Int) - 16
        ≤ 288230376151711744 * 4 + 576460752303423488 * 4 + 128102389400760768 * 9) := by
  decide!

/-- C26 (amended): for every target `T` with `0 ≤ T ≤ 2^53` the three macro targets
are defined, never account for more energy than `T` and fall short by at most 16:
`T - 16 ≤ protein*4 + carbs*4 + fat*9 ≤ T`; the shortfall 16 is attained at
`T = 143`, where the macros are 8, 17 and 3. -/
theorem C26_macro_energy (T : Int) (h0 : 0 ≤ T) (h1 : T ≤ 2 ^ 53) :
    (∃ p c f : Int,
      CreateUser.targetProtein T = some p ∧ CreateUser.targetCarbs T = some c ∧
      CreateUser.targetFat T = some f ∧
      T - 16 ≤ p * 4 + c * 4 + f * 9 ∧ p * 4 + c * 4 + f * 9 ≤ T) ∧
    CreateUser.targetProtein 143 = some 8 ∧ CreateUser.targetCarbs 143 = some 17 ∧
    CreateUser.targetFat 143 = some 3 ∧ (8 : Int) * 4 + 17 * 4 + 3 * 9 = 143 - 16 := by
  refine ⟨⟨_, _, _, targetProtein_eq T h0 h1, targetCarbs_eq T h0 h1, targetFat_eq T h0 h1,
    by omega, by omega⟩, by decide!, by decide!, by decide!, by norm_num⟩

/-- Witness of C26: the target 2337 of the scenario, with macros 146, 292 and 64. -/
theorem C26_macro_energy_witness :
    (∃ p c f : Int,
      CreateUser.targetProtein 2337 = some p ∧ CreateUser.targetCarbs 2337 = some c ∧
      CreateUser.targetFat 2337 = some f ∧
      (2337 : Int) - 16 ≤ p * 4 + c * 4 + f * 9 ∧ p * 4 + c * 4 + f * 9 ≤ 2337) ∧
    CreateUser.targetProtein 143 = some 8 ∧ CreateUser.targetCarbs 143 = some 17 ∧
    CreateUser.targetFat 143 = some 3 ∧ (8 : Int) * 4 + 17 * 4 + 3 * 9 = 143 - 16 :=
  C26_macro_energy 2337 (by norm_num) (by norm_num)

/-- C27: for a fixed birth date the age computed in `calculateBaseCalories` does not
decrease as the date of the clock advances: for dates `a1` not after `a2` of the
calendar, the age at `a1` is at most the age at `a2`. -/
theorem C27_age_monotone (birthDate a1 a2 : Date) (h1 : a1.valid = true)
    (h2 : a2.valid = true) (h : a1.notAfter a2 = true) :
    calculateBaseCalories.age birthDate a1 ≤ calculateBaseCalories.age birthDate a2 := by
  unfold Date.notAfter at h
  simp only [Bool.or_eq_true, Bool.and_eq_true, decide_eq_true_eq] at h
  unfold calculateBaseCalories.age
  simp only
  rcases h with h | ⟨hy, hm⟩
  · split_ifs <;> omega
  · have := YearDay_mono a1 a2 h1 h2 hy hm
    split_ifs <;> omega

/-- Witness of C27: from the leap day of 2024 to the first of March 2025, for a birth
on 2000-03-01. -/
theorem C27_age_monotone_witness :
    calculateBaseCalories.age ⟨2000, 3, 1⟩ ⟨2024, 2, 29⟩
      ≤ calculateBaseCalories.age ⟨2000, 3, 1⟩ ⟨2025, 3, 1⟩ :=
  C27_age_monotone ⟨2000, 3, 1⟩ ⟨2024, 2, 29⟩ ⟨2025, 3, 1⟩ (by decide) (by decide) (by decide)

/-- C28: when `CreateUser` gets as far as its call on the store, the activity level
of the request, with which `calculateBaseCalories` was called to build the user, is
one of LOW, MODERATE and HIGH, and the multiplier is 1.2, 1.55 or 1.9: the 1.4 of the
default branch, which any other level would get, is not applied. -/
theorem C28_activity_level_validated (isEmail : String → Bool) (store : Store) (id : String)
    (now : Date) (startDate createdAt lastLoginAt : Instant) (implInt : Int)
    (req : userRegistrationRequest)
    (h : (CreateUser isEmail store id now startDate createdAt lastLoginAt implInt req).2 ≠ []) :
    (req.ActivityLevel = ActivityLow ∨ req.ActivityLevel = ActivityModerate ∨
      req.ActivityLevel = ActivityHigh) ∧
    (calculateBaseCalories.activityMultiplier req.ActivityLevel = F64.lit (12 / 10) ∨
      calculateBaseCalories.activityMultiplier req.ActivityLevel = F64.lit (155 / 100) ∨
      calculateBaseCalories.activityMultiplier req.ActivityLevel = F64.lit (19 / 10)) ∧
    calculateBaseCalories.activityMultiplier req.ActivityLevel ≠ F64.lit (14 / 10) ∧
    (∃ birthDate, parseDate req.BirthDate = some birthDate ∧
      (CreateUser isEmail store id now startDate createdAt lastLoginAt implInt req).2
        = [StoreCall.CreateUser
            (CreateUser.newUser id birthDate now startDate createdAt lastLoginAt implInt req)] ∧
      (CreateUser.newUser id birthDate now startDate createdAt lastLoginAt implInt
          req).Goal.toGoalInfo
        = CreateUser.goal
            ((calculateBaseCalories req.Weight req.Height birthDate req.Gender
              req.ActivityLevel now).getD implInt) req.Goal) ∧
    calculateBaseCalories.activityMultiplier "SEDENTARY" = F64.lit (14 / 10) := by
  have hact : req.ActivityLevel = ActivityLow ∨ req.ActivityLevel = ActivityModerate ∨
      req.ActivityLevel = ActivityHigh := by
    unfold CreateUser at h
    split_ifs at h with hb
    · exact absurd rfl h
    · cases hd : parseDate req.BirthDate with
      | none => rw [hd] at h; exact absurd rfl h
      | some birthDate =>
        cases he : CreateUser.enumError req.Gender req.ActivityLevel req.Goal with
        | some message => rw [hd] at h; simp only [he] at h; exact absurd rfl h
        | none => exact ((enumError_none_iff _ _ _).mp he).2.1
  have hdate : ∃ birthDate, parseDate req.BirthDate = some birthDate ∧
      (CreateUser isEmail store id now startDate createdAt lastLoginAt implInt req).2
        = [StoreCall.CreateUser
            (CreateUser.newUser id birthDate now startDate createdAt lastLoginAt implInt
              req)] := by
    unfold CreateUser at h ⊢
    split_ifs at h ⊢ with hb
    · exact absurd rfl h
    · cases hd : parseDate req.BirthDate with
      | none => rw [hd] at h; exact absurd rfl h
      | some birthDate =>
        refine ⟨birthDate, rfl, ?_⟩
        cases he : CreateUser.enumError req.Gender req.ActivityLevel req.Goal with
        | some message => rw [hd] at h; simp only [he] at h; exact absurd rfl h
        | none =>
          simp only
          split <;> rfl
  obtain ⟨birthDate, hd, ht⟩ := hdate
  refine ⟨hact, ?_, ?_, ⟨birthDate, hd, ht, rfl⟩, by decide!⟩
  · rcases hact with h1 | h1 | h1 <;> rw [h1]
    · exact Or.inl (by decide!)
    · exact Or.inr (Or.inl (by decide!))
    · exact Or.inr (Or.inr (by decide!))
  · rcases hact with h1 | h1 | h1 <;> rw [h1] <;> decide!

/-- Witness of C28: the registration of the scenario, with the level MODERATE. -/
theorem C28_activity_level_validated_witness :
    calculateBaseCalories.activityMultiplier "MODERATE" ≠ F64.lit (14 / 10) :=
  (C28_activity_level_validated (fun _ => true) storeWithoutUsers "u1" ⟨2026, 6, 1⟩ 1 2 3 0
    ⟨"Bob", "bob@example.com", "abcdef", "MALE", "1992-01-01", F64.fin 180, F64.fin 80,
      "MODERATE", "LOSE"⟩ (by decide!)).2.2.1

/-- C29: `maskConnectionString` is idempotent: masking a masked string changes
nothing. -/
theorem C29_mask_idempotent (uri : String) :
    maskConnectionString (maskConnectionString uri) = maskConnectionString uri := by
  obtain ⟨l⟩ := uri
  cases h : strings.cut ['@'] l with
  | none => rw [mask_no_at l h, mask_no_at l h]
  | some p =>
    obtain ⟨a, b⟩ := p
    obtain ⟨y, hy, -, hm⟩ := mask_of_cut l a b h
    obtain ⟨ea, ha⟩ := cut_at_inv l a b h
    cases hq : strings.cut [':', '/', '/'] a with
    | none =>
      rw [hq] at hm
      simp only at hm
      rw [hm, hm]
    | some q =>
      obtain ⟨a0, a1⟩ := q
      rw [hq] at hm
      simp only at hm
      obtain ⟨e0, h0⟩ := cut_scheme_inv a a0 a1 hq
      have ha0 : '@' ∉ a0 := by
        intro hmem
        apply ha
        rw [e0]
        exact List.mem_append_left _ hmem
      have hh : '@' ∉ "[credentials-hidden]".data := by decide
      have key := mask_shape a0 "[credentials-hidden]".data y ha0 h0 hh hy
      have e : String.mk a0 ++ "://[credentials-hidden]@" ++ String.mk y
          = String.mk (a0 ++ ':' :: '/' :: '/' :: ("[credentials-hidden]".data ++ '@' :: y)) := by
        apply String.ext
        simp [String.data_append]
      rw [hm, e, key, e]

end BalanceLife
